import Mathlib

/-! nmcli-alt: adapter/device discovery and the Station layer.

A shallow embedding of `src/src/iwd_manager.cpp` and `src/src/station.cpp`.

* C++ `std::string` values are `String`s; the regular-expression engine works on
  their character lists.
* The D-Bus daemon is an explicit environment (`Bus`): every remote call is a
  function of its arguments that either answers or fails with the message of an
  `sdbus::Error`.
* C++ exceptions are values of `Exn`; code that can throw or that performs
  observable calls lives in `Eff`, a state-and-exception monad whose state is the
  trace of the calls performed so far (the trace survives an exception).
-/

namespace NmcliAlt

/-! ## Regular expressions over introspection data

All three patterns in the sources have the shape `<node name="(LIT CLASS+)"`:

* `<node name="(\d+)"`     (`nodeRegex` / `deviceRegex` of `IwdManager`),
* `<node name="(phy\d+)"`  (`phyRegex` of `IwdManager`),
* `<node name="([^"]+)"`   (`nodeRegex` of `Station::getAllConnection`).
-/

/-- A pattern `<node name="(LIT CLASS+)"`: `groupLit` is the literal that opens
the capture group and `cls` the character class repeated by `+`. -/
structure NodeRegex where
  groupLit : List Char
  cls : Char → Bool

/-- The double quote character. -/
def dquote : Char := Char.ofNat 34

/-- The literal `<node name="` every pattern starts with. -/
def openLit : List Char := "<node name=".toList ++ [dquote]

/-- Match a literal at the head of the input; the remaining input is returned. -/
def stripLit : List Char → List Char → Option (List Char)
  | [], s => some s
  | _ :: _, [] => none
  | l :: ls, c :: cs => if c = l then stripLit ls cs else none

/-- The closing `"` of a pattern at the head of the input. -/
def closeQuote : List Char → Option (List Char)
  | [] => none
  | d :: rest => if d = dquote then some rest else none

/-- The tail `CLASS+"` of a pattern, with the greedy, backtracking semantics of
ECMAScript: the run is extended as far as possible, and each time the rest of
the pattern fails the run gives back its last character.  The result is the run
and the input after the closing quote. -/
def plusThenQuote (cls : Char → Bool) : List Char → Option (List Char × List Char)
  | [] => none
  | c :: cs =>
    if cls c then
      match plusThenQuote cls cs with
      | some (run, rest) => some (c :: run, rest)
      | none =>
        match closeQuote cs with
        | some rest => some ([c], rest)
        | none => none
    else none

/-- Match the whole pattern anchored at the head of the input.  The result is
the text of capture group 1 and the input after the match (`match.suffix()`). -/
def matchHere (re : NodeRegex) (s : List Char) : Option (List Char × List Char) :=
  match stripLit openLit s with
  | none => none
  | some s1 =>
    match stripLit re.groupLit s1 with
    | none => none
    | some s2 =>
      match plusThenQuote re.cls s2 with
      | none => none
      | some (run, rest) => some (re.groupLit ++ run, rest)

/-- Embedding of `std::regex_search`: the leftmost position at which the pattern
matches wins.  The result is `(match.str(1), match.suffix())`. -/
def regex_search (re : NodeRegex) : List Char → Option (List Char × List Char)
  | [] => matchHere re []
  | c :: cs =>
    match matchHere re (c :: cs) with
    | some m => some m
    | none => regex_search re cs

/-! ## The bus environment -/

/-- A D-Bus variant as far as the sources inspect it. -/
inductive Variant where
  | str (s : String)
  | objectPath (p : String)
  | boolean (b : Bool)
  | int16 (n : Int)
  deriving DecidableEq, Repr

/-- The daemon and the process environment seen by the program.  A remote call
answers with `Except.ok` or fails with `Except.error what`, the message of the
`sdbus::Error` that sdbus-c++ throws. -/
structure Bus where
  /-- `org.freedesktop.DBus.Introspectable.Introspect` on an object path. -/
  introspect : String → Except String String
  /-- Property read: object path, interface, property.  An error reply of the
  daemon, as for a property that the object does not have, is a failure. -/
  getProperty : String → String → String → Except String Variant
  /-- A method call without arguments or results: object path, interface, method. -/
  callMethod : String → String → String → Except String Unit
  /-- `net.connman.iwd.Station.GetOrderedNetworks` on a device path. -/
  orderedNetworks : String → Except String (List (String × Int))
  /-- Whether `sdbus::createSystemBusConnection()` in the `Station` constructor
  succeeds. -/
  openConnection : Except String Unit
  /-- A method call whose reply is stored to a `bool`, as in
  `callMethod(method).onInterface(interface).storeResultsTo(result)` with
  `bool result`: object path, interface, method.  It fails when the call fails
  or when no boolean can be read from the reply. -/
  callMethodBool : String → String → String → Except String Bool :=
    fun _ _ _ => .error "Unknown method"
  /-- Property write: object path, interface, property, value. -/
  setProperty : String → String → String → Variant → Except String Unit :=
    fun _ _ _ _ => .error "Unknown property"

/-! ## IwdManager: object path resolution -/

namespace IwdManager

/-- `std::regex nodeRegex("<node name=\"(\\d+)\"")` of `getAdapterObjectPath`. -/
def nodeRegex : NodeRegex := ⟨[], Char.isDigit⟩

/-- `std::regex phyRegex("<node name=\"(phy\\d+)\"")`. -/
def phyRegex : NodeRegex := ⟨"phy".toList, Char.isDigit⟩

/-- `std::regex deviceRegex("<node name=\"(\\d+)\"")` of `getDeviceObjectPath`. -/
def deviceRegex : NodeRegex := ⟨[], Char.isDigit⟩

/-- `IwdManager::getAdapterObjectPath`.  `connection_` is `none` for a null
pointer.  A failed introspection (`sdbus::Error`) is caught and answered with
the default path. -/
def getAdapterObjectPath (connection_ : Option Bus) : String :=
  match connection_ with
  | none => ""
  | some bus =>
    match bus.introspect "/net/connman/iwd" with
    | .ok introspectionData =>
      match regex_search nodeRegex introspectionData.toList with
      | some (m1, _) => "/net/connman/iwd/" ++ String.mk m1
      | none =>
        match regex_search phyRegex introspectionData.toList with
        | some (m1, _) => "/net/connman/iwd/" ++ String.mk m1
        | none => "/net/connman/iwd/0"
    | .error _ => "/net/connman/iwd/0"

/-- `IwdManager::getDeviceObjectPath`.  The empty string reports failure. -/
def getDeviceObjectPath (connection_ : Option Bus) : String :=
  match connection_ with
  | none => ""
  | some bus =>
    let adapterPath := getAdapterObjectPath connection_
    if adapterPath = "" then ""
    else
      match bus.introspect adapterPath with
      | .ok introspectionData =>
        match regex_search deviceRegex introspectionData.toList with
        | some (m1, _) => adapterPath ++ "/" ++ String.mk m1
        | none => adapterPath ++ "/1"
      | .error _ => ""

end IwdManager

/-! ## Exceptions and effects -/

/-- The C++ exceptions that occur in the sources.  Every one of them derives
from `std::exception`; the four `...Exception` constructors derive from
`NmcliException`. -/
inductive Exn where
  /-- An `sdbus::Error` (a `std::runtime_error`). -/
  | sdbusError (what : String)
  | networkException (what : String)
  | dbusException (what : String)
  | commandExecutionException (what : String)
  | connectionException (what : String)
  /-- Any other `std::exception`, e.g. the `std::runtime_error` of `getProperty`. -/
  | stdException (what : String)
  deriving DecidableEq, Repr

/-- The `e.what()` of an exception. -/
def Exn.what : Exn → String
  | .sdbusError w => w
  | .networkException w => w
  | .dbusException w => w
  | .commandExecutionException w => w
  | .connectionException w => w
  | .stdException w => w

/-- Whether `catch (const NmcliException &)` catches the exception. -/
def Exn.isNmcli : Exn → Bool
  | .networkException _ => true
  | .dbusException _ => true
  | .commandExecutionException _ => true
  | .connectionException _ => true
  | _ => false

/-- What a run of the program does to the outside, in order. -/
inductive Event where
  /-- Control enters the named member function. -/
  | enter (fn : String)
  /-- A line written to `std::cerr`. -/
  | stderr (line : String)
  | introspect (path : String)
  | getProperty (path iface property : String)
  | callMethod (path iface method : String)
  | orderedNetworks (path : String)
  | openConnection
  | executeCommand (command : String) (args : List String)
  /-- A line written to `std::cout`. -/
  | stdout (line : String)
  /-- A `std::this_thread::sleep_for` of the given number of milliseconds. -/
  | sleep (milliseconds : Nat)
  /-- A call of `NetworkManager::printFormattedTable(data, headers)`. -/
  | printFormattedTable (data : List (List String)) (headers : List String)
  | setProperty (path iface property : String) (value : Variant)
  deriving DecidableEq, Repr

/-- Computations that may throw and that record the calls they perform: given
the trace so far they yield a result or an exception, and the extended trace. -/
def Eff (α : Type) : Type := List Event → Except Exn α × List Event

namespace Eff

/-- Sequencing: an exception skips the rest, the trace is kept. -/
def bind {α β : Type} (m : Eff α) (f : α → Eff β) : Eff β := fun t =>
  match m t with
  | (.ok a, t1) => f a t1
  | (.error e, t1) => (.error e, t1)

/-- A C++ `throw`. -/
def raise {α : Type} (e : Exn) : Eff α := fun t => (.error e, t)

/-- A C++ `try { m } catch (...) { h e }`. -/
def handle {α : Type} (m : Eff α) (h : Exn → Eff α) : Eff α := fun t =>
  match m t with
  | (.ok a, t1) => (.ok a, t1)
  | (.error e, t1) => h e t1

/-- Record one event. -/
def emit (e : Event) : Eff Unit := fun t => (.ok (), t ++ [e])

/-- The outcome of a remote call: an `sdbus::Error` is thrown when it fails. -/
def ofBus {α : Type} : Except String α → Eff α
  | .ok a => fun t => (.ok a, t)
  | .error w => raise (.sdbusError w)

/-- Run a computation from the empty trace. -/
def run {α : Type} (m : Eff α) : Except Exn α × List Event := m []

end Eff

instance : Monad Eff where
  pure a := fun t => (.ok a, t)
  bind := Eff.bind

instance : MonadExcept Exn Eff where
  throw := Eff.raise
  tryCatch := Eff.handle

/-! ## Station -/

/-- The C++ type `sdbus::ObjectPath`, a string of its own type. -/
structure ObjectPath where
  path : String
  deriving DecidableEq, Repr

/-- The types `T` at which the property templates are instantiated:
`ofVariant` is `containsValueOfType<T>()` together with `get<T>()`, and `zero`
is the value-initialised `T{}`. -/
class VariantType (T : Type) where
  ofVariant : Variant → Option T
  zero : T

instance : VariantType String where
  ofVariant v := match v with
    | .str s => some s
    | _ => none
  zero := ""

instance : VariantType ObjectPath where
  ofVariant v := match v with
    | .objectPath p => some ⟨p⟩
    | _ => none
  zero := ⟨""⟩

instance : VariantType Bool where
  ofVariant v := match v with
    | .boolean b => some b
    | _ => none
  zero := false

instance : VariantType Int where
  ofVariant v := match v with
    | .int16 n => some n
    | _ => none
  zero := 0

/-- The object state of `class Station`.  `connection_` is `none` for a null
pointer; `stationProxy_` is the proxy of `device_object_path_` on that
connection and is null exactly when the connection is. -/
structure Station where
  device_object_path_ : String
  connection_ : Option Bus

namespace Station

/-- `struct Station::NetworkInfo`. -/
structure NetworkInfo where
  object_path : String
  ssid : String
  security : String
  signal_strength : Int
  in_use : Bool
  deriving DecidableEq, Repr

/-- The constructor `Station::Station(device_object_path)`: it opens its own
connection to the system bus, which throws `sdbus::Error` on failure. -/
def new (bus : Bus) (device_object_path : String) : Eff Station := do
  Eff.emit .openConnection
  Eff.ofBus bus.openConnection
  pure ⟨device_object_path, some bus⟩

/-- The template `Station::getProperty<T>(interface, property)`. -/
def getProperty (T : Type) [VariantType T] (st : Station) (iface property : String) : Eff T :=
  match st.connection_ with
  | none => throw (.stdException "D-Bus connection or station proxy not initialized")
  | some bus => do
    Eff.emit (.getProperty st.device_object_path_ iface property)
    let result ← Eff.ofBus (bus.getProperty st.device_object_path_ iface property)
    match VariantType.ofVariant result with
    | some v => pure v
    | none => pure (VariantType.zero : T)

/-- The template `Station::getPropertyFromObjectPath<T>(objectPath, interface, property)`. -/
def getPropertyFromObjectPath (T : Type) [VariantType T] (st : Station)
    (objectPath : ObjectPath) (iface property : String) : Eff T :=
  match st.connection_ with
  | none => throw (.stdException "D-Bus connection not initialized")
  | some bus => do
    Eff.emit (.getProperty objectPath.path iface property)
    let result ← Eff.ofBus (bus.getProperty objectPath.path iface property)
    match VariantType.ofVariant result with
    | some v => pure v
    | none => pure (VariantType.zero : T)

/-- `Station::getConnectedNetwork`. -/
def getConnectedNetwork (st : Station) : Eff String := do
  let p ← getProperty ObjectPath st "net.connman.iwd.Station" "ConnectedNetwork"
  pure p.path

/-- `Station::getDeviceName`. -/
def getDeviceName (st : Station) : Eff String :=
  getPropertyFromObjectPath String st ⟨st.device_object_path_⟩ "net.connman.iwd.Device" "Name"

/-- `Station::scan`. -/
def scan (st : Station) : Eff Bool :=
  match st.connection_ with
  | none => throw (.dbusException "D-Bus connection or station proxy not initialized")
  | some bus =>
    try
      Eff.emit (.callMethod st.device_object_path_ "net.connman.iwd.Station" "Scan")
      Eff.ofBus (bus.callMethod st.device_object_path_ "net.connman.iwd.Station" "Scan")
      pure true
    catch e =>
      match e with
      | .sdbusError w => throw (.dbusException ("D-Bus error scanning networks: " ++ w))
      | .stdException w => throw (.networkException ("Error scanning networks: " ++ w))
      | _ => throw e

/-- The `for` loop of `Station::getOrderedNetworks`: one `NetworkInfo` is
pushed onto `networks` per element of `networkList`. -/
def getOrderedNetworksLoop (st : Station) (connectedNetwork : String) :
    List (String × Int) → List NetworkInfo → Eff (List NetworkInfo)
  | [], networks => pure networks
  | (objPath, signalStrength) :: more, networks => do
    let in_use := decide (objPath = connectedNetwork)
    let ssid ← getPropertyFromObjectPath String st ⟨objPath⟩ "net.connman.iwd.Network" "Name"
    let security ← getPropertyFromObjectPath String st ⟨objPath⟩ "net.connman.iwd.Network" "Type"
    getOrderedNetworksLoop st connectedNetwork more
      (networks ++ [⟨objPath, ssid, security, signalStrength, in_use⟩])

/-- `Station::getOrderedNetworks`. -/
def getOrderedNetworks (st : Station) : Eff (List NetworkInfo) :=
  match st.connection_ with
  | none => throw (.dbusException "D-Bus connection not initialized")
  | some bus =>
    try
      Eff.emit (.orderedNetworks st.device_object_path_)
      let networkList ← Eff.ofBus (bus.orderedNetworks st.device_object_path_)
      let connectedNetwork ← getConnectedNetwork st
      getOrderedNetworksLoop st connectedNetwork networkList []
    catch e =>
      match e with
      | .sdbusError w => throw (.dbusException ("D-Bus error getting ordered networks: " ++ w))
      | .stdException w => throw (.networkException ("Error getting ordered networks: " ++ w))
      | _ => throw e

/-- `std::regex nodeRegex("<node name=\"([^\"]+)\"")` of `getAllConnection`. -/
def nodeRegex : NodeRegex := ⟨[], fun c => c != dquote⟩

/-- The `while` loop of `Station::getAllConnection`; `fuel` bounds the number
of iterations. -/
def getAllConnectionLoop : Nat → List Char → List String → List String
  | 0, _, wifiConnections => wifiConnections
  | fuel + 1, searchStart, wifiConnections =>
    match regex_search nodeRegex searchStart with
    | none => wifiConnections
    | some (networkNodeName, suffix) =>
      if networkNodeName.all Char.isDigit then
        getAllConnectionLoop fuel suffix wifiConnections
      else
        getAllConnectionLoop fuel suffix
          (wifiConnections ++ ["/net/connman/iwd/" ++ String.mk networkNodeName])

/-- `Station::getAllConnection`.  The source dereferences `connection_`
without a check; the constructor always sets it, and the model throws where the
source would dereference a null pointer.  Every match consumes at least one
character, so the length of the data is enough fuel. -/
def getAllConnection (st : Station) : Eff (List String) :=
  match st.connection_ with
  | none => throw (.stdException "null connection_")
  | some bus => do
    Eff.emit (.introspect "/net/connman/iwd")
    let introspectionData ← Eff.ofBus (bus.introspect "/net/connman/iwd")
    pure (getAllConnectionLoop introspectionData.length introspectionData.toList [])

end Station

/-! ## IwdManager: connecting -/

namespace IwdManager

/-- `IwdManager::createStation`: `none` is the null pointer.  Every exception of
the `Station` constructor is a `std::exception` and is caught. -/
def createStation (connection_ : Option Bus) : Eff (Option Station) :=
  let devicePath := getDeviceObjectPath connection_
  if devicePath = "" then do
    Eff.emit (.stderr "Failed to get device object path for Station")
    pure none
  else
    match connection_ with
    | none => pure none
    | some bus =>
      try
        let station ← Station.new bus devicePath
        pure (some station)
      catch e => do
        Eff.emit (.stderr ("Failed to create Station: " ++ e.what))
        pure none

/-- The search loop of `connectToNetworkViaDBus`: the object path of the first
network whose SSID is the requested one, the empty string when there is none. -/
def findNetworkObjectPath (ssid : String) : List Station.NetworkInfo → String
  | [] => ""
  | network :: more =>
    if network.ssid = ssid then network.object_path else findNetworkObjectPath ssid more

/-- `IwdManager::connectToNetworkViaDBus`.  The password is not used. -/
def connectToNetworkViaDBus (connection_ : Option Bus) (ssid _password : String) : Eff Bool := do
  Eff.emit (.enter "connectToNetworkViaDBus")
  match connection_ with
  | none => throw (.dbusException "D-Bus connection not initialized")
  | some bus =>
    try
      let station ← createStation connection_
      match station with
      | none => throw (.networkException "Failed to create station")
      | some station =>
        let scanned ← station.scan
        if !scanned then
          throw (.networkException "Failed to scan networks")
        else
          let networks ← station.getOrderedNetworks
          let networkObjectPath := findNetworkObjectPath ssid networks
          if networkObjectPath = "" then
            throw (.networkException ("Network '" ++ ssid ++ "' not found"))
          else
            Eff.emit (.callMethod networkObjectPath "net.connman.iwd.Network" "Connect")
            Eff.ofBus (bus.callMethod networkObjectPath "net.connman.iwd.Network" "Connect")
            pure true
    catch e =>
      match e with
      | .sdbusError w => throw (.dbusException ("D-Bus error connecting to network: " ++ w))
      | .stdException w => throw (.networkException ("Error connecting to network: " ++ w))
      | _ => throw e

/-- `IwdManager::connectToNetworkViaIWCTL`.  `executeCommand` is
`ProcessUtil::executeCommand(command, args)`, which yields the exit status. -/
def connectToNetworkViaIWCTL (executeCommand : String → List String → Int)
    (connection_ : Option Bus) (ssid password : String) : Eff Bool := do
  Eff.emit (.enter "connectToNetworkViaIWCTL")
  try
    let args := ["station"]
    let station ← createStation connection_
    match station with
    | none => throw (.commandExecutionException "Failed to create station instance")
    | some station =>
      let deviceName ← station.getDeviceName
      if deviceName = "" then
        throw (.commandExecutionException "Failed to get device name")
      else
        let args := args ++ [deviceName, "connect", ssid]
        let args := if password ≠ "" then args ++ ["--passphrase", password] else args
        Eff.emit (.executeCommand "iwctl" args)
        let result := executeCommand "iwctl" args
        if result = 0 then
          pure true
        else
          throw (.commandExecutionException
            ("Failed to connect to network '" ++ ssid ++ "' via iwctl"))
  catch e =>
    match e with
    | .sdbusError w => throw (.commandExecutionException ("Error executing iwctl command: " ++ w))
    | .stdException w => throw (.commandExecutionException ("Error executing iwctl command: " ++ w))
    | _ => throw e

/-- `IwdManager::connectToNetwork`. -/
def connectToNetwork (executeCommand : String → List String → Int)
    (connection_ : Option Bus) (ssid password : String) : Eff Bool :=
  try
    let connected ← connectToNetworkViaDBus connection_ ssid password
    if !connected then
      Eff.emit (.stderr "Falling back to iwctl method...")
      connectToNetworkViaIWCTL executeCommand connection_ ssid password
    else
      pure true
  catch e =>
    match e with
    | .sdbusError w => throw (.networkException ("Error connecting to network: " ++ w))
    | .stdException w => throw (.networkException ("Error connecting to network: " ++ w))
    | _ => throw e

end IwdManager

/-! ## Station: further operations -/

namespace Station

/-- `Station::disconnect`. -/
def disconnect (st : Station) : Eff Bool :=
  match st.connection_ with
  | none => throw (.dbusException "D-Bus connection or station proxy not initialized")
  | some bus =>
    try
      Eff.emit (.callMethod st.device_object_path_ "net.connman.iwd.Station" "Disconnect")
      Eff.ofBus (bus.callMethod st.device_object_path_ "net.connman.iwd.Station" "Disconnect")
      pure true
    catch e =>
      match e with
      | .sdbusError w => throw (.dbusException ("D-Bus error disconnecting: " ++ w))
      | .stdException w => throw (.networkException ("Error disconnecting: " ++ w))
      | _ => throw e

/-- `Station::getState`. -/
def getState (st : Station) : Eff String :=
  getProperty String st "net.connman.iwd.Station" "State"

/-- `Station::isScanning`. -/
def isScanning (st : Station) : Eff Bool :=
  getProperty Bool st "net.connman.iwd.Station" "Scanning"

/-- The template `Station::callMethodFromObjectPath<T>(objectPath, interface,
method)` at `T = bool`, its only instantiation in the sources. -/
def callMethodFromObjectPath (st : Station) (objectPath : ObjectPath)
    (iface method : String) : Eff Bool :=
  match st.connection_ with
  | none => throw (.stdException "D-Bus connection not initialized")
  | some bus => do
    Eff.emit (.callMethod objectPath.path iface method)
    let result ← Eff.ofBus (bus.callMethodBool objectPath.path iface method)
    pure result

/-- The station at a moment at which the daemon answers a read of the
`Scanning` property of a station with `answer`; all other calls are answered as
before. -/
def whileScanning (st : Station) (answer : Except String Variant) : Station where
  device_object_path_ := st.device_object_path_
  connection_ := st.connection_.map fun bus =>
    { bus with
      getProperty := fun path iface property =>
        if iface = "net.connman.iwd.Station" ∧ property = "Scanning" then answer
        else bus.getProperty path iface property }

end Station

/-! ## ProcessUtil -/

namespace ProcessUtil

/-- What the operating system does with the command that `executeCommand`
starts. -/
inductive ChildOutcome where
  /-- `fork` returns -1. -/
  | forkFailed
  /-- `execvp` returns in the child, which then calls `_exit(1)`. -/
  | execFailed
  /-- The command runs and exits; `WEXITSTATUS` is the low byte of `code`. -/
  | exited (code : Nat)
  /-- The child ends without exiting (`WIFEXITED` is false). -/
  | killed
  deriving DecidableEq, Repr

/-- `ProcessUtil::executeCommand(command, args)`: the value it returns, given
what the operating system does with the command.  The lines it writes to
`std::cerr` are left out. -/
def executeCommand (os : String → List String → ChildOutcome)
    (command : String) (args : List String) : Int :=
  match os command args with
  | .forkFailed => -1
  | .execFailed => 1
  | .exited code => ((code % 256 : Nat) : Int)
  | .killed => -1

end ProcessUtil

/-! ## NetworkManager -/

/-- The data members of `class NetworkManager`. -/
structure NetworkManager where
  terse_output : Bool := false
  field_selection : List String := []

namespace IwdManager

/-- The constructor `IwdManager::IwdManager()`: `systemBus` is the outcome of
`sdbus::createSystemBusConnection()`.  The result is the member `connection_`. -/
def new (systemBus : Except String Bus) : Eff (Option Bus) := do
  Eff.emit .openConnection
  let bus ← Eff.ofBus systemBus
  pure (some bus)

end IwdManager

namespace NetworkManager

/-- `NetworkManager::deactivateConnection`.  Every exception is a
`std::exception` and is caught. -/
def deactivateConnection (systemBus : Except String Bus) (ssid : String) : Eff Bool :=
  try
    let connection_ ← IwdManager.new systemBus
    let station ← IwdManager.createStation connection_
    match station with
    | none => do
      Eff.emit (.stderr "Failed to create Station instance")
      pure false
    | some station => do
      let connectedNetworkPath ← station.getConnectedNetwork
      if connectedNetworkPath = "" then do
        Eff.emit (.stdout "Not connected to any network")
        pure true
      else do
        let connectedSSID ← station.getPropertyFromObjectPath String ⟨connectedNetworkPath⟩
          "net.connman.iwd.Network" "Name"
        if connectedSSID ≠ ssid then do
          Eff.emit (.stderr ("Not connected to network '" ++ ssid
            ++ "'. Currently connected to '" ++ connectedSSID ++ "'"))
          pure false
        else
          station.disconnect
  catch e => do
    Eff.emit (.stderr ("Error deactivating connection to '" ++ ssid ++ "': " ++ e.what))
    pure false

/-- The `for` loop of `NetworkManager::deleteConnection` together with the
statements after it. -/
def deleteConnectionLoop (station : Station) (ssid : String) : List String → Eff Bool
  | [] => do
    Eff.emit (.stderr ("Network '" ++ ssid ++ "' not found in known networks"))
    pure false
  | networkPath :: more => do
    let networkSSID ← station.getPropertyFromObjectPath String ⟨networkPath⟩
      "net.connman.iwd.KnownNetwork" "Name"
    if networkSSID = ssid then do
      let _ ← station.callMethodFromObjectPath ⟨networkPath⟩
        "net.connman.iwd.KnownNetwork" "Forget"
      Eff.emit (.stdout ("Successfully deleted connection '" ++ ssid ++ "'"))
      pure true
    else
      deleteConnectionLoop station ssid more

/-- `NetworkManager::deleteConnection`. -/
def deleteConnection (systemBus : Except String Bus) (ssid : String) : Eff Bool :=
  try
    let connection_ ← IwdManager.new systemBus
    let station ← IwdManager.createStation connection_
    match station with
    | none => do
      Eff.emit (.stderr "Failed to create Station instance")
      pure false
    | some station => do
      let wifiConnections ← station.getAllConnection
      deleteConnectionLoop station ssid wifiConnections
  catch e =>
    match e with
    | .sdbusError w => do
      Eff.emit (.stderr ("D-Bus error deleting connection '" ++ ssid ++ "': " ++ w))
      pure false
    | _ => do
      Eff.emit (.stderr ("Error deleting connection '" ++ ssid ++ "': " ++ e.what))
      pure false

/-- `NetworkManager::dbmToQualitySegmented`; `/` on `int` truncates. -/
def dbmToQualitySegmented (rssi_dbm : Int) : Int :=
  if rssi_dbm ≥ -50 then 100
  else if rssi_dbm ≥ -60 then 80 + Int.tdiv ((rssi_dbm + 60) * 20) 10
  else if rssi_dbm ≥ -70 then 60 + Int.tdiv ((rssi_dbm + 70) * 20) 10
  else if rssi_dbm ≥ -80 then 40 + Int.tdiv ((rssi_dbm + 80) * 20) 10
  else if rssi_dbm ≥ -90 then 20 + Int.tdiv ((rssi_dbm + 90) * 20) 10
  else 0

/-- The constant `maxAttempts` of `listWifiNetworks`. -/
def maxAttempts : Nat := 20

/-- The polling loop of `listWifiNetworks`: `while (attempts < maxAttempts)`.
`scanningAt k` is the daemon's answer to the read of `Scanning` made when
`attempts = k`.  The result is the final value of `attempts`; `fuel` bounds the
number of iterations. -/
def pollScanning (station : Station) (scanningAt : Nat → Except String Variant) :
    Nat → Nat → Eff Nat
  | 0, attempts => pure attempts
  | fuel + 1, attempts =>
    if attempts < maxAttempts then do
      let scanning ← (station.whileScanning (scanningAt attempts)).isScanning
      if !scanning then
        pure attempts
      else do
        Eff.emit (.sleep 500)
        pollScanning station scanningAt fuel (attempts + 1)
    else
      pure attempts

/-- The block `if (rescan) { ... }` of `listWifiNetworks`.  The loop runs at
most `maxAttempts` times, so `maxAttempts` is enough fuel. -/
def rescanNetworks (station : Station) (scanningAt : Nat → Except String Variant)
    (rescan : Bool) : Eff Unit :=
  if rescan then do
    let started ← station.scan
    if started then do
      let attempts ← pollScanning station scanningAt maxAttempts 0
      if attempts ≥ maxAttempts then
        Eff.emit (.stderr "Scan timeout")
      else
        pure ()
    else
      Eff.emit (.stderr "Failed to initiate scan")
  else
    pure ()

/-- The `std::sort` of `listWifiNetworks`, strongest signal first.  The order
of networks of equal strength is not fixed by `std::sort`; here they keep
their order. -/
def sortBySignal (networks : List Station.NetworkInfo) : List Station.NetworkInfo :=
  networks.insertionSort fun a b => a.signal_strength ≥ b.signal_strength

/-- Whether a column is shown: no selection, or the column is selected. -/
def showField (nm : NetworkManager) (field : String) : Bool :=
  nm.field_selection.isEmpty || nm.field_selection.contains field

/-- The headers of the table of `listWifiNetworks`. -/
def wifiHeaders (nm : NetworkManager) : List String :=
  (if nm.showField "SSID" then ["SSID"] else [])
    ++ (if nm.showField "SECURITY" then ["SECURITY"] else [])
    ++ (if nm.showField "SIGNAL" then ["SIGNAL"] else [])
    ++ (if nm.showField "IN-USE" then ["IN-USE"] else [])

/-- The row of one network in the table of `listWifiNetworks`. -/
def wifiRow (nm : NetworkManager) (network : Station.NetworkInfo) : List String :=
  (if nm.showField "SSID" then [network.ssid] else [])
    ++ (if nm.showField "SECURITY" then [network.security] else [])
    ++ (if nm.showField "SIGNAL" then
          [toString (dbmToQualitySegmented (Int.tdiv network.signal_strength 100))]
        else [])
    ++ (if nm.showField "IN-USE" then [if network.in_use then "*" else ""] else [])

/-- `NetworkManager::listWifiNetworks(rescan)`.  The table is handed to
`printFormattedTable`, which is recorded as one event. -/
def listWifiNetworks (nm : NetworkManager) (systemBus : Except String Bus)
    (scanningAt : Nat → Except String Variant) (rescan : Bool) : Eff Unit :=
  try
    let connection_ ← IwdManager.new systemBus
    let station ← IwdManager.createStation connection_
    match station with
    | none => Eff.emit (.stderr "Failed to create Station instance")
    | some station => do
      rescanNetworks station scanningAt rescan
      let networks ← station.getOrderedNetworks
      (if !nm.terse_output then
        Eff.emit (.stdout ("Found " ++ toString networks.length ++ " networks"))
      else
        pure ())
      let networks := sortBySignal networks
      Eff.emit (.printFormattedTable (networks.map nm.wifiRow) nm.wifiHeaders)
  catch e =>
    Eff.emit (.stderr ("Error listing WiFi networks: " ++ e.what))

end NetworkManager

/-- Whether an event is a call of the named method, on any object. -/
def Event.isCall (method : String) : Event → Bool
  | .callMethod _ _ m => m == method
  | _ => false

/-- Whether an event is a read of the named property, on any object. -/
def Event.isRead (property : String) : Event → Bool
  | .getProperty _ _ p => p == property
  | _ => false

/-! ## The helpers of `main.cpp` and `network_manager.cpp` -/

/-- The loop of `split`: `tokens` and `token` are its local variables; after
the loop the last token is pushed. -/
def splitLoop (delimiter : Char) : List Char → List String → List Char → List String
  | [], tokens, token => tokens ++ [String.mk token]
  | c :: rest, tokens, token =>
    if c = delimiter then splitLoop delimiter rest (tokens ++ [String.mk token]) []
    else splitLoop delimiter rest tokens (token ++ [c])

/-- The function `split(str, delimiter)` of `main.cpp`. -/
def split (str : String) (delimiter : Char) : List String :=
  splitLoop delimiter str.toList [] []

/-- One lowercase hexadecimal digit. -/
def hexDigit (n : Nat) : Char :=
  if n < 10 then Char.ofNat (48 + n) else Char.ofNat (87 + n)

/-- The output of `ss << std::setw(2) << static_cast<unsigned>(b)` on a stream
set to `std::hex` with fill character `0`, for a byte `b`. -/
def hexByte (b : Nat) : List Char :=
  [hexDigit (b / 16), hexDigit (b % 16)]

/-- The array `digest` of `stringToUUID`: the bytes of `hash1`, then those of
`hash2`, lowest byte first. -/
def digest (hash1 hash2 : Nat) (i : Nat) : Nat :=
  if i < 8 then (hash1 >>> (i * 8)) &&& 0xFF
  else (hash2 >>> ((i - 8) * 8)) &&& 0xFF

/-- The character `-`. -/
def hyphen : Char := Char.ofNat 45

/-- The first group written by `stringToUUID`: `digest[0..3]`. -/
def uuidGroup1 (d : Nat → Nat) : List Char :=
  hexByte (d 0) ++ hexByte (d 1) ++ hexByte (d 2) ++ hexByte (d 3)

/-- The second group: `digest[4..5]`. -/
def uuidGroup2 (d : Nat → Nat) : List Char :=
  hexByte (d 4) ++ hexByte (d 5)

/-- The third group: the character `4`, then `digest[6] & 0x0F` and
`digest[7] & 0x0F`, each written with width 2. -/
def uuidGroup3 (d : Nat → Nat) : List Char :=
  [Char.ofNat 52] ++ hexByte (d 6 &&& 0x0F) ++ hexByte (d 7 &&& 0x0F)

/-- The fourth group: `(digest[8] & 0x3F) | 0x80`, then `digest[9]`. -/
def uuidGroup4 (d : Nat → Nat) : List Char :=
  hexByte ((d 8 &&& 0x3F) ||| 0x80) ++ hexByte (d 9)

/-- The fifth group: `digest[10..15]`. -/
def uuidGroup5 (d : Nat → Nat) : List Char :=
  hexByte (d 10) ++ hexByte (d 11) ++ hexByte (d 12) ++ hexByte (d 13) ++ hexByte (d 14)
    ++ hexByte (d 15)

/-- The function `stringToUUID(input)`; `hash` is `std::hash<std::string>`,
whose values are `size_t`. -/
def stringToUUID (hash : String → Nat) (input : String) : String :=
  let hash1 := hash input
  let hash2 := hash (input ++ "_salt1")
  let d := digest hash1 hash2
  String.mk (uuidGroup1 d ++ [hyphen] ++ uuidGroup2 d ++ [hyphen] ++ uuidGroup3 d ++ [hyphen]
    ++ uuidGroup4 d ++ [hyphen] ++ uuidGroup5 d)

/-- A link of the kernel as `listDevices` reads it through libnl: its name and
type, which may be null, and the text of its operational state. -/
structure Link where
  name : Option String
  type : Option String
  state : String

/-- A route of the kernel as `getConnectivity` reads it: its table and the
prefix length of its destination, `none` when it has no destination. -/
structure Route where
  table : Nat
  dstPrefixLen : Option Nat

/-- The kernel seen through netlink: `none` when the socket, the connection
or the cache cannot be set up. -/
structure Kernel where
  links : Option (List Link)
  routes : Option (List Route)

namespace NetworkManager

/-- `struct NetworkManager::DeviceInfo`. -/
structure DeviceInfo where
  name : String
  type : String
  state : String
  deriving DecidableEq, Repr

/-- `struct NetworkManager::ConnectionInfo`. -/
structure ConnectionInfo where
  name : String
  uuid : String
  type : String
  device : String
  deriving DecidableEq, Repr

/-- `NetworkManager::getConnectivity`; `RT_TABLE_MAIN` is 254. -/
def getConnectivity (kernel : Kernel) : String :=
  match kernel.routes with
  | none => "unknown"
  | some routes =>
    if routes.any fun route =>
        route.table = 254 ∧ (route.dstPrefixLen = none ∨ route.dstPrefixLen = some 0) then "full"
    else "none"

/-- The type that `listDevices` gives to a link without a type, from its name. -/
def linkTypeFromName (name : Option String) : String :=
  match name with
  | none => "unknown"
  | some n =>
    match n.toList with
    | c0 :: rest =>
      if c0 = Char.ofNat 108 ∧ rest.head? = some (Char.ofNat 111) then "loopback"
      else if c0 = Char.ofNat 101 then "ethernet"
      else if c0 = Char.ofNat 119 then "wifi"
      else "unknown"
    | [] => "unknown"

/-- `NetworkManager::listDevices`. -/
def listDevices (kernel : Kernel) : List DeviceInfo :=
  match kernel.links with
  | none => []
  | some links =>
    links.map fun link =>
      { name := link.name.getD "unknown"
        type := match link.type with
          | some t => t
          | none => linkTypeFromName link.name
        state := link.state }

end NetworkManager

namespace IwdManager

/-- `IwdManager::getWifiRadioState`.  `get<bool>()` throws an `sdbus::Error`
when the variant holds no boolean; the text of that error is the library's,
and the line written here stands for it. -/
def getWifiRadioState (connection_ : Option Bus) : Eff Bool :=
  match connection_ with
  | none => do
    Eff.emit (.stderr "D-Bus connection not initialized")
    pure false
  | some bus =>
    let adapterPath := getAdapterObjectPath connection_
    if adapterPath = "" then do
      Eff.emit (.stderr "Failed to get adapter object path")
      pure false
    else do
      Eff.emit (.getProperty adapterPath "net.connman.iwd.Adapter" "Powered")
      match bus.getProperty adapterPath "net.connman.iwd.Adapter" "Powered" with
      | .ok (.boolean powered) => pure powered
      | .ok _ => do
        Eff.emit (.stderr "Failed to get WiFi radio state: Failed to deserialize a bool value")
        pure false
      | .error w => do
        Eff.emit (.stderr ("Failed to get WiFi radio state: " ++ w))
        pure false

/-- `IwdManager::setWifiRadioState`. -/
def setWifiRadioState (connection_ : Option Bus) (enabled : Bool) : Eff Bool :=
  match connection_ with
  | none => do
    Eff.emit (.stderr "D-Bus connection not initialized")
    pure false
  | some bus =>
    let adapterPath := getAdapterObjectPath connection_
    if adapterPath = "" then do
      Eff.emit (.stderr "Failed to get adapter object path")
      pure false
    else do
      Eff.emit (.setProperty adapterPath "net.connman.iwd.Adapter" "Powered" (.boolean enabled))
      match bus.setProperty adapterPath "net.connman.iwd.Adapter" "Powered" (.boolean enabled) with
      | .ok _ => pure true
      | .error w => do
        Eff.emit (.stderr ("Failed to set WiFi radio state via D-Bus: " ++ w))
        pure false

end IwdManager

namespace NetworkManager

/-- `NetworkManager::setWifiRadio`. -/
def setWifiRadio (systemBus : Except String Bus) (enabled : Bool) : Eff Bool :=
  try
    let connection_ ← IwdManager.new systemBus
    IwdManager.setWifiRadioState connection_ enabled
  catch e => do
    Eff.emit (.stderr ("Error setting WiFi radio state: " ++ e.what))
    pure false

/-- `NetworkManager::getWifiRadioState`. -/
def getWifiRadioState (systemBus : Except String Bus) : Eff Bool :=
  try
    let connection_ ← IwdManager.new systemBus
    IwdManager.getWifiRadioState connection_
  catch e => do
    Eff.emit (.stderr ("Error getting WiFi radio state: " ++ e.what))
    pure false

/-- `NetworkManager::activateConnection`; the password is the default `""`. -/
def activateConnection (executeCommand : String → List String → Int)
    (systemBus : Except String Bus) (ssid : String) : Eff Bool :=
  try
    let connection_ ← IwdManager.new systemBus
    let result ← IwdManager.connectToNetwork executeCommand connection_ ssid ""
    if result then do
      Eff.emit (.stdout ("Successfully connected to '" ++ ssid ++ "'"))
      pure true
    else do
      Eff.emit (.stderr ("Failed to connect to '" ++ ssid ++ "'"))
      pure false
  catch e =>
    match e with
    | .sdbusError w => do
      Eff.emit (.stderr ("D-Bus error connecting to '" ++ ssid ++ "': " ++ w))
      pure false
    | _ => do
      Eff.emit (.stderr ("Error connecting to '" ++ ssid ++ "': " ++ e.what))
      pure false

/-- The first loop of `showConnections`, over the devices: `connections` and
`currentSSID` are its local variables.  `wired_cnt` stays 0. -/
def showConnectionsDevices (hash : String → Nat) (station : Station) :
    List DeviceInfo → List ConnectionInfo → String → Eff (List ConnectionInfo × String)
  | [], connections, currentSSID => pure (connections, currentSSID)
  | device :: more, connections, currentSSID =>
    if device.type = "ethernet" then
      let name := "Wired connection " ++ toString (0 : Int)
      showConnectionsDevices hash station more
        (connections ++ [⟨name, stringToUUID hash name, device.type, device.name⟩]) currentSSID
    else if device.type = "loopback" then
      showConnectionsDevices hash station more
        (connections ++ [⟨"lo", stringToUUID hash "lo", device.type, device.name⟩]) currentSSID
    else if device.type = "wifi" then do
      let connected ← station.getConnectedNetwork
      let name ← station.getPropertyFromObjectPath String ⟨connected⟩
        "net.connman.iwd.Network" "Name"
      showConnectionsDevices hash station more
        (connections ++ [⟨name, stringToUUID hash name, device.type, device.name⟩]) name
    else
      showConnectionsDevices hash station more
        (connections ++ [⟨device.name, stringToUUID hash device.name, device.type, device.name⟩])
        currentSSID

/-- The second loop of `showConnections`, over the known networks. -/
def showConnectionsKnown (hash : String → Nat) (station : Station) (currentSSID : String) :
    List String → List ConnectionInfo → Eff (List ConnectionInfo)
  | [], connections => pure connections
  | networkPath :: more, connections => do
    let networkSSID ← station.getPropertyFromObjectPath String ⟨networkPath⟩
      "net.connman.iwd.KnownNetwork" "Name"
    if networkSSID = currentSSID then
      showConnectionsKnown hash station currentSSID more connections
    else
      showConnectionsKnown hash station currentSSID more
        (connections ++ [⟨networkSSID, stringToUUID hash networkSSID, "wifi", ""⟩])

/-- The headers of the table of `showConnections`. -/
def connectionHeaders (nm : NetworkManager) : List String :=
  (if nm.showField "NAME" then ["NAME"] else [])
    ++ (if nm.showField "UUID" then ["UUID"] else [])
    ++ (if nm.showField "TYPE" then ["TYPE"] else [])
    ++ (if nm.showField "DEVICE" then ["DEVICE"] else [])

/-- The row of one connection in the table of `showConnections`. -/
def connectionRow (nm : NetworkManager) (conn : ConnectionInfo) : List String :=
  (if nm.showField "NAME" then [conn.name] else [])
    ++ (if nm.showField "UUID" then [conn.uuid] else [])
    ++ (if nm.showField "TYPE" then [conn.type] else [])
    ++ (if nm.showField "DEVICE" then [if conn.device.length = 0 then "--" else conn.device]
        else [])

/-- `NetworkManager::showConnections`.  There is no `try` in this function. -/
def showConnections (nm : NetworkManager) (hash : String → Nat) (kernel : Kernel)
    (systemBus : Except String Bus) : Eff Unit := do
  let connection_ ← IwdManager.new systemBus
  let station ← IwdManager.createStation connection_
  match station with
  | none => Eff.emit (.stderr "Failed to create Station instance")
  | some station => do
    let devices := listDevices kernel
    let found ← showConnectionsDevices hash station devices [] ""
    let wifiConnections ← station.getAllConnection
    let connections ← showConnectionsKnown hash station found.2 wifiConnections found.1
    Eff.emit (.printFormattedTable (connections.map nm.connectionRow) nm.connectionHeaders)

end NetworkManager

/-! ## What the patterns mean

The declarative reading of a pattern, independent of the matcher: an occurrence
of `<node name="NAME"` in a text, where `NAME` is the group literal followed by
a non-empty run of class characters. -/

/-- The text splits as `pre ++ <node name=" ++ name ++ " ++ post` with `name`
of the shape the pattern asks for. -/
def Occurs (re : NodeRegex) (text pre name post : List Char) : Prop :=
  ∃ run, text = pre ++ (openLit ++ (re.groupLit ++ (run ++ dquote :: post))) ∧
    run ≠ [] ∧ (∀ c ∈ run, re.cls c = true) ∧ name = re.groupLit ++ run

/-- The text has a child node whose name fits the pattern. -/
def HasNode (re : NodeRegex) (text : List Char) : Prop :=
  ∃ pre name post, Occurs re text pre name post

/-- The occurrence at `pre` is the first one in document order. -/
def Leftmost (re : NodeRegex) (text pre name post : List Char) : Prop :=
  Occurs re text pre name post ∧
    ∀ pre2 name2 post2, Occurs re text pre2 name2 post2 → pre.length ≤ pre2.length

/-- The name of the first child node that fits the pattern. -/
def FirstNode (re : NodeRegex) (text name : List Char) : Prop :=
  ∃ pre post, Leftmost re text pre name post

/-- The names of the child nodes that fit the pattern, in document order: the
first occurrence, then the child nodes of the text after it. -/
inductive ChildNodes (re : NodeRegex) : List Char → List (List Char) → Prop where
  | done {text : List Char} : ¬ HasNode re text → ChildNodes re text []
  | next {text pre name post : List Char} {names : List (List Char)} :
      Leftmost re text pre name post → ChildNodes re post names →
      ChildNodes re text (name :: names)

/-- The class of the pattern does not contain the double quote. -/
def QuoteFree (re : NodeRegex) : Prop := ∀ c, re.cls c = true → c ≠ dquote

/-! ## Example daemons -/

/-- A daemon that answers introspection as given, exposes no networks and
accepts every method call. -/
def introspectionBus (introspect : String → Except String String) : Bus where
  introspect := introspect
  getProperty := fun _ _ _ => .error "No such property"
  callMethod := fun _ _ _ => .ok ()
  orderedNetworks := fun _ => .ok []
  openConnection := .ok ()

/-- A root that lists the symbolic name `phy0` before the numeric name `0`,
and an adapter `0` with the single device `3`. -/
def busPhyBeforeNumeric : Bus :=
  introspectionBus fun path =>
    if path = "/net/connman/iwd" then
      .ok "<node><node name=\"phy0\"/><node name=\"0\"/></node>"
    else if path = "/net/connman/iwd/0" then
      .ok "<node><node name=\"3\"/></node>"
    else .error "Unknown object"

/-- A daemon whose objects have no child nodes at all. -/
def busNoChildren : Bus :=
  introspectionBus fun _ => .ok "<node><interface name=\"net.connman.iwd.Daemon\"/></node>"

/-- A root whose only child is the symbolic `phy1` (after an interface element). -/
def busPhyOnly : Bus :=
  introspectionBus fun path =>
    if path = "/net/connman/iwd" then
      .ok "<node><interface name=\"net.connman.iwd.Daemon\"/><node name=\"phy1\"/></node>"
    else .error "Unknown object"

/-- An introspection document whose only child node is the symbolic `phy0`. -/
def docPhyChild : String := "<node><node name=\"phy0\"/></node>"

/-- An adapter `0` whose introspection lists only the symbolic child `phy0`. -/
def busPhyDevice : Bus :=
  introspectionBus fun path =>
    if path = "/net/connman/iwd" then .ok "<node><node name=\"0\"/></node>"
    else if path = "/net/connman/iwd/0" then .ok docPhyChild
    else .error "Unknown object"

/-- A root that answers with `docPhyChild`. -/
def busPhyRoot : Bus :=
  introspectionBus fun path =>
    if path = "/net/connman/iwd" then .ok docPhyChild else .error "Unknown object"

/-- A bus on which every introspection fails with a transport fault. -/
def busUnreachable : Bus :=
  introspectionBus fun _ => .error "Connection refused"

/-- The root answers, the adapter object does not. -/
def busAdapterUnreachable : Bus :=
  introspectionBus fun path =>
    if path = "/net/connman/iwd" then .ok "<node><node name=\"0\"/></node>"
    else .error "Connection refused"

/-! ## The daemon answering a network listing -/

/-- The daemon answers every call that `getOrderedNetworks` makes on the
station: the list `reply` for `GetOrderedNetworks`, the object path `connected`
for `ConnectedNetwork`, and for every listed network the strings `name p` and
`type p` for its `Name` and `Type` properties. -/
structure Station.Answers (st : Station) (bus : Bus) (reply : List (String × Int))
    (connected : String) (name type : String → String) : Prop where
  connection : st.connection_ = some bus
  ordered : bus.orderedNetworks st.device_object_path_ = .ok reply
  connectedNetwork : bus.getProperty st.device_object_path_ "net.connman.iwd.Station"
    "ConnectedNetwork" = .ok (.objectPath connected)
  names : ∀ p ∈ reply.map Prod.fst,
    bus.getProperty p "net.connman.iwd.Network" "Name" = .ok (.str (name p))
  types : ∀ p ∈ reply.map Prod.fst,
    bus.getProperty p "net.connman.iwd.Network" "Type" = .ok (.str (type p))

/-- The record that the claims expect for one element of the daemon reply. -/
def Station.expectedInfo (connected : String) (name type : String → String)
    (entry : String × Int) : Station.NetworkInfo :=
  ⟨entry.1, name entry.1, type entry.1, entry.2, decide (entry.1 = connected)⟩

/-- The property reads that the loop of `getOrderedNetworks` performs for one
element of the daemon reply. -/
def Station.networkReads (entry : String × Int) : List Event :=
  [.getProperty entry.1 "net.connman.iwd.Network" "Name",
   .getProperty entry.1 "net.connman.iwd.Network" "Type"]

/-- The read of the `ConnectedNetwork` property of a station. -/
def Station.connectedRead (st : Station) : Event :=
  .getProperty st.device_object_path_ "net.connman.iwd.Station" "ConnectedNetwork"

/-- A station at `/net/connman/iwd/0/3` whose daemon lists `reply`, reports
`connected` as the connected network, and names the network at path `p` by
`p` itself with security `psk`. -/
def listingStation (reply : List (String × Int)) (connected : String) : Station where
  device_object_path_ := "/net/connman/iwd/0/3"
  connection_ := some
    { introspect := fun _ => .error "Unknown object"
      getProperty := fun path _ property =>
        if property = "ConnectedNetwork" then .ok (.objectPath connected)
        else if property = "Name" then .ok (.str path)
        else .ok (.str "psk")
      callMethod := fun _ _ _ => .ok ()
      orderedNetworks := fun _ => .ok reply
      openConnection := .ok () }

/-- The root document of the scenario with the children `0`, `1` and
`Home_Network`. -/
def docHomeNetwork : String :=
  "<node><node name=\"0\"/><node name=\"1\"/><node name=\"Home_Network\"/></node>"

/-- A station on a daemon whose root introspection is `docHomeNetwork`. -/
def stationHomeNetwork : Station where
  device_object_path_ := "/net/connman/iwd/0/3"
  connection_ := some (introspectionBus fun path =>
    if path = "/net/connman/iwd" then .ok docHomeNetwork else .error "Unknown object")

/-- A daemon with the adapter `0`, the device `0/3` named `wlan0`, and the
single visible network `Office`, which is also the connected one. -/
def busOffice : Bus where
  introspect := fun path =>
    if path = "/net/connman/iwd" then .ok "<node><node name=\"0\"/></node>"
    else if path = "/net/connman/iwd/0" then .ok "<node><node name=\"3\"/></node>"
    else .error "Unknown object"
  getProperty := fun _ iface property =>
    if property = "ConnectedNetwork" then .ok (.objectPath "/net/connman/iwd/0/3/4f6666696365_psk")
    else if iface = "net.connman.iwd.Device" then .ok (.str "wlan0")
    else if property = "Name" then .ok (.str "Office")
    else .ok (.str "psk")
  callMethod := fun _ _ _ => .ok ()
  orderedNetworks := fun _ => .ok [("/net/connman/iwd/0/3/4f6666696365_psk", -4000)]
  openConnection := .ok ()

/-- An `iwctl` that always exits with status 0. -/
def iwctlSucceeds : String → List String → Int := fun _ _ => 0

/-! ## Daemons on which a station can be created -/

/-- The daemon lets `createStation` succeed: a device path is resolved and the
`Station` constructor can open its connection. -/
structure StationReady (bus : Bus) : Prop where
  device : IwdManager.getDeviceObjectPath (some bus) ≠ ""
  connection : bus.openConnection = .ok ()

/-- The station that `createStation` yields on a daemon that is `StationReady`. -/
def readyStation (bus : Bus) : Station :=
  ⟨IwdManager.getDeviceObjectPath (some bus), some bus⟩

/-- A daemon with the adapter `0`, the device `0/3` named `wlan0`, the visible
networks as listed by `visible` (object path, signal strength and SSID; the
first one is the connected network), and the known networks as listed by
`known` (node name under the root and SSID).  When `visible` is empty the
station is connected to no network and has no `ConnectedNetwork` property, so
that the read is answered with an error reply.  Every method call is accepted
and answered without a value, so that no boolean can be read from the reply;
the text of that error stands for the library's. -/
def homeBus (visible : List (String × Int × String)) (known : List (String × String)) : Bus where
  introspect := fun path =>
    if path = "/net/connman/iwd" then
      .ok (String.join ("<node><node name=\"0\"/>"
        :: known.map (fun k => "<node name=\"" ++ k.1 ++ "\"/>") ++ ["</node>"]))
    else if path = "/net/connman/iwd/0" then .ok "<node><node name=\"3\"/></node>"
    else .error "Unknown object"
  getProperty := fun path iface property =>
    if iface = "net.connman.iwd.Station" then
      if property = "ConnectedNetwork" then
        match visible.head? with
        | some v => .ok (.objectPath v.1)
        | none => .error "No such property"
      else if property = "Scanning" then .ok (.boolean false)
      else .ok (.str "connected")
    else if iface = "net.connman.iwd.Device" then .ok (.str "wlan0")
    else if iface = "net.connman.iwd.KnownNetwork" then
      match known.find? (fun k => "/net/connman/iwd/" ++ k.1 = path) with
      | some k => .ok (.str k.2)
      | none => .error "Unknown object"
    else if property = "Name" then
      match visible.find? (fun v => v.1 = path) with
      | some v => .ok (.str v.2.2)
      | none => .error "Unknown object"
    else .ok (.str "psk")
  callMethod := fun _ _ _ => .ok ()
  orderedNetworks := fun _ => .ok (visible.map fun v => (v.1, v.2.1))
  openConnection := .ok ()
  callMethodBool := fun _ _ _ => .error "Failed to deserialize a bool value"

/-- The known networks of the daemon as `deleteConnection` sees them: `known`
is the list of identities that `getAllConnection` extracts from the root
introspection, and `name p` is the `Name` property of the known network `p`. -/
structure KnownNetworks (bus : Bus) (known : List String) (name : String → String) : Prop where
  listed : ∃ data, bus.introspect "/net/connman/iwd" = .ok data ∧
    Station.getAllConnectionLoop data.length data.toList [] = known
  names : ∀ p ∈ known,
    bus.getProperty p "net.connman.iwd.KnownNetwork" "Name" = .ok (.str (name p))

/-- The reads of the `Name` property that `deleteConnection` performs for a
list of known networks. -/
def knownNetworkReads (known : List String) : List Event :=
  known.map fun p => .getProperty p "net.connman.iwd.KnownNetwork" "Name"

/-- The path of the visible network `Office` in the examples. -/
def officePath : String := "/net/connman/iwd/0/3/4f6666696365_psk"

/-- The daemon of the scenarios: connected to `Office`, which is the only
visible network; the known networks are `Office` and `Guest`. -/
def busOfficeGuest : Bus :=
  homeBus [(officePath, -4000, "Office")] [("Office_psk", "Office"), ("Guest_psk", "Guest")]

/-- The same daemon with `Office` as the only known network. -/
def busOfficeOnly : Bus :=
  homeBus [(officePath, -4000, "Office")] [("Office_psk", "Office")]

/-- The SSID of a known network of the scenarios, by its identity. -/
def scenarioName (path : String) : String :=
  if path = "/net/connman/iwd/Office_psk" then "Office" else "Guest"

/-- The events of the D-Bus attempt up to the search for the SSID. -/
def dbusAttemptEvents (bus : Bus) (reply : List (String × Int)) : List Event :=
  [.enter "connectToNetworkViaDBus", .openConnection,
    .callMethod (IwdManager.getDeviceObjectPath (some bus)) "net.connman.iwd.Station" "Scan",
    .orderedNetworks (IwdManager.getDeviceObjectPath (some bus)),
    Station.connectedRead (readyStation bus)]
    ++ reply.flatMap Station.networkReads

/-- The argument list that the claims expect for `iwctl`:
`station <device> connect <ssid> [--passphrase <password>]`. -/
def iwctlArgs (device ssid password : String) : List String :=
  if password = "" then ["station", device, "connect", ssid]
  else ["station", device, "connect", ssid, "--passphrase", password]

/-- The daemon of the scenarios, except that the `Name` of the device is the
empty string. -/
def busUnnamedDevice : Bus :=
  { busOfficeGuest with
    getProperty := fun path iface property =>
      if iface = "net.connman.iwd.Device" then .ok (.str "")
      else busOfficeGuest.getProperty path iface property }

/-- An operating system on which `iwctl` runs and exits with the given status. -/
def iwctlExits (code : Nat) : String → List String → ProcessUtil.ChildOutcome :=
  fun _ _ => .exited code

/-- Whether an event is a run of an external command. -/
def Event.isExecuteCommand : Event → Bool
  | .executeCommand _ _ => true
  | _ => false

/-- A bus on which every call fails with a transport fault. -/
def busTransportDown : Bus where
  introspect := fun _ => .error "Connection refused"
  getProperty := fun _ _ _ => .error "Connection refused"
  callMethod := fun _ _ _ => .error "Connection refused"
  orderedNetworks := fun _ => .error "Connection refused"
  openConnection := .ok ()
  callMethodBool := fun _ _ _ => .error "Connection refused"

/-- A station at `/net/connman/iwd/0/3` whose bus has gone down. -/
def stationTransportDown : Station :=
  ⟨"/net/connman/iwd/0/3", some busTransportDown⟩

/-- A station on a daemon that is connected to no network. -/
def stationIdle : Station := readyStation (homeBus [] [])

/-- A station on a daemon whose device has no property at all: every property
read is answered with the error reply `No such property`. -/
def stationWithoutProperties : Station :=
  ⟨"/net/connman/iwd/0/3", some (introspectionBus fun _ => .error "Unknown object")⟩

/-! ## The polling loop seen from outside -/

/-- The daemon's answers to the successive reads of `Scanning`, given as
booleans. -/
def scanningAnswers (answers : Nat → Bool) : Nat → Except String Variant :=
  fun k => .ok (.boolean (answers k))

/-- The read of the `Scanning` property of the station of a daemon. -/
def scanningRead (bus : Bus) : Event :=
  .getProperty (IwdManager.getDeviceObjectPath (some bus)) "net.connman.iwd.Station" "Scanning"

/-- The events of `busy` polls that reported scanning, each followed by a
sleep, and of a last poll that reported idle when `idle` is set. -/
def pollEvents (bus : Bus) (busy : Nat) (idle : Bool) : List Event :=
  (List.replicate busy [scanningRead bus, .sleep 500]).flatten
    ++ (if idle then [scanningRead bus] else [])

/-- The events of `listWifiNetworks(true)` on a daemon that answers: the two
connections, the scan, the polls, the timeout warning when `timeout` is set,
the listing, the count line unless the output is terse, and the table. -/
def rescanListingEvents (nm : NetworkManager) (bus : Bus) (reply : List (String × Int))
    (connected : String) (name type : String → String) (polls : List Event)
    (timeout : Bool) : List Event :=
  [.openConnection, .openConnection,
    .callMethod (IwdManager.getDeviceObjectPath (some bus)) "net.connman.iwd.Station" "Scan"]
    ++ polls
    ++ (if timeout then [.stderr "Scan timeout"] else [])
    ++ ([.orderedNetworks (IwdManager.getDeviceObjectPath (some bus)),
          Station.connectedRead (readyStation bus)]
        ++ reply.flatMap Station.networkReads)
    ++ (if nm.terse_output then []
        else [.stdout ("Found " ++ toString reply.length ++ " networks")])
    ++ [.printFormattedTable
          ((NetworkManager.sortBySignal
            (reply.map (Station.expectedInfo connected name type))).map nm.wifiRow)
          nm.wifiHeaders]

/-- Whether an event is a call of `printFormattedTable`. -/
def Event.isPrintTable : Event → Bool
  | .printFormattedTable _ _ => true
  | _ => false

/-- The run of `listWifiNetworks(true)` on a daemon whose successive answers
to the reads of `Scanning` are `answers`. -/
def rescanRun (nm : NetworkManager) (bus : Bus) (answers : Nat → Bool) :
    Except Exn Unit × List Event :=
  (NetworkManager.listWifiNetworks nm (.ok bus) (scanningAnswers answers) true).run

/-- The call of `printFormattedTable` that the claims expect for a listing. -/
def expectedTable (nm : NetworkManager) (reply : List (String × Int)) (connected : String)
    (name type : String → String) : Event :=
  .printFormattedTable
    ((NetworkManager.sortBySignal
      (reply.map (Station.expectedInfo connected name type))).map nm.wifiRow)
    nm.wifiHeaders

/-- Answers that report scanning for the first `busy` polls and idle afterwards. -/
def busyFor (busy : Nat) : Nat → Bool := fun k => decide (k < busy)

/-- The tokens that `splitLoop` still has to push, as character lists. -/
def pieces (delimiter : Char) : List Char → List Char → List (List Char)
  | [], token => [token]
  | c :: rest, token =>
    if c = delimiter then token :: pieces delimiter rest [] else pieces delimiter rest (token ++ [c])

/-! ## The command line: `main.cpp` -/

/-- What `main` is run in: the outcome of opening the system bus (the
constructor of `IwdManager`), the daemon's answers to the polls of `Scanning`,
the function `ProcessUtil::executeCommand`, the kernel seen through netlink,
and `std::hash<std::string>`. -/
structure World where
  systemBus : Except String Bus
  scanningAt : Nat → Except String Variant
  executeCommand : String → List String → Int
  kernel : Kernel
  hash : String → Nat

/-- The option loop of `main` on the arguments `argv[i..]`: the settings and
the arguments that are left, or `none` when `-f` has no argument. -/
def parseOptions (nm : NetworkManager) : List String → Option (NetworkManager × List String)
  | [] => some (nm, [])
  | [arg] =>
    if arg = "-t" ∨ arg = "--terse" then some ({ nm with terse_output := true }, [])
    else if arg = "-f" ∨ arg = "--fields" then none
    else some (nm, [arg])
  | arg :: next :: rest =>
    if arg = "-t" ∨ arg = "--terse" then
      parseOptions { nm with terse_output := true } (next :: rest)
    else if arg = "-f" ∨ arg = "--fields" then
      parseOptions { nm with field_selection := split next (Char.ofNat 44) } rest
    else some (nm, arg :: next :: rest)

/-- The loop of `main` that looks for the first `--rescan` option in
`argv[i+3..]`. -/
def rescanOption : List String → Bool
  | [] => false
  | arg :: more =>
    if arg = "--rescan" ∨ arg = "--rescan=yes" then true
    else if arg = "--rescan=no" then false
    else rescanOption more

/-- The device table of `nmcli device` and `nmcli device status`. -/
def printDevices (nm : NetworkManager) (kernel : Kernel) : Eff Int := do
  let devices := NetworkManager.listDevices kernel
  let headers := (if nm.showField "DEVICE" then ["DEVICE"] else [])
    ++ (if nm.showField "TYPE" then ["TYPE"] else [])
    ++ (if nm.showField "STATE" then ["STATE"] else [])
  let table_data := devices.map fun device =>
    (if nm.showField "DEVICE" then [device.name] else [])
      ++ (if nm.showField "TYPE" then [device.type] else [])
      ++ (if nm.showField "STATE" then [device.state] else [])
  Eff.emit (.printFormattedTable table_data headers)
  pure 0

/-- The last two statements of `main`. -/
def unsupportedCommand (command : String) : Eff Int := do
  Eff.emit (.stderr ("Unsupported command: " ++ command))
  pure 1

/-- The `try` block of `nmcli device wifi connect` with its handlers. -/
def connectCommand (w : World) (ssid password : String) : Eff Int :=
  try
    let connection_ ← IwdManager.new w.systemBus
    let result ← IwdManager.connectToNetwork w.executeCommand connection_ ssid password
    if result then do
      Eff.emit (.stdout ("Successfully connected to '" ++ ssid ++ "'"))
      pure 0
    else do
      Eff.emit (.stderr ("Failed to connect to '" ++ ssid ++ "'"))
      pure 1
  catch e =>
    match e with
    | .networkException m => do
      Eff.emit (.stderr ("Network error: " ++ m))
      pure 1
    | .commandExecutionException m => do
      Eff.emit (.stderr ("Command execution error: " ++ m))
      pure 1
    | .dbusException m => do
      Eff.emit (.stderr ("D-Bus error: " ++ m))
      pure 1
    | .connectionException m => do
      Eff.emit (.stderr ("Nmcli error: " ++ m))
      pure 1
    | _ => do
      Eff.emit (.stderr ("Unexpected error: " ++ e.what))
      pure 1

/-- The branch `command == "device"` of `main`; `rest` is `argv[i+1..]`. -/
def deviceCommand (w : World) (nm : NetworkManager) (rest : List String) : Eff Int :=
  match rest with
  | [] => printDevices nm w.kernel
  | subcommand :: rest2 =>
    if subcommand = "status" ∨ subcommand = "" then printDevices nm w.kernel
    else if subcommand = "wifi" then
      match rest2 with
      | [] => unsupportedCommand "device"
      | wifi_subcommand :: rest3 =>
        if wifi_subcommand = "list" then do
          nm.listWifiNetworks w.systemBus w.scanningAt (rescanOption rest3)
          pure 0
        else if wifi_subcommand = "connect" then
          match rest3 with
          | [] => do
            Eff.emit (.stderr "Error: SSID required for connect command")
            pure 1
          | ssid :: rest4 =>
            let password :=
              match rest4 with
              | keyword :: value :: _ => if keyword = "password" then value else ""
              | _ => ""
            connectCommand w ssid password
        else unsupportedCommand "device"
    else unsupportedCommand "device"

/-- The branch `command == "connection" || command == "con"` of `main`. -/
def connectionCommand (w : World) (nm : NetworkManager) (command : String)
    (rest : List String) : Eff Int :=
  match rest with
  | [] => do
    nm.showConnections w.hash w.kernel w.systemBus
    pure 0
  | subcommand :: rest2 =>
    if subcommand = "show" then do
      nm.showConnections w.hash w.kernel w.systemBus
      pure 0
    else if subcommand = "up" then
      match rest2 with
      | [] => do
        Eff.emit (.stderr "Error: SSID required for connection up command")
        pure 1
      | ssid :: _ => do
        let activated ← NetworkManager.activateConnection w.executeCommand w.systemBus ssid
        if activated then do
          Eff.emit (.stdout ("Connection '" ++ ssid ++ "' activated successfully"))
          pure 0
        else do
          Eff.emit (.stderr ("Failed to activate connection '" ++ ssid ++ "'"))
          pure 1
    else if subcommand = "down" then
      match rest2 with
      | [] => do
        Eff.emit (.stderr "Error: SSID required for connection down command")
        pure 1
      | ssid :: _ => do
        let deactivated ← NetworkManager.deactivateConnection w.systemBus ssid
        if deactivated then do
          Eff.emit (.stdout ("Connection '" ++ ssid ++ "' deactivated successfully"))
          pure 0
        else do
          Eff.emit (.stderr ("Failed to deactivate connection '" ++ ssid ++ "'"))
          pure 1
    else if subcommand = "delete" then
      match rest2 with
      | [] => do
        Eff.emit (.stderr "Error: SSID required for connection delete command")
        pure 1
      | ssid :: _ => do
        let deleted ← NetworkManager.deleteConnection w.systemBus ssid
        if deleted then do
          Eff.emit (.stdout ("Connection '" ++ ssid ++ "' deleted successfully"))
          pure 0
        else do
          Eff.emit (.stderr ("Failed to delete connection '" ++ ssid ++ "'"))
          pure 1
    else unsupportedCommand command

/-- The lines of `main` that print the state of the WiFi radio. -/
def radioStatus (w : World) : Eff Int := do
  let state ← NetworkManager.getWifiRadioState w.systemBus
  Eff.emit (.stdout (if state then "enabled" else "disabled"))
  pure 0

/-- The branch `command == "radio"` of `main`. -/
def radioCommand (w : World) (rest : List String) : Eff Int :=
  match rest with
  | [] => radioStatus w
  | subcommand :: rest2 =>
    if subcommand = "wifi" then
      match rest2 with
      | [] => radioStatus w
      | state :: _ =>
        if state ≠ "on" ∧ state ≠ "off" then do
          Eff.emit (.stderr ("Invalid radio state: " ++ state ++ ". Use 'on' or 'off'"))
          pure 1
        else do
          let done ← NetworkManager.setWifiRadio w.systemBus (decide (state = "on"))
          if !done then do
            Eff.emit (.stderr ("Failed to set WiFi radio " ++ state))
            pure 1
          else
            pure 0
    else if subcommand = "all" ∨ subcommand = "wwan" then do
      Eff.emit (.stderr ("Unsupported radio type: " ++ subcommand))
      pure 1
    else do
      Eff.emit (.stderr ("Invalid radio subcommand: " ++ subcommand))
      pure 1

/-- The dispatch of `main` on `command = argv[i]`; `rest` is `argv[i+1..]`. -/
def runCommand (w : World) (nm : NetworkManager) (command : String) (rest : List String) :
    Eff Int :=
  if command = "networking" then
    match rest with
    | subcommand :: _ =>
      if subcommand = "connectivity" then do
        Eff.emit (.stdout (NetworkManager.getConnectivity w.kernel))
        pure 0
      else unsupportedCommand command
    | [] => unsupportedCommand command
  else if command = "device" then deviceCommand w nm rest
  else if command = "connection" ∨ command = "con" then connectionCommand w nm command rest
  else if command = "radio" then radioCommand w rest
  else unsupportedCommand command

/-- The function `main(argc, argv)`: the value is the exit status.  An error
value is an exception that leaves `main`.  The first case, `argc = 0`, does not
occur when the program is started by a shell. -/
def main (w : World) (argv : List String) : Eff Int :=
  match argv with
  | [] => do
    Eff.emit (.stderr "Usage:  [-t] [-f <fields>] <command> [options]")
    pure 1
  | [program] => do
    Eff.emit (.stderr ("Usage: " ++ program ++ " [-t] [-f <fields>] <command> [options]"))
    pure 1
  | _ :: args =>
    match parseOptions {} args with
    | none => do
      Eff.emit (.stderr "Error: -f option requires an argument")
      pure 1
    | some (_, []) => do
      Eff.emit (.stderr "Error: No command specified")
      pure 1
    | some (nm, command :: rest) => runCommand w nm command rest

/-! ## Worlds of the examples for `main` -/

/-- A kernel with the links `lo`, `eth0` and `wlan0`, none with a type of its
own, and a default route in the main table. -/
def kernelHome : Kernel where
  links := some [⟨some "lo", none, "unknown"⟩, ⟨some "eth0", none, "up"⟩,
    ⟨some "wlan0", none, "up"⟩]
  routes := some [⟨254, none⟩]

/-- The world of the scenarios: the daemon `busOfficeGuest`, an `iwctl` that
fails, and the kernel `kernelHome`. -/
def worldOffice : World where
  systemBus := .ok busOfficeGuest
  scanningAt := fun _ => .ok (.boolean false)
  executeCommand := fun _ _ => 1
  kernel := kernelHome
  hash := fun _ => 0

/-- The world of the scenarios when netlink cannot be used, so that
`listDevices` returns no device. -/
def worldOfficeNoNetlink : World :=
  { worldOffice with kernel := ⟨none, none⟩ }

/-- A world in which the system bus cannot be opened. -/
def worldNoBus : World :=
  { worldOffice with systemBus := .error "Failed to open system bus" }

/-- The daemon of the scenarios behind a transport that answers introspection
but on which every property access and every listing fails. -/
def busFaulty : Bus :=
  { busOfficeGuest with
    getProperty := fun _ _ _ => .error "Connection timed out"
    orderedNetworks := fun _ => .error "Connection timed out"
    setProperty := fun _ _ _ _ => .error "Connection timed out" }

/-- The world of the scenarios with the daemon `busFaulty`. -/
def worldFaulty : World :=
  { worldOffice with systemBus := .ok busFaulty }

/-- The exit status that answers the outcome of a core operation which
reports success by `true`: 0 when it returned `true`, and 1 when it returned
`false` or ended with an exception. -/
def statusOf : Except Exn Bool × List Event → Int
  | (.ok true, _) => 0
  | _ => 1

/-! ## The connections that `showConnections` is expected to print -/

/-- The row of a device: `current` is the SSID of the connected network. -/
def deviceConnection (hash : String → Nat) (current : String)
    (device : NetworkManager.DeviceInfo) : NetworkManager.ConnectionInfo :=
  if device.type = "ethernet" then
    ⟨"Wired connection 0", stringToUUID hash "Wired connection 0", device.type, device.name⟩
  else if device.type = "loopback" then ⟨"lo", stringToUUID hash "lo", device.type, device.name⟩
  else if device.type = "wifi" then ⟨current, stringToUUID hash current, device.type, device.name⟩
  else ⟨device.name, stringToUUID hash device.name, device.type, device.name⟩

/-- The SSID that the known networks are compared with: the SSID of the
connected network when the device list has a device of type `wifi`, and the
empty string otherwise. -/
def comparedSSID (current : String) (devices : List NetworkManager.DeviceInfo) : String :=
  if devices.any (fun device => device.type = "wifi") then current else ""

/-- The additional rows: one for every known network whose `Name` differs from
`compared`, with type `wifi` and an empty device. -/
def knownConnections (hash : String → Nat) (compared : String) (name : String → String)
    (known : List String) : List NetworkManager.ConnectionInfo :=
  (known.filter fun p => name p ≠ compared).map fun p =>
    ⟨name p, stringToUUID hash (name p), "wifi", ""⟩

/-- The reads that the loop over the devices performs: for every device of
type `wifi`, the connected network and its `Name`. -/
def deviceReads (st : Station) (connected : String)
    (devices : List NetworkManager.DeviceInfo) : List Event :=
  devices.flatMap fun device =>
    if device.type = "ethernet" ∨ device.type = "loopback" then []
    else if device.type = "wifi" then
      [Station.connectedRead st, .getProperty connected "net.connman.iwd.Network" "Name"]
    else []

/-- The world of the scenarios with a station that is connected to no network. -/
def worldIdle : World :=
  { worldOffice with systemBus := .ok (homeBus [] []) }

/-- A daemon that answers the read of `ConnectedNetwork` with a string instead
of an object path. -/
def busMistypedConnectedNetwork : Bus :=
  { homeBus [] [] with
    getProperty := fun path iface property =>
      if property = "ConnectedNetwork" then .ok (.str "")
      else (homeBus [] []).getProperty path iface property }

/-! ## The matcher against the declarative reading -/

theorem stripLit_eq_some (l s r : List Char) : stripLit l s = some r ↔ s = l ++ r := by
  induction l generalizing s with
  | nil => simp [stripLit, eq_comm]
  | cons a l ih =>
    cases s with
    | nil => simp [stripLit]
    | cons c cs =>
      by_cases h : c = a
      · simp [stripLit, h, ih]
      · simp [stripLit, h]

theorem closeQuote_eq_some (s rest : List Char) :
    closeQuote s = some rest ↔ s = dquote :: rest := by
  cases s with
  | nil => simp [closeQuote]
  | cons d more =>
    by_cases hd : d = dquote
    · simp [closeQuote, hd]
    · simp [closeQuote, hd]

theorem plusThenQuote_sound (cls : Char → Bool) (s run rest : List Char)
    (h : plusThenQuote cls s = some (run, rest)) :
    run ≠ [] ∧ (∀ c ∈ run, cls c = true) ∧ s = run ++ dquote :: rest := by
  induction s generalizing run rest with
  | nil => simp [plusThenQuote] at h
  | cons c cs ih =>
    unfold plusThenQuote at h
    by_cases hc : cls c = true
    · simp only [hc, if_true] at h
      cases hrec : plusThenQuote cls cs with
      | some m =>
        obtain ⟨run1, rest1⟩ := m
        rw [hrec] at h
        simp only [Option.some.injEq, Prod.mk.injEq] at h
        obtain ⟨hrun, hrest⟩ := h
        obtain ⟨_, hall, hs⟩ := ih run1 rest1 hrec
        subst hrun hrest
        refine ⟨by simp, ?_, by simp [hs]⟩
        intro x hx
        rcases List.mem_cons.mp hx with hx | hx
        · simpa [hx] using hc
        · exact hall x hx
      | none =>
        rw [hrec] at h
        cases hcl : closeQuote cs with
        | none => simp [hcl] at h
        | some rest1 =>
          simp only [hcl, Option.some.injEq, Prod.mk.injEq] at h
          obtain ⟨hrun, hrest⟩ := h
          subst hrun hrest
          refine ⟨by simp, ?_, by simp [(closeQuote_eq_some _ _).mp hcl]⟩
          intro x hx
          simpa [List.mem_singleton.mp hx] using hc
    · simp [hc] at h

theorem plusThenQuote_complete (cls : Char → Bool) (hq : ∀ c, cls c = true → c ≠ dquote)
    (run rest : List Char) (hne : run ≠ []) (hall : ∀ c ∈ run, cls c = true) :
    plusThenQuote cls (run ++ dquote :: rest) = some (run, rest) := by
  induction run with
  | nil => exact absurd rfl hne
  | cons c more ih =>
    have hc : cls c = true := hall c (List.mem_cons_self _ _)
    cases more with
    | nil =>
      have hnq : cls dquote = false := by
        cases hd : cls dquote with
        | false => rfl
        | true => exact absurd rfl (hq dquote hd)
      have hcl : closeQuote (dquote :: rest) = some rest := (closeQuote_eq_some _ _).mpr rfl
      simp [plusThenQuote, hc, hnq, hcl]
    | cons d more2 =>
      have hrec := ih (by simp) (fun x hx => hall x (List.mem_cons_of_mem _ hx))
      simp only [List.cons_append] at hrec ⊢
      unfold plusThenQuote
      simp [hc, hrec]

theorem matchHere_sound (re : NodeRegex) (s name rest : List Char)
    (h : matchHere re s = some (name, rest)) : Occurs re s [] name rest := by
  unfold matchHere at h
  cases h1 : stripLit openLit s with
  | none => simp [h1] at h
  | some s1 =>
    simp only [h1] at h
    cases h2 : stripLit re.groupLit s1 with
    | none => simp [h2] at h
    | some s2 =>
      simp only [h2] at h
      cases h3 : plusThenQuote re.cls s2 with
      | none => simp [h3] at h
      | some m =>
        obtain ⟨run, rest1⟩ := m
        simp only [h3, Option.some.injEq, Prod.mk.injEq] at h
        obtain ⟨hname, hrest⟩ := h
        obtain ⟨hne, hall, hs2⟩ := plusThenQuote_sound _ _ _ _ h3
        refine ⟨run, ?_, hne, hall, hname.symm⟩
        rw [(stripLit_eq_some _ _ _).mp h1, (stripLit_eq_some _ _ _).mp h2, hs2, hrest]
        rfl

theorem matchHere_complete (re : NodeRegex) (hq : QuoteFree re) (s name rest : List Char)
    (h : Occurs re s [] name rest) : matchHere re s = some (name, rest) := by
  obtain ⟨run, hs, hne, hall, hname⟩ := h
  have h1 : stripLit openLit s = some (re.groupLit ++ (run ++ dquote :: rest)) :=
    (stripLit_eq_some _ _ _).mpr (by simpa using hs)
  have h2 : stripLit re.groupLit (re.groupLit ++ (run ++ dquote :: rest))
      = some (run ++ dquote :: rest) := (stripLit_eq_some _ _ _).mpr rfl
  unfold matchHere
  simp [h1, h2, plusThenQuote_complete re.cls hq run rest hne hall, hname]

theorem occurs_nil_text (re : NodeRegex) (pre name post : List Char) :
    ¬ Occurs re [] pre name post := by
  rintro ⟨run, h, -⟩
  have := congrArg List.length h
  simp [openLit] at this
  omega

theorem occurs_cons_iff (re : NodeRegex) (c : Char) (cs pre name post : List Char) :
    Occurs re (c :: cs) pre name post ↔
      (pre = [] ∧ Occurs re (c :: cs) [] name post) ∨
      (∃ pre1, pre = c :: pre1 ∧ Occurs re cs pre1 name post) := by
  constructor
  · rintro ⟨run, h, hne, hall, hname⟩
    cases pre with
    | nil => exact Or.inl ⟨rfl, run, h, hne, hall, hname⟩
    | cons p pre1 =>
      simp only [List.cons_append, List.cons.injEq] at h
      obtain ⟨hp, hcs⟩ := h
      subst hp
      exact Or.inr ⟨pre1, rfl, run, hcs, hne, hall, hname⟩
  · rintro (⟨hp, h⟩ | ⟨pre1, hp, run, h, hne, hall, hname⟩)
    · subst hp; exact h
    · subst hp
      exact ⟨run, by simp [h], hne, hall, hname⟩

theorem regex_search_eq_none (re : NodeRegex) (hq : QuoteFree re) (text : List Char) :
    regex_search re text = none ↔ ¬ HasNode re text := by
  induction text with
  | nil =>
    constructor
    · rintro - ⟨pre, name, post, h⟩
      exact occurs_nil_text re pre name post h
    · intro _
      cases h : regex_search re [] with
      | none => rfl
      | some m =>
        obtain ⟨name, rest⟩ := m
        exact absurd (matchHere_sound re [] name rest h) (occurs_nil_text re [] name rest)
  | cons c cs ih =>
    unfold regex_search
    cases hm : matchHere re (c :: cs) with
    | some m =>
      obtain ⟨name, rest⟩ := m
      constructor
      · intro h; cases h
      · intro hno
        exact absurd ⟨[], name, rest, matchHere_sound re _ _ _ hm⟩ hno
    | none =>
      simp only [ih]
      constructor
      · rintro hno ⟨pre, name, post, h⟩
        rcases (occurs_cons_iff re c cs pre name post).mp h with ⟨-, h0⟩ | ⟨pre1, -, h1⟩
        · rw [matchHere_complete re hq _ _ _ h0] at hm
          cases hm
        · exact hno ⟨pre1, name, post, h1⟩
      · rintro hno ⟨pre, name, post, h⟩
        exact hno ⟨c :: pre, name, post, (occurs_cons_iff re c cs _ name post).mpr
          (Or.inr ⟨pre, rfl, h⟩)⟩

theorem regex_search_sound (re : NodeRegex) (hq : QuoteFree re) (text name post : List Char)
    (h : regex_search re text = some (name, post)) : ∃ pre, Leftmost re text pre name post := by
  induction text with
  | nil =>
    exact absurd (matchHere_sound re [] name post h) (occurs_nil_text re [] name post)
  | cons c cs ih =>
    unfold regex_search at h
    cases hm : matchHere re (c :: cs) with
    | some m =>
      rw [hm] at h
      simp only [Option.some.injEq] at h
      subst h
      exact ⟨[], matchHere_sound re _ _ _ hm, fun _ _ _ _ => Nat.zero_le _⟩
    | none =>
      rw [hm] at h
      obtain ⟨pre, hocc, hleft⟩ := ih h
      refine ⟨c :: pre, (occurs_cons_iff re c cs _ name post).mpr (Or.inr ⟨pre, rfl, hocc⟩), ?_⟩
      intro pre2 name2 post2 h2
      rcases (occurs_cons_iff re c cs pre2 name2 post2).mp h2 with ⟨-, h0⟩ | ⟨pre1, hp, h1⟩
      · rw [matchHere_complete re hq _ _ _ h0] at hm
        cases hm
      · subst hp
        simpa using hleft pre1 name2 post2 h1

theorem run_unique (run1 run2 post1 post2 : List Char)
    (h1 : ∀ c ∈ run1, c ≠ dquote) (h2 : ∀ c ∈ run2, c ≠ dquote)
    (h : run1 ++ dquote :: post1 = run2 ++ dquote :: post2) : run1 = run2 ∧ post1 = post2 := by
  induction run1 generalizing run2 with
  | nil =>
    cases run2 with
    | nil => simpa using h
    | cons d more =>
      simp only [List.nil_append, List.cons_append, List.cons.injEq] at h
      exact absurd h.1.symm (h2 d (List.mem_cons_self _ _))
  | cons c more ih =>
    cases run2 with
    | nil =>
      simp only [List.nil_append, List.cons_append, List.cons.injEq] at h
      exact absurd h.1 (h1 c (List.mem_cons_self _ _))
    | cons d more2 =>
      simp only [List.cons_append, List.cons.injEq] at h
      obtain ⟨hcd, hrest⟩ := h
      obtain ⟨hr, hp⟩ := ih more2 (fun x hx => h1 x (List.mem_cons_of_mem _ hx))
        (fun x hx => h2 x (List.mem_cons_of_mem _ hx)) hrest
      exact ⟨by rw [hcd, hr], hp⟩

theorem occurs_unique (re : NodeRegex) (hq : QuoteFree re)
    (text pre1 name1 post1 pre2 name2 post2 : List Char)
    (h1 : Occurs re text pre1 name1 post1) (h2 : Occurs re text pre2 name2 post2)
    (hlen : pre1.length = pre2.length) : name1 = name2 ∧ post1 = post2 := by
  obtain ⟨run1, ht1, -, hall1, hn1⟩ := h1
  obtain ⟨run2, ht2, -, hall2, hn2⟩ := h2
  rw [ht1] at ht2
  obtain ⟨-, hrest⟩ := List.append_inj ht2 hlen
  have hrun := List.append_cancel_left (List.append_cancel_left hrest)
  obtain ⟨hr, hp⟩ := run_unique run1 run2 post1 post2 (fun c hc => hq c (hall1 c hc))
    (fun c hc => hq c (hall2 c hc)) hrun
  exact ⟨by rw [hn1, hn2, hr], hp⟩

theorem regex_search_complete (re : NodeRegex) (hq : QuoteFree re)
    (text pre name post : List Char) (h : Leftmost re text pre name post) :
    regex_search re text = some (name, post) := by
  cases hs : regex_search re text with
  | none =>
    exact absurd ⟨pre, name, post, h.1⟩ ((regex_search_eq_none re hq text).mp hs)
  | some m =>
    obtain ⟨name2, post2⟩ := m
    obtain ⟨pre2, hocc2, hleft2⟩ := regex_search_sound re hq text name2 post2 hs
    have hlen : pre2.length = pre.length :=
      Nat.le_antisymm (hleft2 pre name post h.1) (h.2 pre2 name2 post2 hocc2)
    obtain ⟨hn, hp⟩ := occurs_unique re hq text pre2 name2 post2 pre name post hocc2 h.1 hlen
    rw [hn, hp]

theorem firstNode_of_search (re : NodeRegex) (hq : QuoteFree re) (text name : List Char)
    (h : (regex_search re text).map Prod.fst = some name) : FirstNode re text name := by
  cases hs : regex_search re text with
  | none => simp [hs] at h
  | some m =>
    obtain ⟨name2, post2⟩ := m
    simp only [hs, Option.map_some', Option.some.injEq] at h
    subst h
    obtain ⟨pre, hl⟩ := regex_search_sound re hq text name2 post2 hs
    exact ⟨pre, post2, hl⟩

theorem search_of_firstNode (re : NodeRegex) (hq : QuoteFree re) (text name : List Char)
    (h : FirstNode re text name) : ∃ post, regex_search re text = some (name, post) := by
  obtain ⟨pre, post, hl⟩ := h
  exact ⟨post, regex_search_complete re hq text pre name post hl⟩

theorem firstNode_exists (re : NodeRegex) (hq : QuoteFree re) (text : List Char)
    (h : HasNode re text) : ∃ name, FirstNode re text name := by
  cases hs : regex_search re text with
  | none => exact absurd h ((regex_search_eq_none re hq text).mp hs)
  | some m =>
    obtain ⟨name, post⟩ := m
    obtain ⟨pre, hl⟩ := regex_search_sound re hq text name post hs
    exact ⟨name, pre, post, hl⟩

theorem firstNode_unique (re : NodeRegex) (hq : QuoteFree re) (text name1 name2 : List Char)
    (h1 : FirstNode re text name1) (h2 : FirstNode re text name2) : name1 = name2 := by
  obtain ⟨post1, hs1⟩ := search_of_firstNode re hq text name1 h1
  obtain ⟨post2, hs2⟩ := search_of_firstNode re hq text name2 h2
  rw [hs1] at hs2
  simp only [Option.some.injEq, Prod.mk.injEq] at hs2
  exact hs2.1

theorem isDigit_ne_dquote (c : Char) (h : c.isDigit = true) : c ≠ dquote := by
  intro hc
  subst hc
  revert h
  decide

theorem quoteFree_nodeRegex : QuoteFree IwdManager.nodeRegex := isDigit_ne_dquote

theorem quoteFree_phyRegex : QuoteFree IwdManager.phyRegex := isDigit_ne_dquote

theorem quoteFree_deviceRegex : QuoteFree IwdManager.deviceRegex := isDigit_ne_dquote

theorem quoteFree_stationNodeRegex : QuoteFree Station.nodeRegex := by
  intro c h
  simpa [Station.nodeRegex] using h

/-! ## Facts about path strings -/

theorem append_mk_ne_empty (p : String) (hp : p ≠ "") (m : List Char) : p ++ String.mk m ≠ "" := by
  intro h
  apply hp
  have := congrArg String.data h
  simp only [String.data_append] at this
  exact String.ext (List.append_eq_nil.mp this).1

theorem append_mk_inj (p : String) (a b : List Char) (h : p ++ String.mk a = p ++ String.mk b) :
    a = b := by
  have := congrArg String.data h
  simpa [String.data_append] using this

/-! ## Object path resolution in terms of the searches -/

theorem adapter_of_numeric (bus : Bus) (data : String) (m r : List Char)
    (h : bus.introspect "/net/connman/iwd" = .ok data)
    (hs : regex_search IwdManager.nodeRegex data.toList = some (m, r)) :
    IwdManager.getAdapterObjectPath (some bus) = "/net/connman/iwd/" ++ String.mk m := by
  have hs1 : regex_search IwdManager.nodeRegex data.data = some (m, r) := hs
  simp [IwdManager.getAdapterObjectPath, h, hs1]

theorem adapter_of_phy (bus : Bus) (data : String) (m r : List Char)
    (h : bus.introspect "/net/connman/iwd" = .ok data)
    (hn : regex_search IwdManager.nodeRegex data.toList = none)
    (hs : regex_search IwdManager.phyRegex data.toList = some (m, r)) :
    IwdManager.getAdapterObjectPath (some bus) = "/net/connman/iwd/" ++ String.mk m := by
  have hn1 : regex_search IwdManager.nodeRegex data.data = none := hn
  have hs1 : regex_search IwdManager.phyRegex data.data = some (m, r) := hs
  simp [IwdManager.getAdapterObjectPath, h, hn1, hs1]

theorem adapter_of_none (bus : Bus) (data : String)
    (h : bus.introspect "/net/connman/iwd" = .ok data)
    (hn : regex_search IwdManager.nodeRegex data.toList = none)
    (hs : regex_search IwdManager.phyRegex data.toList = none) :
    IwdManager.getAdapterObjectPath (some bus) = "/net/connman/iwd/0" := by
  have hn1 : regex_search IwdManager.nodeRegex data.data = none := hn
  have hs1 : regex_search IwdManager.phyRegex data.data = none := hs
  simp [IwdManager.getAdapterObjectPath, h, hn1, hs1]

theorem adapter_of_error (bus : Bus) (w : String)
    (h : bus.introspect "/net/connman/iwd" = .error w) :
    IwdManager.getAdapterObjectPath (some bus) = "/net/connman/iwd/0" := by
  simp [IwdManager.getAdapterObjectPath, h]

theorem adapter_ne_empty (bus : Bus) : IwdManager.getAdapterObjectPath (some bus) ≠ "" := by
  unfold IwdManager.getAdapterObjectPath
  simp only
  split
  · split
    · exact append_mk_ne_empty _ (by decide) _
    · split
      · exact append_mk_ne_empty _ (by decide) _
      · decide
  · decide

theorem device_of_numeric (bus : Bus) (data : String) (m r : List Char)
    (h : bus.introspect (IwdManager.getAdapterObjectPath (some bus)) = .ok data)
    (hs : regex_search IwdManager.deviceRegex data.toList = some (m, r)) :
    IwdManager.getDeviceObjectPath (some bus)
      = IwdManager.getAdapterObjectPath (some bus) ++ "/" ++ String.mk m := by
  have hs1 := hs
  rw [show data.toList = data.data from rfl] at hs1
  simp [IwdManager.getDeviceObjectPath, adapter_ne_empty bus, h, hs1]

theorem device_of_none (bus : Bus) (data : String)
    (h : bus.introspect (IwdManager.getAdapterObjectPath (some bus)) = .ok data)
    (hs : regex_search IwdManager.deviceRegex data.toList = none) :
    IwdManager.getDeviceObjectPath (some bus)
      = IwdManager.getAdapterObjectPath (some bus) ++ "/1" := by
  have hs1 := hs
  rw [show data.toList = data.data from rfl] at hs1
  simp [IwdManager.getDeviceObjectPath, adapter_ne_empty bus, h, hs1]

theorem device_of_error (bus : Bus) (w : String)
    (h : bus.introspect (IwdManager.getAdapterObjectPath (some bus)) = .error w) :
    IwdManager.getDeviceObjectPath (some bus) = "" := by
  simp [IwdManager.getDeviceObjectPath, adapter_ne_empty bus, h]

theorem digits_ne_phy (re : NodeRegex) (hcls : re.cls = Char.isDigit) (hlit : re.groupLit = [])
    (text pre name post text2 pre2 sym post2 : List Char)
    (h : Occurs re text pre name post)
    (h2 : Occurs IwdManager.phyRegex text2 pre2 sym post2) : name ≠ sym := by
  obtain ⟨run, -, hne, hall, hname⟩ := h
  obtain ⟨run2, -, -, -, hsym⟩ := h2
  intro heq
  rw [hname, hsym, hlit] at heq
  cases run with
  | nil => exact hne rfl
  | cons c more =>
    have hc := hall c (List.mem_cons_self _ _)
    rw [hcls] at hc
    simp only [IwdManager.phyRegex, List.nil_append] at heq
    have hp : c = Char.ofNat 112 := by
      have := congrArg List.head? heq
      simpa using this
    subst hp
    revert hc
    decide

/-! ## Claims about object path resolution -/

/-- C2: when the root introspection has a numeric child node, `getAdapterObjectPath`
returns `/net/connman/iwd/` followed by the first numeric name in document
order, and when the adapter introspection has a numeric child node,
`getDeviceObjectPath` returns the adapter path, `/` and the first numeric name;
no symbolic `phy<digits>` name of the response is returned, wherever it occurs. -/
theorem resolve_first_numeric (bus : Bus) :
    (∀ (data : String) (name : List Char),
      bus.introspect "/net/connman/iwd" = .ok data →
      FirstNode IwdManager.nodeRegex data.toList name →
      IwdManager.getAdapterObjectPath (some bus) = "/net/connman/iwd/" ++ String.mk name ∧
      name.all Char.isDigit = true ∧ name ≠ [] ∧
      ∀ pre sym post, Occurs IwdManager.phyRegex data.toList pre sym post →
        IwdManager.getAdapterObjectPath (some bus) ≠ "/net/connman/iwd/" ++ String.mk sym) ∧
    (∀ (data : String) (name : List Char),
      bus.introspect (IwdManager.getAdapterObjectPath (some bus)) = .ok data →
      FirstNode IwdManager.deviceRegex data.toList name →
      IwdManager.getDeviceObjectPath (some bus)
        = IwdManager.getAdapterObjectPath (some bus) ++ "/" ++ String.mk name ∧
      name.all Char.isDigit = true ∧ name ≠ [] ∧
      ∀ pre sym post, Occurs IwdManager.phyRegex data.toList pre sym post →
        IwdManager.getDeviceObjectPath (some bus)
          ≠ IwdManager.getAdapterObjectPath (some bus) ++ "/" ++ String.mk sym) := by
  have shape : ∀ (re : NodeRegex), re.cls = Char.isDigit → re.groupLit = [] →
      ∀ text pre name post, Occurs re text pre name post →
        name.all Char.isDigit = true ∧ name ≠ [] := by
    rintro re hcls hlit text pre name post ⟨run, -, hne, hall, hname⟩
    rw [hlit, List.nil_append] at hname
    subst hname
    refine ⟨?_, hne⟩
    rw [List.all_eq_true]
    intro c hc
    rw [← hcls]
    exact hall c hc
  constructor
  · intro data name hdata hfirst
    obtain ⟨post, hs⟩ := search_of_firstNode _ quoteFree_nodeRegex _ _ hfirst
    obtain ⟨pre, post1, hocc, -⟩ := hfirst
    have hres := adapter_of_numeric bus data name post hdata hs
    obtain ⟨hdig, hne⟩ := shape _ rfl rfl _ _ _ _ hocc
    refine ⟨hres, hdig, hne, ?_⟩
    intro pre2 sym post2 hsym heq
    rw [hres] at heq
    exact digits_ne_phy _ rfl rfl _ _ _ _ _ _ _ _ hocc hsym (append_mk_inj _ _ _ heq)
  · intro data name hdata hfirst
    obtain ⟨post, hs⟩ := search_of_firstNode _ quoteFree_deviceRegex _ _ hfirst
    obtain ⟨pre, post1, hocc, -⟩ := hfirst
    have hres := device_of_numeric bus data name post hdata hs
    obtain ⟨hdig, hne⟩ := shape _ rfl rfl _ _ _ _ hocc
    refine ⟨hres, hdig, hne, ?_⟩
    intro pre2 sym post2 hsym heq
    rw [hres] at heq
    exact digits_ne_phy _ rfl rfl _ _ _ _ _ _ _ _ hocc hsym (append_mk_inj _ _ _ heq)

/-- C2, at a root that lists `phy0` before `0`: the adapter is `0`, the device `0/3`. -/
theorem resolve_first_numeric_witness :
    IwdManager.getAdapterObjectPath (some busPhyBeforeNumeric)
      = "/net/connman/iwd/" ++ String.mk [Char.ofNat 48] ∧
    IwdManager.getDeviceObjectPath (some busPhyBeforeNumeric)
      = IwdManager.getAdapterObjectPath (some busPhyBeforeNumeric) ++ "/"
          ++ String.mk [Char.ofNat 51] :=
  ⟨((resolve_first_numeric busPhyBeforeNumeric).1
      "<node><node name=\"phy0\"/><node name=\"0\"/></node>" [Char.ofNat 48] rfl
      (firstNode_of_search _ quoteFree_nodeRegex _ _ (by decide))).1,
   ((resolve_first_numeric busPhyBeforeNumeric).2
      "<node><node name=\"3\"/></node>" [Char.ofNat 51] rfl
      (firstNode_of_search _ quoteFree_deviceRegex _ _ (by decide))).1⟩

/-- C3: when the introspection response has no child node that the patterns
match, resolution answers with the conventional default and not with a failure:
`getAdapterObjectPath` returns `/net/connman/iwd/0` and `getDeviceObjectPath`
returns the adapter path followed by `/1`. -/
theorem resolve_default_when_no_nodes (bus : Bus) :
    (∀ data : String, bus.introspect "/net/connman/iwd" = .ok data →
      ¬ HasNode IwdManager.nodeRegex data.toList →
      ¬ HasNode IwdManager.phyRegex data.toList →
      IwdManager.getAdapterObjectPath (some bus) = "/net/connman/iwd/0") ∧
    (∀ data : String, bus.introspect (IwdManager.getAdapterObjectPath (some bus)) = .ok data →
      ¬ HasNode IwdManager.deviceRegex data.toList →
      IwdManager.getDeviceObjectPath (some bus)
        = IwdManager.getAdapterObjectPath (some bus) ++ "/1" ∧
      IwdManager.getDeviceObjectPath (some bus) ≠ "") := by
  constructor
  · intro data hdata hnum hphy
    exact adapter_of_none bus data hdata
      ((regex_search_eq_none _ quoteFree_nodeRegex _).mpr hnum)
      ((regex_search_eq_none _ quoteFree_phyRegex _).mpr hphy)
  · intro data hdata hnum
    have hres := device_of_none bus data hdata
      ((regex_search_eq_none _ quoteFree_deviceRegex _).mpr hnum)
    refine ⟨hres, ?_⟩
    rw [hres]
    exact append_mk_ne_empty _ (adapter_ne_empty bus) _

/-- C3, for a daemon whose objects have no child nodes: adapter `0`, device `0/1`. -/
theorem resolve_default_when_no_nodes_witness :
    IwdManager.getAdapterObjectPath (some busNoChildren) = "/net/connman/iwd/0" ∧
    IwdManager.getDeviceObjectPath (some busNoChildren)
      = IwdManager.getAdapterObjectPath (some busNoChildren) ++ "/1" :=
  ⟨(resolve_default_when_no_nodes busNoChildren).1
      "<node><interface name=\"net.connman.iwd.Daemon\"/></node>" rfl
      ((regex_search_eq_none _ quoteFree_nodeRegex _).mp (by decide))
      ((regex_search_eq_none _ quoteFree_phyRegex _).mp (by decide)),
   ((resolve_default_when_no_nodes busNoChildren).2
      "<node><interface name=\"net.connman.iwd.Daemon\"/></node>" rfl
      ((regex_search_eq_none _ quoteFree_deviceRegex _).mp (by decide))).1⟩

/-- C4: when the root introspection has no numeric child node but has a symbolic
`phy<digits>` child node, `getAdapterObjectPath` returns `/net/connman/iwd/`
followed by the first symbolic name in document order, which is not the
default identity. -/
theorem adapter_symbolic_fallback (bus : Bus) (data : String) (name : List Char)
    (hdata : bus.introspect "/net/connman/iwd" = .ok data)
    (hnum : ¬ HasNode IwdManager.nodeRegex data.toList)
    (hfirst : FirstNode IwdManager.phyRegex data.toList name) :
    IwdManager.getAdapterObjectPath (some bus) = "/net/connman/iwd/" ++ String.mk name ∧
    IwdManager.getAdapterObjectPath (some bus) ≠ "/net/connman/iwd/0" := by
  obtain ⟨post, hs⟩ := search_of_firstNode _ quoteFree_phyRegex _ _ hfirst
  have hres := adapter_of_phy bus data name post hdata
    ((regex_search_eq_none _ quoteFree_nodeRegex _).mpr hnum) hs
  refine ⟨hres, ?_⟩
  obtain ⟨pre, post1, ⟨run, -, -, -, hname⟩, -⟩ := hfirst
  rw [hres]
  intro heq
  have h0 : name = [Char.ofNat 48] :=
    append_mk_inj "/net/connman/iwd/" name [Char.ofNat 48] heq
  rw [hname] at h0
  simp [IwdManager.phyRegex] at h0

/-- C4, for a root whose only child node is `phy1`. -/
theorem adapter_symbolic_fallback_witness :
    IwdManager.getAdapterObjectPath (some busPhyOnly)
      = "/net/connman/iwd/" ++ String.mk "phy1".toList ∧
    IwdManager.getAdapterObjectPath (some busPhyOnly) ≠ "/net/connman/iwd/0" :=
  adapter_symbolic_fallback busPhyOnly
    "<node><interface name=\"net.connman.iwd.Daemon\"/><node name=\"phy1\"/></node>"
    "phy1".toList rfl
    ((regex_search_eq_none _ quoteFree_nodeRegex _).mp (by decide))
    (firstNode_of_search _ quoteFree_phyRegex _ _ (by decide))

/-- C5, refuted as stated: the adapter `0` answers with a document that has no
numeric child node and the symbolic child `phy0`; `getDeviceObjectPath` returns
`/net/connman/iwd/0/1` and not the adapter path followed by `/phy0`, although
`getAdapterObjectPath` returns `/net/connman/iwd/phy0` for the same document
under the root path. -/
theorem device_symbolic_counterexample :
    busPhyDevice.introspect (IwdManager.getAdapterObjectPath (some busPhyDevice))
      = .ok docPhyChild ∧
    ¬ HasNode IwdManager.deviceRegex docPhyChild.toList ∧
    FirstNode IwdManager.phyRegex docPhyChild.toList "phy0".toList ∧
    IwdManager.getDeviceObjectPath (some busPhyDevice)
      ≠ IwdManager.getAdapterObjectPath (some busPhyDevice) ++ "/" ++ String.mk "phy0".toList ∧
    IwdManager.getDeviceObjectPath (some busPhyDevice) = "/net/connman/iwd/0/1" ∧
    busPhyRoot.introspect "/net/connman/iwd" = .ok docPhyChild ∧
    IwdManager.getAdapterObjectPath (some busPhyRoot) = "/net/connman/iwd/phy0" :=
  ⟨rfl, (regex_search_eq_none _ quoteFree_deviceRegex _).mp (by decide),
   firstNode_of_search _ quoteFree_phyRegex _ _ (by decide), by decide, by decide, rfl,
   by decide⟩

/-- C5, amended: device resolution shares only the numeric step with adapter
resolution.  For every introspection response without a numeric child node,
symbolic `phy<digits>` child or not, `getDeviceObjectPath` returns the adapter
path followed by `/1`, whereas `getAdapterObjectPath`, given the same response
under the root path, returns `/net/connman/iwd/` and the first symbolic name. -/
theorem device_ignores_symbolic (bus root : Bus) (data : String) (name : List Char)
    (hdata : bus.introspect (IwdManager.getAdapterObjectPath (some bus)) = .ok data)
    (hroot : root.introspect "/net/connman/iwd" = .ok data)
    (hnum : ¬ HasNode IwdManager.deviceRegex data.toList)
    (hfirst : FirstNode IwdManager.phyRegex data.toList name) :
    IwdManager.getDeviceObjectPath (some bus)
      = IwdManager.getAdapterObjectPath (some bus) ++ "/1" ∧
    IwdManager.getAdapterObjectPath (some root) = "/net/connman/iwd/" ++ String.mk name :=
  ⟨device_of_none bus data hdata ((regex_search_eq_none _ quoteFree_deviceRegex _).mpr hnum),
   by
    obtain ⟨post, hs⟩ := search_of_firstNode _ quoteFree_phyRegex _ _ hfirst
    exact adapter_of_phy root data name post hroot
      ((regex_search_eq_none _ quoteFree_nodeRegex _).mpr hnum) hs⟩

/-- C5 amended, at the adapter document with the single child `phy0`. -/
theorem device_ignores_symbolic_witness :
    IwdManager.getDeviceObjectPath (some busPhyDevice)
      = IwdManager.getAdapterObjectPath (some busPhyDevice) ++ "/1" ∧
    IwdManager.getAdapterObjectPath (some busPhyRoot)
      = "/net/connman/iwd/" ++ String.mk "phy0".toList :=
  device_ignores_symbolic busPhyDevice busPhyRoot docPhyChild "phy0".toList rfl rfl
    ((regex_search_eq_none _ quoteFree_deviceRegex _).mp (by decide))
    (firstNode_of_search _ quoteFree_phyRegex _ _ (by decide))

/-- C6, refuted as stated: on a bus where every introspection fails with a
transport fault, `getAdapterObjectPath` does not report failure; it returns the
identity `/net/connman/iwd/0`, the same value as for a response without nodes. -/
theorem adapter_transport_fault_counterexample :
    busUnreachable.introspect "/net/connman/iwd" = .error "Connection refused" ∧
    IwdManager.getAdapterObjectPath (some busUnreachable) = "/net/connman/iwd/0" ∧
    IwdManager.getAdapterObjectPath (some busUnreachable) ≠ "" :=
  ⟨rfl, by decide, by decide⟩

/-- C6, amended: a transport fault of the introspection query made by
`getDeviceObjectPath` is a hard error, reported by the empty string; a transport
fault of the query made by `getAdapterObjectPath` is answered with the
conventional default `/net/connman/iwd/0`. -/
theorem transport_fault_resolution (bus : Bus) :
    (∀ w, bus.introspect (IwdManager.getAdapterObjectPath (some bus)) = .error w →
      IwdManager.getDeviceObjectPath (some bus) = "") ∧
    (∀ w, bus.introspect "/net/connman/iwd" = .error w →
      IwdManager.getAdapterObjectPath (some bus) = "/net/connman/iwd/0") :=
  ⟨fun w h => device_of_error bus w h, fun w h => adapter_of_error bus w h⟩

/-- C6 amended, at a bus whose adapter object is unreachable and at a bus
whose root is unreachable. -/
theorem transport_fault_resolution_witness :
    IwdManager.getDeviceObjectPath (some busAdapterUnreachable) = "" ∧
    IwdManager.getAdapterObjectPath (some busUnreachable) = "/net/connman/iwd/0" :=
  ⟨(transport_fault_resolution busAdapterUnreachable).1 "Connection refused" rfl,
   (transport_fault_resolution busUnreachable).2 "Connection refused" rfl⟩

/-! ## Running effectful code -/

@[simp] theorem Eff.pure_apply {α : Type} (a : α) (t : List Event) :
    (pure a : Eff α) t = (.ok a, t) := rfl

@[simp] theorem Eff.bind_apply {α β : Type} (m : Eff α) (f : α → Eff β) (t : List Event) :
    (m >>= f) t = Eff.bind m f t := rfl

@[simp] theorem Eff.throw_apply {α : Type} (e : Exn) (t : List Event) :
    (throw e : Eff α) t = (.error e, t) := rfl

@[simp] theorem Eff.tryCatch_apply {α : Type} (m : Eff α) (h : Exn → Eff α) (t : List Event) :
    (tryCatch m h : Eff α) t = Eff.handle m h t := rfl

@[simp] theorem Eff.emit_apply (e : Event) (t : List Event) :
    Eff.emit e t = (.ok (), t ++ [e]) := rfl

@[simp] theorem Eff.ofBus_ok {α : Type} (a : α) (t : List Event) :
    Eff.ofBus (.ok a : Except String α) t = (.ok a, t) := rfl

@[simp] theorem Eff.ofBus_error {α : Type} (w : String) (t : List Event) :
    Eff.ofBus (.error w : Except String α) t = (.error (.sdbusError w), t) := rfl

theorem getPropertyFromObjectPath_str (st : Station) (bus : Bus) (p iface property s : String)
    (t : List Event) (hc : st.connection_ = some bus)
    (h : bus.getProperty p iface property = .ok (.str s)) :
    Station.getPropertyFromObjectPath String st ⟨p⟩ iface property t
      = (.ok s, t ++ [.getProperty p iface property]) := by
  simp [Station.getPropertyFromObjectPath, hc, Eff.bind, h, VariantType.ofVariant]

theorem getConnectedNetwork_objectPath (st : Station) (bus : Bus) (c : String)
    (t : List Event) (hc : st.connection_ = some bus)
    (h : bus.getProperty st.device_object_path_ "net.connman.iwd.Station" "ConnectedNetwork"
      = .ok (.objectPath c)) :
    Station.getConnectedNetwork st t = (.ok c, t ++ [Station.connectedRead st]) := by
  simp [Station.getConnectedNetwork, Station.getProperty, hc, Eff.bind, h,
    VariantType.ofVariant, Station.connectedRead]

theorem getOrderedNetworksLoop_run (st : Station) (bus : Bus) (connected : String)
    (name type : String → String) (hc : st.connection_ = some bus)
    (reply : List (String × Int))
    (hn : ∀ p ∈ reply.map Prod.fst,
      bus.getProperty p "net.connman.iwd.Network" "Name" = .ok (.str (name p)))
    (ht : ∀ p ∈ reply.map Prod.fst,
      bus.getProperty p "net.connman.iwd.Network" "Type" = .ok (.str (type p)))
    (networks : List Station.NetworkInfo) (t : List Event) :
    Station.getOrderedNetworksLoop st connected reply networks t
      = (.ok (networks ++ reply.map (Station.expectedInfo connected name type)),
         t ++ reply.flatMap Station.networkReads) := by
  induction reply generalizing networks t with
  | nil => simp [Station.getOrderedNetworksLoop]
  | cons entry more ih =>
    obtain ⟨p, sig⟩ := entry
    have hn1 := hn p (by simp)
    have ht1 := ht p (by simp)
    have ih1 := ih (fun q hq => hn q (by simp at hq ⊢; exact Or.inr hq))
      (fun q hq => ht q (by simp at hq ⊢; exact Or.inr hq))
    simp [Station.getOrderedNetworksLoop, Eff.bind,
      getPropertyFromObjectPath_str st bus p _ _ _ _ hc hn1,
      getPropertyFromObjectPath_str st bus p _ _ _ _ hc ht1, ih1,
      Station.expectedInfo, Station.networkReads]

/-- The complete outcome of `getOrderedNetworks` when the daemon answers. -/
theorem getOrderedNetworks_run (st : Station) (bus : Bus) (reply : List (String × Int))
    (connected : String) (name type : String → String)
    (h : Station.Answers st bus reply connected name type) :
    (Station.getOrderedNetworks st).run
      = (.ok (reply.map (Station.expectedInfo connected name type)),
         [.orderedNetworks st.device_object_path_, Station.connectedRead st]
           ++ reply.flatMap Station.networkReads) := by
  simp [Eff.run, Station.getOrderedNetworks, h.connection, Eff.handle, Eff.bind, h.ordered,
    getConnectedNetwork_objectPath st bus connected _ h.connection h.connectedNetwork,
    getOrderedNetworksLoop_run st bus connected name type h.connection reply h.names h.types]

theorem listingStation_answers (reply : List (String × Int)) (connected : String) :
    ∃ bus, Station.Answers (listingStation reply connected) bus reply connected
      (fun p => p) (fun _ => "psk") :=
  ⟨_, ⟨rfl, rfl, rfl, fun _ _ => rfl, fun _ _ => rfl⟩⟩

theorem inUse_length_eq_count (connected : String) (name type : String → String)
    (reply : List (String × Int)) :
    ((reply.map (Station.expectedInfo connected name type)).filter (·.in_use)).length
      = (reply.map Prod.fst).count connected := by
  induction reply with
  | nil => rfl
  | cons entry more ih =>
    by_cases h : entry.1 = connected
    · simp [Station.expectedInfo, h, List.filter_cons, ← ih]
    · have h2 : ¬ (entry.1 == connected) = true := by simpa using h
      simp [Station.expectedInfo, h, List.filter_cons, List.count_cons, h2, ← ih]

theorem connectedRead_not_mem_networkReads (st : Station) (reply : List (String × Int)) :
    Station.connectedRead st ∉ reply.flatMap Station.networkReads := by
  intro h
  obtain ⟨entry, -, he⟩ := List.mem_flatMap.mp h
  simp [Station.networkReads, Station.connectedRead] at he

/-! ## Claims about the network listing -/

/-- C7, refuted as stated: the daemon replies `[(B,-6500),(A,-4000)]`, weakest
first; `Station::getOrderedNetworks` returns the records in that order, which
is not sorted by signal strength in descending order. -/
theorem getOrderedNetworks_unsorted_counterexample :
    (Station.getOrderedNetworks (listingStation [("B", -6500), ("A", -4000)] "A")).run.1
      = .ok [⟨"B", "B", "psk", -6500, false⟩, ⟨"A", "A", "psk", -4000, true⟩] ∧
    ¬ List.Sorted (· ≥ ·)
      (List.map Station.NetworkInfo.signal_strength
        [⟨"B", "B", "psk", -6500, false⟩, ⟨"A", "A", "psk", -4000, true⟩]) :=
  ⟨rfl, by decide⟩

/-- C7, amended: `Station::getOrderedNetworks` returns the records in exactly
the order of the daemon reply.  The result is sorted by signal strength in
descending order exactly when the reply is, and all records, those of equal
signal strength included, keep the relative order of the reply. -/
theorem getOrderedNetworks_keeps_daemon_order (st : Station) (bus : Bus)
    (reply : List (String × Int)) (connected : String) (name type : String → String)
    (h : Station.Answers st bus reply connected name type) :
    ∃ networks, (Station.getOrderedNetworks st).run.1 = .ok networks ∧
      networks.map (fun n => (n.object_path, n.signal_strength)) = reply ∧
      (List.Sorted (· ≥ ·) (networks.map (·.signal_strength))
        ↔ List.Sorted (· ≥ ·) (reply.map Prod.snd)) := by
  have hpairs : (reply.map (Station.expectedInfo connected name type)).map
      (fun n => (n.object_path, n.signal_strength)) = reply := by
    simp [Station.expectedInfo, Function.comp_def]
  refine ⟨_, by rw [getOrderedNetworks_run st bus reply connected name type h], hpairs, ?_⟩
  have hsig : (reply.map (Station.expectedInfo connected name type)).map (·.signal_strength)
      = reply.map Prod.snd := by
    simp [Station.expectedInfo, Function.comp_def]
  rw [hsig]

/-- C7 amended, at the reply `[(B,-6500),(A,-4000)]`: the order is kept. -/
theorem getOrderedNetworks_keeps_daemon_order_witness :
    ∃ networks,
      (Station.getOrderedNetworks (listingStation [("B", -6500), ("A", -4000)] "A")).run.1
        = .ok networks ∧
      networks.map (fun n => (n.object_path, n.signal_strength))
        = [("B", -6500), ("A", -4000)] ∧
      (List.Sorted (· ≥ ·) (networks.map (·.signal_strength))
        ↔ List.Sorted (· ≥ ·) (([("B", -6500), ("A", -4000)] : List (String × Int)).map Prod.snd)) :=
  (listingStation_answers [("B", -6500), ("A", -4000)] "A").elim fun bus h =>
    getOrderedNetworks_keeps_daemon_order _ bus _ "A" _ _ h

/-- C8, refuted as stated: the daemon lists the object path `A` twice and `A`
is the connected network; both returned records have `in_use = true`. -/
theorem in_use_twice_counterexample :
    (Station.getOrderedNetworks (listingStation [("A", -4000), ("A", -6500)] "A")).run.1
      = .ok [⟨"A", "A", "psk", -4000, true⟩, ⟨"A", "A", "psk", -6500, true⟩] ∧
    (List.filter (·.in_use)
      [(⟨"A", "A", "psk", -4000, true⟩ : Station.NetworkInfo),
        ⟨"A", "A", "psk", -6500, true⟩]).length = 2 :=
  ⟨rfl, rfl⟩

/-- C8, amended: a returned record has `in_use = true` if and only if its
object path equals the `ConnectedNetwork` value, which is read exactly once per
call; at most one returned record has `in_use = true` whenever the object
paths of the daemon reply are pairwise distinct. -/
theorem in_use_iff_connected (st : Station) (bus : Bus)
    (reply : List (String × Int)) (connected : String) (name type : String → String)
    (h : Station.Answers st bus reply connected name type) :
    ∃ networks, (Station.getOrderedNetworks st).run.1 = .ok networks ∧
      (∀ n ∈ networks, n.in_use = true ↔ n.object_path = connected) ∧
      ((reply.map Prod.fst).Nodup → (networks.filter (·.in_use)).length ≤ 1) ∧
      (Station.getOrderedNetworks st).run.2.count (Station.connectedRead st) = 1 := by
  rw [getOrderedNetworks_run st bus reply connected name type h]
  refine ⟨_, rfl, ?_, ?_, ?_⟩
  · intro n hn
    obtain ⟨entry, -, rfl⟩ := List.mem_map.mp hn
    simp [Station.expectedInfo]
  · intro hnodup
    rw [inUse_length_eq_count]
    exact List.nodup_iff_count_le_one.mp hnodup connected
  · have h0 := List.count_eq_zero.mpr (connectedRead_not_mem_networkReads st reply)
    have h1 : (Event.orderedNetworks st.device_object_path_ == Station.connectedRead st)
        = false := by
      simp [Station.connectedRead]
    simp [List.count_cons, h0, h1]

/-- C8 amended, at the reply `[(A,-4000),(B,-6500)]` with `A` connected. -/
theorem in_use_iff_connected_witness :
    ∃ networks,
      (Station.getOrderedNetworks (listingStation [("A", -4000), ("B", -6500)] "A")).run.1
        = .ok networks ∧
      (∀ n ∈ networks, n.in_use = true ↔ n.object_path = "A") ∧
      ((([("A", -4000), ("B", -6500)] : List (String × Int)).map Prod.fst).Nodup →
        (networks.filter (·.in_use)).length ≤ 1) ∧
      (Station.getOrderedNetworks (listingStation [("A", -4000), ("B", -6500)] "A")).run.2.count
        (Station.connectedRead (listingStation [("A", -4000), ("B", -6500)] "A")) = 1 :=
  (listingStation_answers [("A", -4000), ("B", -6500)] "A").elim fun bus h =>
    in_use_iff_connected _ bus _ "A" _ _ h

/-- C9: for a daemon reply `[(p1,s1),...,(pn,sn)]`, `Station::getOrderedNetworks`
returns exactly the `n` records, in order, whose `object_path` is `pi`, whose
`signal_strength` is `si`, whose `ssid` and `security` are the `Name` and `Type`
properties of the network at `pi`, and whose `in_use` tells whether `pi` is the
connected network. -/
theorem getOrderedNetworks_records (st : Station) (bus : Bus)
    (reply : List (String × Int)) (connected : String) (name type : String → String)
    (h : Station.Answers st bus reply connected name type) :
    (Station.getOrderedNetworks st).run.1
      = .ok (reply.map fun entry =>
          { object_path := entry.1, ssid := name entry.1, security := type entry.1,
            signal_strength := entry.2, in_use := decide (entry.1 = connected) }) := by
  rw [getOrderedNetworks_run st bus reply connected name type h]
  rfl

/-- C9, the scenario: the reply `[(A,-4000),(B,-6500)]` with `ConnectedNetwork = A`
yields `[{A, -4000, in_use = true}, {B, -6500, in_use = false}]`. -/
theorem getOrderedNetworks_records_witness :
    (Station.getOrderedNetworks (listingStation [("A", -4000), ("B", -6500)] "A")).run.1
      = .ok [⟨"A", "A", "psk", -4000, true⟩, ⟨"B", "B", "psk", -6500, false⟩] :=
  (listingStation_answers [("A", -4000), ("B", -6500)] "A").elim fun bus h =>
    getOrderedNetworks_records _ bus _ "A" _ _ h

/-! ## Known networks -/

theorem occurs_post_length (re : NodeRegex) (text pre name post : List Char)
    (h : Occurs re text pre name post) : post.length < text.length := by
  obtain ⟨run, ht, -⟩ := h
  have := congrArg List.length ht
  simp [openLit] at this
  omega

theorem childNodes_stop (re : NodeRegex) (hq : QuoteFree re) (text : List Char)
    (h : regex_search re text = none) : ChildNodes re text [] :=
  .done ((regex_search_eq_none re hq text).mp h)

theorem childNodes_step (re : NodeRegex) (hq : QuoteFree re) (text name post : List Char)
    (names : List (List Char)) (h : regex_search re text = some (name, post))
    (hrest : ChildNodes re post names) : ChildNodes re text (name :: names) := by
  obtain ⟨pre, hl⟩ := regex_search_sound re hq text name post h
  exact .next hl hrest

theorem childNodes_exists (re : NodeRegex) (hq : QuoteFree re) (text : List Char) :
    ∃ names, ChildNodes re text names := by
  suffices hall : ∀ n (text : List Char), text.length = n → ∃ names, ChildNodes re text names
    from hall text.length text rfl
  intro n
  induction n using Nat.strong_induction_on with
  | _ n ih =>
    intro text hlen
    cases hs : regex_search re text with
    | none => exact ⟨[], childNodes_stop re hq text hs⟩
    | some m =>
      obtain ⟨name, post⟩ := m
      obtain ⟨pre, hl⟩ := regex_search_sound re hq text name post hs
      have hlt := occurs_post_length re text pre name post hl.1
      obtain ⟨names, hnames⟩ := ih post.length (by omega) post rfl
      exact ⟨name :: names, .next hl hnames⟩

theorem getAllConnectionLoop_spec (text : List Char) (names : List (List Char))
    (h : ChildNodes Station.nodeRegex text names) (fuel : Nat) (hfuel : text.length ≤ fuel)
    (wifiConnections : List String) :
    Station.getAllConnectionLoop fuel text wifiConnections
      = wifiConnections ++ (names.filter fun n => !n.all Char.isDigit).map
          fun n => "/net/connman/iwd/" ++ String.mk n := by
  induction h generalizing fuel wifiConnections with
  | done hno =>
    have hs := (regex_search_eq_none _ quoteFree_stationNodeRegex _).mpr hno
    cases fuel with
    | zero => simp [Station.getAllConnectionLoop]
    | succ f => simp [Station.getAllConnectionLoop, hs]
  | @next text pre name post names hl _ ih =>
    have hs := regex_search_complete _ quoteFree_stationNodeRegex text pre name post hl
    have hlt := occurs_post_length _ text pre name post hl.1
    cases fuel with
    | zero => omega
    | succ f =>
      have ih1 := ih f (by omega)
      by_cases hd : name.all Char.isDigit = true
      · simp [Station.getAllConnectionLoop, hs, hd, ih1, List.filter_cons]
      · simp [Station.getAllConnectionLoop, hs, hd, ih1, List.filter_cons]

/-- C10: `Station::getAllConnection` returns, in document order,
`/net/connman/iwd/` followed by the name for exactly those child node names of
the root introspection response that are not made up entirely of decimal
digits; the child node names exist for every response. -/
theorem getAllConnection_non_numeric_children (st : Station) (bus : Bus) (data : String)
    (hc : st.connection_ = some bus)
    (hdata : bus.introspect "/net/connman/iwd" = .ok data) :
    (∃ names, ChildNodes Station.nodeRegex data.toList names) ∧
    ∀ names, ChildNodes Station.nodeRegex data.toList names →
      (Station.getAllConnection st).run.1
        = .ok ((names.filter fun n => !n.all Char.isDigit).map
            fun n => "/net/connman/iwd/" ++ String.mk n) := by
  refine ⟨childNodes_exists _ quoteFree_stationNodeRegex _, ?_⟩
  intro names hnames
  have hloop := getAllConnectionLoop_spec data.toList names hnames data.length
    (le_of_eq rfl) []
  simp only [String.toList] at hloop
  simp [Eff.run, Station.getAllConnection, hc, Eff.bind, hdata, hloop]

/-- C10, the scenario: the children `0`, `1` and `Home_Network` yield
`/net/connman/iwd/Home_Network` only. -/
theorem getAllConnection_non_numeric_children_witness :
    ChildNodes Station.nodeRegex docHomeNetwork.toList
      ["0".toList, "1".toList, "Home_Network".toList] ∧
    (Station.getAllConnection stationHomeNetwork).run.1
      = .ok ["/net/connman/iwd/Home_Network"] := by
  have hq := quoteFree_stationNodeRegex
  have hnames : ChildNodes Station.nodeRegex docHomeNetwork.toList
      ["0".toList, "1".toList, "Home_Network".toList] := by
    refine childNodes_step _ hq _ _ "/><node name=\"1\"/><node name=\"Home_Network\"/></node>".toList
      _ (by decide) ?_
    refine childNodes_step _ hq _ _ "/><node name=\"Home_Network\"/></node>".toList
      _ (by decide) ?_
    refine childNodes_step _ hq _ _ "/></node>".toList _ (by decide) ?_
    exact childNodes_stop _ hq _ (by decide)
  exact ⟨hnames, (getAllConnection_non_numeric_children stationHomeNetwork _ docHomeNetwork
    rfl rfl).2 _ hnames⟩

/-! ## Connecting -/

theorem Eff.bind_ne_false {α : Type} (m : Eff α) (f : α → Eff Bool)
    (hf : ∀ a t, (f a t).1 ≠ .ok false) (t : List Event) : ((m >>= f) t).1 ≠ .ok false := by
  simp only [Eff.bind_apply, Eff.bind]
  cases h : m t with
  | mk r t1 =>
    cases r with
    | ok a => exact hf a t1
    | error e => simp

theorem Eff.handle_ne_false (m : Eff Bool) (h : Exn → Eff Bool)
    (hm : ∀ t, (m t).1 ≠ .ok false) (hh : ∀ e t, (h e t).1 ≠ .ok false) (t : List Event) :
    ((tryCatch m h : Eff Bool) t).1 ≠ .ok false := by
  simp only [Eff.tryCatch_apply, Eff.handle]
  have hmt := hm t
  cases hr : m t with
  | mk r t1 =>
    rw [hr] at hmt
    cases r with
    | ok a => simpa using hmt
    | error e => exact hh e t1

/-- The D-Bus attempt reports every failure by an exception: it never returns
`false`, so the fallback branch of `connectToNetwork` is never taken. -/
theorem connectToNetworkViaDBus_ne_false (connection_ : Option Bus) (ssid password : String)
    (t : List Event) :
    (IwdManager.connectToNetworkViaDBus connection_ ssid password t).1 ≠ .ok false := by
  unfold IwdManager.connectToNetworkViaDBus
  apply Eff.bind_ne_false
  intro _ t
  cases connection_ with
  | none => simp
  | some bus =>
    apply Eff.handle_ne_false
    · apply Eff.bind_ne_false
      intro station t
      cases station with
      | none => simp
      | some station =>
        apply Eff.bind_ne_false
        intro scanned t
        split
        · simp
        · apply Eff.bind_ne_false
          intro networks t
          by_cases hfound : IwdManager.findNetworkObjectPath ssid networks = ""
          · simp [hfound]
          · rw [if_neg hfound]
            apply Eff.bind_ne_false
            intro _ t
            apply Eff.bind_ne_false
            intro _ t
            simp
    · intro e t
      cases e <;> simp

/-- Whatever the D-Bus attempt does, `connectToNetwork` performs the same calls
and nothing more: when the attempt throws, `connectToNetwork` throws as well,
without a call of `connectToNetworkViaIWCTL`. -/
theorem connectToNetwork_after_fault (executeCommand : String → List String → Int)
    (connection_ : Option Bus) (ssid password : String) (e : Exn) (t1 : List Event)
    (h : (IwdManager.connectToNetworkViaDBus connection_ ssid password).run = (.error e, t1)) :
    ∃ e2, (IwdManager.connectToNetwork executeCommand connection_ ssid password).run
      = (.error e2, t1) := by
  simp only [Eff.run] at h
  cases e <;> simp [Eff.run, IwdManager.connectToNetwork, Eff.handle, Eff.bind, h]

/-- On every input `connectToNetwork` performs exactly the calls of the D-Bus
attempt: the attempt either returns `true` or throws, and in both cases
nothing is done after it. -/
theorem connectToNetwork_trace (executeCommand : String → List String → Int)
    (connection_ : Option Bus) (ssid password : String) :
    (IwdManager.connectToNetwork executeCommand connection_ ssid password).run.2
      = (IwdManager.connectToNetworkViaDBus connection_ ssid password).run.2 := by
  have hnf := connectToNetworkViaDBus_ne_false connection_ ssid password []
  cases hr : (IwdManager.connectToNetworkViaDBus connection_ ssid password).run with
  | mk r t1 =>
    simp only [Eff.run] at hr
    rw [hr] at hnf
    cases r with
    | error e =>
      obtain ⟨e2, he2⟩ := connectToNetwork_after_fault executeCommand connection_ ssid password
        e t1 hr
      rw [he2]
    | ok b =>
      cases b with
      | false => exact absurd rfl hnf
      | true => simp [Eff.run, IwdManager.connectToNetwork, Eff.handle, Eff.bind, hr]

/-- C1, the code at a failing input: the visible networks are `[Office]` and
the request is for `Home`.  The D-Bus attempt raises `Network 'Home' not found`;
`connectToNetwork` raises the same exception and `connectToNetworkViaIWCTL` is
not invoked, although it would have succeeded. -/
theorem connectToNetwork_skips_fallback :
    (IwdManager.connectToNetworkViaDBus (some busOffice) "Home" "").run.1
      = .error (.networkException "Network 'Home' not found") ∧
    (IwdManager.connectToNetwork iwctlSucceeds (some busOffice) "Home" "").run.1
      = .error (.networkException "Network 'Home' not found") ∧
    (IwdManager.connectToNetwork iwctlSucceeds (some busOffice) "Home" "").run.2.count
      (.enter "connectToNetworkViaIWCTL") = 0 ∧
    (IwdManager.connectToNetworkViaIWCTL iwctlSucceeds (some busOffice) "Home" "").run
      = (.ok true,
         [.enter "connectToNetworkViaIWCTL", .openConnection,
          .getProperty "/net/connman/iwd/0/3" "net.connman.iwd.Device" "Name",
          .executeCommand "iwctl" ["station", "wlan0", "connect", "Home"]]) :=
  ⟨rfl, rfl, by decide, rfl⟩

/-! ## Creating a station -/

theorem createStation_run (bus : Bus) (t : List Event) :
    IwdManager.createStation (some bus) t =
      if IwdManager.getDeviceObjectPath (some bus) = "" then
        (.ok none, t ++ [.stderr "Failed to get device object path for Station"])
      else
        match bus.openConnection with
        | .ok _ => (.ok (some (readyStation bus)), t ++ [.openConnection])
        | .error w =>
          (.ok none, t ++ [.openConnection, .stderr ("Failed to create Station: " ++ w)]) := by
  unfold IwdManager.createStation
  by_cases hd : IwdManager.getDeviceObjectPath (some bus) = ""
  · simp [hd, Eff.bind]
  · simp only [hd, if_false]
    cases ho : bus.openConnection with
    | ok u => simp [Station.new, Eff.handle, Eff.bind, ho, readyStation]
    | error w => simp [Station.new, Eff.handle, Eff.bind, ho, Exn.what]

theorem createStation_ready (bus : Bus) (h : StationReady bus) (t : List Event) :
    IwdManager.createStation (some bus) t
      = (.ok (some (readyStation bus)), t ++ [.openConnection]) := by
  rw [createStation_run, if_neg h.device, h.connection]

theorem iwdManager_new_ok (bus : Bus) (t : List Event) :
    IwdManager.new (.ok bus) t = (.ok (some bus), t ++ [.openConnection]) := by
  simp [IwdManager.new, Eff.bind]

/-! ## Claims about NetworkManager -/

/-- C11: when the station reports a non-empty `ConnectedNetwork` whose `Name` is
`Y`, `deactivateConnection(X)` with `X ≠ Y` returns `false` and issues no
`Disconnect` call. -/
theorem deactivateConnection_guard (bus : Bus) (x y connected : String) (hxy : y ≠ x)
    (hconnected : bus.getProperty (IwdManager.getDeviceObjectPath (some bus))
      "net.connman.iwd.Station" "ConnectedNetwork" = .ok (.objectPath connected))
    (hne : connected ≠ "")
    (hname : bus.getProperty connected "net.connman.iwd.Network" "Name" = .ok (.str y)) :
    (NetworkManager.deactivateConnection (.ok bus) x).run.1 = .ok false ∧
    (NetworkManager.deactivateConnection (.ok bus) x).run.2.filter (Event.isCall "Disconnect")
      = [] := by
  have hst : (readyStation bus).connection_ = some bus := rfl
  have hread := fun t => getConnectedNetwork_objectPath (readyStation bus) bus connected t hst
    hconnected
  have hssid := fun t => getPropertyFromObjectPath_str (readyStation bus) bus connected
    "net.connman.iwd.Network" "Name" y t hst hname
  simp only [Eff.run, NetworkManager.deactivateConnection, Eff.tryCatch_apply, Eff.handle,
    Eff.bind_apply, Eff.bind, iwdManager_new_ok, createStation_run]
  by_cases hd : IwdManager.getDeviceObjectPath (some bus) = ""
  · simp [hd, Eff.bind, Event.isCall]
  · cases ho : bus.openConnection with
    | error w => simp [hd, Eff.bind, Event.isCall]
    | ok u =>
      simp [hd, Eff.bind, hread, hne, hssid, hxy, Event.isCall, Station.connectedRead]

/-- C11, at the daemon connected to `Office`: a request to deactivate `Guest`
is refused without a `Disconnect` call. -/
theorem deactivateConnection_guard_witness :
    (NetworkManager.deactivateConnection (.ok busOfficeGuest) "Guest").run.1 = .ok false ∧
    (NetworkManager.deactivateConnection (.ok busOfficeGuest) "Guest").run.2.filter
      (Event.isCall "Disconnect") = [] :=
  deactivateConnection_guard busOfficeGuest "Guest" "Office" officePath (by decide) rfl
    (by decide) rfl

theorem filter_isCall_knownNetworkReads (method : String) (known : List String) :
    (knownNetworkReads known).filter (Event.isCall method) = [] := by
  simp [knownNetworkReads, List.filter_eq_nil_iff, Event.isCall]

theorem getAllConnection_run (st : Station) (bus : Bus) (data : String) (t : List Event)
    (hc : st.connection_ = some bus) (hdata : bus.introspect "/net/connman/iwd" = .ok data) :
    Station.getAllConnection st t
      = (.ok (Station.getAllConnectionLoop data.length data.toList []),
         t ++ [.introspect "/net/connman/iwd"]) := by
  simp [Station.getAllConnection, hc, Eff.bind, hdata]

theorem deleteConnectionLoop_miss (st : Station) (bus : Bus) (ssid : String)
    (name : String → String) (hc : st.connection_ = some bus) (known : List String)
    (hnames : ∀ p ∈ known,
      bus.getProperty p "net.connman.iwd.KnownNetwork" "Name" = .ok (.str (name p)))
    (hmiss : ∀ q ∈ known, name q ≠ ssid) (t : List Event) :
    NetworkManager.deleteConnectionLoop st ssid known t
      = (.ok false, t ++ knownNetworkReads known
          ++ [.stderr ("Network '" ++ ssid ++ "' not found in known networks")]) := by
  induction known generalizing t with
  | nil => simp [NetworkManager.deleteConnectionLoop, Eff.bind, knownNetworkReads]
  | cons p more ih =>
    have hp := getPropertyFromObjectPath_str st bus p "net.connman.iwd.KnownNetwork" "Name"
      (name p) t hc (hnames p (List.mem_cons_self _ _))
    have hne : name p ≠ ssid := hmiss p (List.mem_cons_self _ _)
    have ih1 := ih (fun q hq => hnames q (List.mem_cons_of_mem _ hq))
      (fun q hq => hmiss q (List.mem_cons_of_mem _ hq))
    simp [NetworkManager.deleteConnectionLoop, Eff.bind, hp, hne, ih1, knownNetworkReads]

theorem deleteConnectionLoop_hit (st : Station) (bus : Bus) (ssid : String)
    (name : String → String) (hc : st.connection_ = some bus) (pre : List String)
    (p : String) (post : List String)
    (hnames : ∀ q ∈ pre ++ p :: post,
      bus.getProperty q "net.connman.iwd.KnownNetwork" "Name" = .ok (.str (name q)))
    (hmiss : ∀ q ∈ pre, name q ≠ ssid) (hhit : name p = ssid) (t : List Event) :
    NetworkManager.deleteConnectionLoop st ssid (pre ++ p :: post) t
      = match bus.callMethodBool p "net.connman.iwd.KnownNetwork" "Forget" with
        | .ok _ =>
          (.ok true, t ++ knownNetworkReads (pre ++ [p])
            ++ [.callMethod p "net.connman.iwd.KnownNetwork" "Forget",
                .stdout ("Successfully deleted connection '" ++ ssid ++ "'")])
        | .error w =>
          (.error (.sdbusError w), t ++ knownNetworkReads (pre ++ [p])
            ++ [.callMethod p "net.connman.iwd.KnownNetwork" "Forget"]) := by
  induction pre generalizing t with
  | nil =>
    have hp := getPropertyFromObjectPath_str st bus p "net.connman.iwd.KnownNetwork" "Name"
      (name p) t hc (hnames p (by simp))
    cases hf : bus.callMethodBool p "net.connman.iwd.KnownNetwork" "Forget" with
    | ok b =>
      simp [NetworkManager.deleteConnectionLoop, Eff.bind, hp, hhit,
        Station.callMethodFromObjectPath, hc, hf, knownNetworkReads]
    | error w =>
      simp [NetworkManager.deleteConnectionLoop, Eff.bind, hp, hhit,
        Station.callMethodFromObjectPath, hc, hf, knownNetworkReads]
  | cons q more ih =>
    have hq := getPropertyFromObjectPath_str st bus q "net.connman.iwd.KnownNetwork" "Name"
      (name q) t hc (hnames q (by simp))
    have hne : name q ≠ ssid := hmiss q (List.mem_cons_self _ _)
    have ih1 := ih (fun r hr => hnames r (List.mem_cons_of_mem _ hr))
      (fun r hr => hmiss r (List.mem_cons_of_mem _ hr))
    simp only [List.cons_append, NetworkManager.deleteConnectionLoop, Eff.bind_apply, Eff.bind,
      hq, hne, if_false, List.append_eq]
    rw [ih1]
    cases bus.callMethodBool p "net.connman.iwd.KnownNetwork" "Forget" <;>
      simp [knownNetworkReads]

theorem deleteConnection_run (bus : Bus) (ssid : String) (known : List String)
    (name : String → String) (hready : StationReady bus) (hknown : KnownNetworks bus known name) :
    (NetworkManager.deleteConnection (.ok bus) ssid).run
      = Eff.handle
          (NetworkManager.deleteConnectionLoop (readyStation bus) ssid known)
          (fun e => match e with
            | .sdbusError w => do
              Eff.emit (.stderr ("D-Bus error deleting connection '" ++ ssid ++ "': " ++ w))
              pure false
            | _ => do
              Eff.emit (.stderr ("Error deleting connection '" ++ ssid ++ "': " ++ e.what))
              pure false)
          [.openConnection, .openConnection, .introspect "/net/connman/iwd"] := by
  obtain ⟨data, hdata, hloop⟩ := hknown.listed
  simp only [Eff.run, NetworkManager.deleteConnection, Eff.tryCatch_apply, Eff.handle,
    Eff.bind_apply, Eff.bind, iwdManager_new_ok, createStation_ready bus hready,
    getAllConnection_run (readyStation bus) bus data _ rfl hdata, hloop]
  rfl

theorem deleteConnection_total (systemBus : Except String Bus) (ssid : String) :
    ∃ b, (NetworkManager.deleteConnection systemBus ssid).run.1 = .ok b := by
  simp only [Eff.run, NetworkManager.deleteConnection, Eff.tryCatch_apply, Eff.handle]
  split
  · exact ⟨_, rfl⟩
  · rename_i e t1 _
    cases e <;> exact ⟨false, rfl⟩

/-- The walk of `deleteConnection(ssid)` over the known networks: `Forget` is
invoked exactly once, on the first known network whose `Name` is `ssid`, and
the result is `true` only when a boolean can be read from the reply to that
call; when no known network has that `Name` the result is `false` without a
`Forget` call; no exception leaves the function. -/
theorem deleteConnection_forgets_first_match (bus : Bus) (ssid : String)
    (known : List String) (name : String → String)
    (hready : StationReady bus) (hknown : KnownNetworks bus known name) :
    (∀ pre p post, known = pre ++ p :: post → (∀ q ∈ pre, name q ≠ ssid) → name p = ssid →
      (NetworkManager.deleteConnection (.ok bus) ssid).run.2.filter (Event.isCall "Forget")
        = [.callMethod p "net.connman.iwd.KnownNetwork" "Forget"] ∧
      ∀ b, bus.callMethodBool p "net.connman.iwd.KnownNetwork" "Forget" = .ok b →
        (NetworkManager.deleteConnection (.ok bus) ssid).run.1 = .ok true) ∧
    ((∀ q ∈ known, name q ≠ ssid) →
      (NetworkManager.deleteConnection (.ok bus) ssid).run.1 = .ok false ∧
      (NetworkManager.deleteConnection (.ok bus) ssid).run.2.filter (Event.isCall "Forget")
        = []) ∧
    ∀ systemBus, ∃ b, (NetworkManager.deleteConnection systemBus ssid).run.1 = .ok b := by
  have hrun := deleteConnection_run bus ssid known name hready hknown
  refine ⟨?_, ?_, fun systemBus => deleteConnection_total systemBus ssid⟩
  · intro pre p post hsplit hmiss hhit
    subst hsplit
    have hloop := deleteConnectionLoop_hit (readyStation bus) bus ssid name rfl pre p post
      hknown.names hmiss hhit [.openConnection, .openConnection, .introspect "/net/connman/iwd"]
    rw [hrun]
    simp only [Eff.handle, hloop]
    cases hf : bus.callMethodBool p "net.connman.iwd.KnownNetwork" "Forget" with
    | ok b =>
      simp [List.filter_append, filter_isCall_knownNetworkReads, Event.isCall, List.filter_cons]
    | error w =>
      simp [Eff.bind, List.filter_append, filter_isCall_knownNetworkReads, Event.isCall,
        List.filter_cons]
  · intro hmiss
    have hloop := deleteConnectionLoop_miss (readyStation bus) bus ssid name rfl known
      hknown.names hmiss [.openConnection, .openConnection, .introspect "/net/connman/iwd"]
    rw [hrun]
    simp only [Eff.handle, hloop]
    simp [List.filter_append, filter_isCall_knownNetworkReads, Event.isCall, List.filter_cons]

/-- C12, the code at a failing input: the scenario of deleting `Guest` with the
known networks `Office` and `Guest`, on a daemon that carries out `Forget` and
answers it without a value.  `deleteConnection("Guest")` calls `Forget`
exactly once, on the identity of `Guest`; `callMethodFromObjectPath<bool>` then
finds no boolean in the reply, the `sdbus::Error` is caught, and the result is
`false`, so that `nmcli connection delete Guest` returns 1 after the network
was forgotten.  With `Office` alone the result is `false` without a `Forget`
call. -/
theorem deleteConnection_fails_after_forget :
    busOfficeGuest.callMethod "/net/connman/iwd/Guest_psk" "net.connman.iwd.KnownNetwork"
        "Forget" = .ok ()
      ∧ (NetworkManager.deleteConnection (.ok busOfficeGuest) "Guest").run.2.filter
          (Event.isCall "Forget")
        = [.callMethod "/net/connman/iwd/Guest_psk" "net.connman.iwd.KnownNetwork" "Forget"]
      ∧ (NetworkManager.deleteConnection (.ok busOfficeGuest) "Guest").run.1 = .ok false
      ∧ (NetworkManager.deleteConnection (.ok busOfficeGuest) "Guest").run.2.getLast?
        = some (.stderr
            "D-Bus error deleting connection 'Guest': Failed to deserialize a bool value")
      ∧ (main worldOffice ["nmcli", "connection", "delete", "Guest"]).run.1 = .ok 1
      ∧ (NetworkManager.deleteConnection (.ok busOfficeOnly) "Guest").run.1 = .ok false
      ∧ (NetworkManager.deleteConnection (.ok busOfficeOnly) "Guest").run.2.filter
          (Event.isCall "Forget") = [] :=
  ⟨rfl, by decide, rfl, by decide, rfl, rfl, by decide⟩

/-! ## The D-Bus connect attempt -/

theorem getOrderedNetworks_apply (st : Station) (bus : Bus) (reply : List (String × Int))
    (connected : String) (name type : String → String)
    (h : Station.Answers st bus reply connected name type) (t : List Event) :
    Station.getOrderedNetworks st t
      = (.ok (reply.map (Station.expectedInfo connected name type)),
         t ++ ([.orderedNetworks st.device_object_path_, Station.connectedRead st]
           ++ reply.flatMap Station.networkReads)) := by
  simp [Station.getOrderedNetworks, h.connection, Eff.handle, Eff.bind, h.ordered,
    getConnectedNetwork_objectPath st bus connected _ h.connection h.connectedNetwork,
    getOrderedNetworksLoop_run st bus connected name type h.connection reply h.names h.types]

theorem scan_accepted (st : Station) (bus : Bus) (t : List Event)
    (hc : st.connection_ = some bus)
    (h : bus.callMethod st.device_object_path_ "net.connman.iwd.Station" "Scan" = .ok ()) :
    Station.scan st t
      = (.ok true, t ++ [.callMethod st.device_object_path_ "net.connman.iwd.Station" "Scan"]) := by
  simp [Station.scan, hc, Eff.handle, Eff.bind, h]

theorem findNetworkObjectPath_hit (ssid connected : String) (name type : String → String)
    (pre : List (String × Int)) (entry : String × Int) (post : List (String × Int))
    (hmiss : ∀ e ∈ pre, name e.1 ≠ ssid) (hhit : name entry.1 = ssid) :
    IwdManager.findNetworkObjectPath ssid
      ((pre ++ entry :: post).map (Station.expectedInfo connected name type)) = entry.1 := by
  induction pre with
  | nil => simp [IwdManager.findNetworkObjectPath, Station.expectedInfo, hhit]
  | cons e more ih =>
    have hne : name e.1 ≠ ssid := hmiss e (List.mem_cons_self _ _)
    have ih1 := ih (fun x hx => hmiss x (List.mem_cons_of_mem _ hx))
    simpa [IwdManager.findNetworkObjectPath, Station.expectedInfo, hne] using ih1

theorem findNetworkObjectPath_miss (ssid connected : String) (name type : String → String)
    (reply : List (String × Int)) (hmiss : ∀ e ∈ reply, name e.1 ≠ ssid) :
    IwdManager.findNetworkObjectPath ssid
      (reply.map (Station.expectedInfo connected name type)) = "" := by
  induction reply with
  | nil => rfl
  | cons e more ih =>
    have hne : name e.1 ≠ ssid := hmiss e (List.mem_cons_self _ _)
    have ih1 := ih (fun x hx => hmiss x (List.mem_cons_of_mem _ hx))
    simpa [IwdManager.findNetworkObjectPath, Station.expectedInfo, hne] using ih1

theorem filter_isCall_networkReads (method : String) (reply : List (String × Int)) :
    (reply.flatMap Station.networkReads).filter (Event.isCall method) = [] := by
  simp only [List.filter_eq_nil_iff, List.mem_flatMap]
  rintro e ⟨entry, -, he⟩
  simp only [Station.networkReads, List.mem_cons, List.mem_singleton, List.not_mem_nil,
    or_false] at he
  rcases he with rfl | rfl <;> simp [Event.isCall]

theorem readyStation_path (bus : Bus) :
    (readyStation bus).device_object_path_ = IwdManager.getDeviceObjectPath (some bus) := rfl

theorem connectViaDBus_miss (bus : Bus) (ssid password : String)
    (reply : List (String × Int)) (connected : String) (name type : String → String)
    (hready : StationReady bus)
    (hscan : bus.callMethod (IwdManager.getDeviceObjectPath (some bus))
      "net.connman.iwd.Station" "Scan" = .ok ())
    (h : Station.Answers (readyStation bus) bus reply connected name type)
    (hfind : IwdManager.findNetworkObjectPath ssid
      (reply.map (Station.expectedInfo connected name type)) = "") :
    (IwdManager.connectToNetworkViaDBus (some bus) ssid password).run
      = (.error (.networkException ("Network '" ++ ssid ++ "' not found")),
         dbusAttemptEvents bus reply) := by
  have hsc := fun t => scan_accepted (readyStation bus) bus t rfl hscan
  have hnet := fun t => getOrderedNetworks_apply (readyStation bus) bus reply connected name
    type h t
  simp [Eff.run, IwdManager.connectToNetworkViaDBus, Eff.handle, Eff.bind,
    createStation_ready bus hready, hsc, hnet, hfind, dbusAttemptEvents, readyStation_path]

theorem connectViaDBus_hit (bus : Bus) (ssid password : String)
    (reply : List (String × Int)) (connected : String) (name type : String → String)
    (hready : StationReady bus)
    (hscan : bus.callMethod (IwdManager.getDeviceObjectPath (some bus))
      "net.connman.iwd.Station" "Scan" = .ok ())
    (h : Station.Answers (readyStation bus) bus reply connected name type)
    (p : String) (hp : p ≠ "")
    (hfind : IwdManager.findNetworkObjectPath ssid
      (reply.map (Station.expectedInfo connected name type)) = p) :
    (IwdManager.connectToNetworkViaDBus (some bus) ssid password).run
      = match bus.callMethod p "net.connman.iwd.Network" "Connect" with
        | .ok _ =>
          (.ok true, dbusAttemptEvents bus reply
            ++ [.callMethod p "net.connman.iwd.Network" "Connect"])
        | .error w =>
          (.error (.dbusException ("D-Bus error connecting to network: " ++ w)),
            dbusAttemptEvents bus reply
              ++ [.callMethod p "net.connman.iwd.Network" "Connect"]) := by
  have hsc := fun t => scan_accepted (readyStation bus) bus t rfl hscan
  have hnet := fun t => getOrderedNetworks_apply (readyStation bus) bus reply connected name
    type h t
  cases hcall : bus.callMethod p "net.connman.iwd.Network" "Connect" with
  | ok u =>
    simp [Eff.run, IwdManager.connectToNetworkViaDBus, Eff.handle, Eff.bind,
      createStation_ready bus hready, hsc, hnet, hfind, hp, hcall, dbusAttemptEvents,
      readyStation_path]
  | error w =>
    simp [Eff.run, IwdManager.connectToNetworkViaDBus, Eff.handle, Eff.bind,
      createStation_ready bus hready, hsc, hnet, hfind, hp, hcall, dbusAttemptEvents,
      readyStation_path]

theorem filter_isCall_dbusAttemptEvents (bus : Bus) (reply : List (String × Int)) :
    (dbusAttemptEvents bus reply).filter (Event.isCall "Connect") = [] := by
  simp [dbusAttemptEvents, List.filter_append, filter_isCall_networkReads, List.filter_cons,
    Event.isCall, Station.connectedRead]

/-- C13: in the D-Bus connect attempt `Connect` is invoked exactly once, on the
object path of the first listed network whose SSID is the requested one; that
path is one the daemon returned.  When no listed network has the SSID, no
`Connect` call is issued and the attempt raises `not found`. -/
theorem connectViaDBus_connects_first_match (bus : Bus) (ssid password : String)
    (reply : List (String × Int)) (connected : String) (name type : String → String)
    (hready : StationReady bus)
    (hscan : bus.callMethod (IwdManager.getDeviceObjectPath (some bus))
      "net.connman.iwd.Station" "Scan" = .ok ())
    (h : Station.Answers (readyStation bus) bus reply connected name type)
    (hpaths : ∀ e ∈ reply, e.1 ≠ "") :
    (∀ pre entry post, reply = pre ++ entry :: post →
      (∀ e ∈ pre, name e.1 ≠ ssid) → name entry.1 = ssid →
      (IwdManager.connectToNetworkViaDBus (some bus) ssid password).run.2.filter
          (Event.isCall "Connect")
        = [.callMethod entry.1 "net.connman.iwd.Network" "Connect"] ∧
      entry.1 ∈ reply.map Prod.fst ∧
      (bus.callMethod entry.1 "net.connman.iwd.Network" "Connect" = .ok () →
        (IwdManager.connectToNetworkViaDBus (some bus) ssid password).run.1 = .ok true)) ∧
    ((∀ e ∈ reply, name e.1 ≠ ssid) →
      (IwdManager.connectToNetworkViaDBus (some bus) ssid password).run.2.filter
          (Event.isCall "Connect") = [] ∧
      (IwdManager.connectToNetworkViaDBus (some bus) ssid password).run.1
        = .error (.networkException ("Network '" ++ ssid ++ "' not found"))) := by
  constructor
  · intro pre entry post hsplit hmiss hhit
    have hmem : entry ∈ reply := by rw [hsplit]; simp
    have hfind : IwdManager.findNetworkObjectPath ssid
        (reply.map (Station.expectedInfo connected name type)) = entry.1 := by
      rw [hsplit]
      exact findNetworkObjectPath_hit ssid connected name type pre entry post hmiss hhit
    have hrun := connectViaDBus_hit bus ssid password reply connected name type hready hscan h
      entry.1 (hpaths entry hmem) hfind
    refine ⟨?_, List.mem_map.mpr ⟨entry, hmem, rfl⟩, ?_⟩
    · rw [hrun]
      cases bus.callMethod entry.1 "net.connman.iwd.Network" "Connect" <;>
        simp [List.filter_append, filter_isCall_dbusAttemptEvents, List.filter_cons,
          Event.isCall]
    · intro hcall
      rw [hrun, hcall]
  · intro hmiss
    have hfind := findNetworkObjectPath_miss ssid connected name type reply hmiss
    rw [connectViaDBus_miss bus ssid password reply connected name type hready hscan h hfind]
    exact ⟨filter_isCall_dbusAttemptEvents bus reply, rfl⟩

/-- C13, at the daemon whose only visible network is `Office`: a request for
`Office` calls `Connect` on the path the daemon listed; a request for `Home`
calls nothing. -/
theorem connectViaDBus_connects_first_match_witness :
    (IwdManager.connectToNetworkViaDBus (some busOfficeGuest) "Office" "").run.2.filter
        (Event.isCall "Connect")
      = [.callMethod officePath "net.connman.iwd.Network" "Connect"] ∧
    (IwdManager.connectToNetworkViaDBus (some busOfficeGuest) "Office" "").run.1 = .ok true ∧
    (IwdManager.connectToNetworkViaDBus (some busOfficeGuest) "Home" "").run.2.filter
        (Event.isCall "Connect") = [] := by
  have hanswers : Station.Answers (readyStation busOfficeGuest) busOfficeGuest
      [(officePath, -4000)] officePath (fun _ => "Office") (fun _ => "psk") :=
    ⟨rfl, rfl, rfl,
     by intro p hp; simp only [List.map_cons, List.map_nil, List.mem_singleton] at hp
        subst hp; rfl,
     by intro p hp; simp only [List.map_cons, List.map_nil, List.mem_singleton] at hp
        subst hp; rfl⟩
  have hpaths : ∀ e ∈ [((officePath, -4000) : String × Int)], e.1 ≠ "" := by
    intro e he
    simp only [List.mem_singleton] at he
    subst he
    decide
  have hit := (connectViaDBus_connects_first_match busOfficeGuest "Office" "" _ officePath _ _
    ⟨by decide, rfl⟩ rfl hanswers hpaths).1 [] (officePath, -4000) [] rfl
    (by intro e he; cases he) rfl
  have miss := (connectViaDBus_connects_first_match busOfficeGuest "Home" "" _ officePath _ _
    ⟨by decide, rfl⟩ rfl hanswers hpaths).2
    (by intro e he; simp only [List.mem_singleton] at he; subst he; decide)
  exact ⟨hit.1, hit.2.2 rfl, miss.1⟩

/-! ## Terminal outcomes of connecting -/

theorem Eff.handle_error_nmcli {α : Type} (m : Eff α) (h : Exn → Eff α)
    (hh : ∀ e t e2, (h e t).1 = .error e2 → e2.isNmcli = true) (t : List Event) (e2 : Exn)
    (he : ((tryCatch m h : Eff α) t).1 = .error e2) : e2.isNmcli = true := by
  simp only [Eff.tryCatch_apply, Eff.handle] at he
  cases hr : m t with
  | mk r t1 =>
    rw [hr] at he
    cases r with
    | ok a => simp at he
    | error e => exact hh e t1 e2 he

theorem connectToNetworkViaIWCTL_ne_false (executeCommand : String → List String → Int)
    (connection_ : Option Bus) (ssid password : String) (t : List Event) :
    (IwdManager.connectToNetworkViaIWCTL executeCommand connection_ ssid password t).1
      ≠ .ok false := by
  unfold IwdManager.connectToNetworkViaIWCTL
  apply Eff.bind_ne_false
  intro _ t
  apply Eff.handle_ne_false
  · apply Eff.bind_ne_false
    intro station t
    cases station with
    | none => simp
    | some station =>
      apply Eff.bind_ne_false
      intro deviceName t
      by_cases hd : deviceName = ""
      · simp [hd]
      · rw [if_neg hd]
        apply Eff.bind_ne_false
        intro _ t
        split <;> simp only <;> split <;> simp
  · intro e t
    cases e <;> simp

/-- C14: `connectToNetwork` either returns `true` or raises an exception of
the `NmcliException` family; it never returns `false`. -/
theorem connectToNetwork_terminal (executeCommand : String → List String → Int)
    (connection_ : Option Bus) (ssid password : String) :
    (IwdManager.connectToNetwork executeCommand connection_ ssid password).run.1 = .ok true ∨
    ∃ e, (IwdManager.connectToNetwork executeCommand connection_ ssid password).run.1 = .error e ∧
      e.isNmcli = true := by
  have hnf : (IwdManager.connectToNetwork executeCommand connection_ ssid password).run.1
      ≠ .ok false := by
    unfold IwdManager.connectToNetwork Eff.run
    apply Eff.handle_ne_false
    · apply Eff.bind_ne_false
      intro connected t
      cases connected with
      | true => simp
      | false =>
        simp only [Bool.not_false, if_true]
        apply Eff.bind_ne_false
        intro _ t
        exact connectToNetworkViaIWCTL_ne_false executeCommand connection_ ssid password t
    · intro e t
      cases e <;> simp
  cases hr : (IwdManager.connectToNetwork executeCommand connection_ ssid password).run.1 with
  | ok b =>
    cases b with
    | true => exact Or.inl rfl
    | false => exact absurd hr hnf
  | error e =>
    refine Or.inr ⟨e, rfl, ?_⟩
    unfold IwdManager.connectToNetwork Eff.run at hr
    refine Eff.handle_error_nmcli _ _ ?_ [] e hr
    intro e1 t e2 h2
    cases e1 <;> simp at h2 <;> subst h2 <;> rfl

/-! ## The fallback attempt -/

/-- The complete outcome of the fallback attempt when a station is created and
the device has a non-empty name. -/
theorem connectViaIWCTL_run (executeCommand : String → List String → Int) (bus : Bus)
    (ssid password device : String) (hready : StationReady bus)
    (hname : bus.getProperty (IwdManager.getDeviceObjectPath (some bus))
      "net.connman.iwd.Device" "Name" = .ok (.str device))
    (hdevice : device ≠ "") :
    (IwdManager.connectToNetworkViaIWCTL executeCommand (some bus) ssid password).run
      = (if executeCommand "iwctl" (iwctlArgs device ssid password) = 0 then .ok true
         else .error (.commandExecutionException
           ("Failed to connect to network '" ++ ssid ++ "' via iwctl")),
         [.enter "connectToNetworkViaIWCTL", .openConnection,
          .getProperty (IwdManager.getDeviceObjectPath (some bus)) "net.connman.iwd.Device" "Name",
          .executeCommand "iwctl" (iwctlArgs device ssid password)]) := by
  have hread := fun t => getPropertyFromObjectPath_str (readyStation bus) bus
    (IwdManager.getDeviceObjectPath (some bus)) "net.connman.iwd.Device" "Name" device t rfl hname
  by_cases hp : password = ""
  · by_cases hx : executeCommand "iwctl" ["station", device, "connect", ssid] = 0
    · simp [Eff.run, IwdManager.connectToNetworkViaIWCTL, Eff.handle, Eff.bind,
        createStation_ready bus hready, Station.getDeviceName, readyStation_path, hread,
        hdevice, hp, iwctlArgs, hx]
    · simp [Eff.run, IwdManager.connectToNetworkViaIWCTL, Eff.handle, Eff.bind,
        createStation_ready bus hready, Station.getDeviceName, readyStation_path, hread,
        hdevice, hp, iwctlArgs, hx]
  · by_cases hx : executeCommand "iwctl"
        ["station", device, "connect", ssid, "--passphrase", password] = 0
    · simp [Eff.run, IwdManager.connectToNetworkViaIWCTL, Eff.handle, Eff.bind,
        createStation_ready bus hready, Station.getDeviceName, readyStation_path, hread,
        hdevice, hp, iwctlArgs, hx]
    · simp [Eff.run, IwdManager.connectToNetworkViaIWCTL, Eff.handle, Eff.bind,
        createStation_ready bus hready, Station.getDeviceName, readyStation_path, hread,
        hdevice, hp, iwctlArgs, hx]

theorem connectViaIWCTL_unnamed (executeCommand : String → List String → Int) (bus : Bus)
    (ssid password : String) (hready : StationReady bus)
    (hname : bus.getProperty (IwdManager.getDeviceObjectPath (some bus))
      "net.connman.iwd.Device" "Name" = .ok (.str "")) :
    (IwdManager.connectToNetworkViaIWCTL executeCommand (some bus) ssid password).run
      = (.error (.commandExecutionException "Failed to get device name"),
         [.enter "connectToNetworkViaIWCTL", .openConnection,
          .getProperty (IwdManager.getDeviceObjectPath (some bus))
            "net.connman.iwd.Device" "Name"]) := by
  have hread := fun t => getPropertyFromObjectPath_str (readyStation bus) bus
    (IwdManager.getDeviceObjectPath (some bus)) "net.connman.iwd.Device" "Name" "" t rfl hname
  simp [Eff.run, IwdManager.connectToNetworkViaIWCTL, Eff.handle, Eff.bind,
    createStation_ready bus hready, Station.getDeviceName, readyStation_path, hread]

/-- C15, refuted as stated: the `Name` of the resolved device is the empty
string; the fallback attempt does not run `iwctl` with
`["station", "", "connect", "Home"]`, it raises `Failed to get device name`
without running any command. -/
theorem iwctl_unnamed_device_counterexample :
    busUnnamedDevice.getProperty (IwdManager.getDeviceObjectPath (some busUnnamedDevice))
      "net.connman.iwd.Device" "Name" = .ok (.str "") ∧
    (IwdManager.connectToNetworkViaIWCTL iwctlSucceeds (some busUnnamedDevice) "Home" "").run
      = (.error (.commandExecutionException "Failed to get device name"),
         [.enter "connectToNetworkViaIWCTL", .openConnection,
          .getProperty "/net/connman/iwd/0/3" "net.connman.iwd.Device" "Name"]) ∧
    (IwdManager.connectToNetworkViaIWCTL iwctlSucceeds (some busUnnamedDevice) "Home" "").run.2.filter
      Event.isExecuteCommand = [] :=
  ⟨rfl, rfl, by decide⟩

/-- C15, amended: for every non-empty device name `d` (the `Name` property of
the resolved device), SSID `s` and password `p`, the fallback attempt runs
exactly one command, `iwctl` with `["station", d, "connect", s]` when `p` is
empty and with `["station", d, "connect", s, "--passphrase", p]` otherwise;
when the `Name` is empty no command is run and the attempt raises
`CommandExecutionException`. -/
theorem iwctl_arguments (executeCommand : String → List String → Int) (bus : Bus)
    (ssid password device : String) (hready : StationReady bus)
    (hname : bus.getProperty (IwdManager.getDeviceObjectPath (some bus))
      "net.connman.iwd.Device" "Name" = .ok (.str device)) :
    (device ≠ "" → password = "" →
      (IwdManager.connectToNetworkViaIWCTL executeCommand (some bus) ssid password).run.2.filter
          Event.isExecuteCommand
        = [.executeCommand "iwctl" ["station", device, "connect", ssid]]) ∧
    (device ≠ "" → password ≠ "" →
      (IwdManager.connectToNetworkViaIWCTL executeCommand (some bus) ssid password).run.2.filter
          Event.isExecuteCommand
        = [.executeCommand "iwctl" ["station", device, "connect", ssid, "--passphrase", password]]) ∧
    (device = "" →
      (IwdManager.connectToNetworkViaIWCTL executeCommand (some bus) ssid password).run.2.filter
          Event.isExecuteCommand = [] ∧
      (IwdManager.connectToNetworkViaIWCTL executeCommand (some bus) ssid password).run.1
        = .error (.commandExecutionException "Failed to get device name")) := by
  refine ⟨?_, ?_, ?_⟩
  · intro hd hp
    rw [connectViaIWCTL_run executeCommand bus ssid password device hready hname hd]
    simp [iwctlArgs, hp, Event.isExecuteCommand, List.filter_cons]
  · intro hd hp
    rw [connectViaIWCTL_run executeCommand bus ssid password device hready hname hd]
    simp [iwctlArgs, hp, Event.isExecuteCommand, List.filter_cons]
  · intro hd
    subst hd
    rw [connectViaIWCTL_unnamed executeCommand bus ssid password hready hname]
    simp [Event.isExecuteCommand, List.filter_cons]

/-- C15 amended, at the device `wlan0`: without a password the command is
`iwctl station wlan0 connect Home`, with the password `secret` it ends in
`--passphrase secret`. -/
theorem iwctl_arguments_witness :
    (IwdManager.connectToNetworkViaIWCTL iwctlSucceeds (some busOfficeGuest) "Home" "").run.2.filter
        Event.isExecuteCommand
      = [.executeCommand "iwctl" ["station", "wlan0", "connect", "Home"]] ∧
    (IwdManager.connectToNetworkViaIWCTL iwctlSucceeds (some busOfficeGuest) "Home"
        "secret").run.2.filter Event.isExecuteCommand
      = [.executeCommand "iwctl" ["station", "wlan0", "connect", "Home", "--passphrase", "secret"]] ∧
    (IwdManager.connectToNetworkViaIWCTL iwctlSucceeds (some busUnnamedDevice) "Home" "").run.1
      = .error (.commandExecutionException "Failed to get device name") :=
  ⟨(iwctl_arguments iwctlSucceeds busOfficeGuest "Home" "" "wlan0" ⟨by decide, rfl⟩ rfl).1
      (by decide) rfl,
   (iwctl_arguments iwctlSucceeds busOfficeGuest "Home" "secret" "wlan0" ⟨by decide, rfl⟩ rfl).2.1
      (by decide) (by decide),
   ((iwctl_arguments iwctlSucceeds busUnnamedDevice "Home" "" "" ⟨by decide, rfl⟩ rfl).2.2
      rfl).2⟩

theorem iwctl_true_only_after_exit_zero (executeCommand : String → List String → Int)
    (connection_ : Option Bus) (ssid password : String)
    (h : (IwdManager.connectToNetworkViaIWCTL executeCommand connection_ ssid password).run.1
      = .ok true) :
    ∃ args, Event.executeCommand "iwctl" args
        ∈ (IwdManager.connectToNetworkViaIWCTL executeCommand connection_ ssid password).run.2 ∧
      executeCommand "iwctl" args = 0 := by
  simp only [Eff.run, IwdManager.connectToNetworkViaIWCTL, Eff.bind_apply, Eff.bind,
    Eff.emit_apply, Eff.tryCatch_apply, Eff.handle, List.nil_append] at h ⊢
  generalize IwdManager.createStation connection_ [Event.enter "connectToNetworkViaIWCTL"]
    = created at h ⊢
  obtain ⟨r1, t1⟩ := created
  cases r1 with
  | error e => cases e <;> simp at h
  | ok station =>
    cases station with
    | none => simp at h
    | some st =>
      simp only [Eff.bind_apply, Eff.bind] at h ⊢
      generalize st.getDeviceName t1 = named at h ⊢
      obtain ⟨r2, t2⟩ := named
      cases r2 with
      | error e => cases e <;> simp at h
      | ok d =>
        simp only at h ⊢
        by_cases hd : d = ""
        · simp [hd] at h
        · simp only [hd, if_false, Eff.bind_apply, Eff.bind, Eff.emit_apply] at h ⊢
          by_cases hp : password = ""
          · by_cases hx : executeCommand "iwctl" ["station", d, "connect", ssid] = 0
            · exact ⟨_, by simp [hp, hx], hx⟩
            · simp [hp, hx] at h
          · by_cases hx : executeCommand "iwctl"
                ["station", d, "connect", ssid, "--passphrase", password] = 0
            · exact ⟨_, by simp [hp, hx], hx⟩
            · simp [hp, hx] at h

/-- C16: when the fallback attempt reaches the tool, it returns `true` if and
only if `executeCommand` returns 0, and on every other result it raises
`CommandExecutionException`; `executeCommand` returns -1 when `fork` fails or
the child ends abnormally, 1 when the binary cannot be executed, and the exit
status of the command otherwise.  On every daemon, the attempt returns `true`
only after a run of `iwctl` for which `executeCommand` returned 0. -/
theorem iwctl_success_iff_exit_zero (os : String → List String → ProcessUtil.ChildOutcome)
    (bus : Bus) (ssid password device : String) (hready : StationReady bus)
    (hname : bus.getProperty (IwdManager.getDeviceObjectPath (some bus))
      "net.connman.iwd.Device" "Name" = .ok (.str device))
    (hdevice : device ≠ "") :
    ((IwdManager.connectToNetworkViaIWCTL (ProcessUtil.executeCommand os) (some bus) ssid
        password).run.1 = .ok true
      ↔ ProcessUtil.executeCommand os "iwctl" (iwctlArgs device ssid password) = 0) ∧
    (ProcessUtil.executeCommand os "iwctl" (iwctlArgs device ssid password) ≠ 0 →
      (IwdManager.connectToNetworkViaIWCTL (ProcessUtil.executeCommand os) (some bus) ssid
        password).run.1
        = .error (.commandExecutionException
            ("Failed to connect to network '" ++ ssid ++ "' via iwctl"))) ∧
    (ProcessUtil.executeCommand os "iwctl" (iwctlArgs device ssid password) = 0
      ↔ ∃ code, os "iwctl" (iwctlArgs device ssid password) = .exited code ∧ code % 256 = 0) ∧
    (os "iwctl" (iwctlArgs device ssid password) = .forkFailed →
      ProcessUtil.executeCommand os "iwctl" (iwctlArgs device ssid password) = -1) ∧
    (os "iwctl" (iwctlArgs device ssid password) = .killed →
      ProcessUtil.executeCommand os "iwctl" (iwctlArgs device ssid password) = -1) ∧
    (os "iwctl" (iwctlArgs device ssid password) = .execFailed →
      ProcessUtil.executeCommand os "iwctl" (iwctlArgs device ssid password) = 1) ∧
    (∀ connection_,
      (IwdManager.connectToNetworkViaIWCTL (ProcessUtil.executeCommand os) connection_ ssid
        password).run.1 = .ok true →
      ∃ args, Event.executeCommand "iwctl" args
          ∈ (IwdManager.connectToNetworkViaIWCTL (ProcessUtil.executeCommand os) connection_
              ssid password).run.2 ∧
        ProcessUtil.executeCommand os "iwctl" args = 0) := by
  have hrun := connectViaIWCTL_run (ProcessUtil.executeCommand os) bus ssid password device
    hready hname hdevice
  refine ⟨?_, ?_, ?_, ?_, ?_, ?_, fun connection_ htrue =>
    iwctl_true_only_after_exit_zero _ connection_ ssid password htrue⟩
  · rw [hrun]
    by_cases hx : ProcessUtil.executeCommand os "iwctl" (iwctlArgs device ssid password) = 0
    · simp [hx]
    · simp [hx]
  · intro hx
    rw [hrun]
    simp [hx]
  · unfold ProcessUtil.executeCommand
    cases hos : os "iwctl" (iwctlArgs device ssid password) with
    | forkFailed => simp
    | execFailed => simp
    | exited code =>
      simp only [ProcessUtil.ChildOutcome.exited.injEq, exists_eq_left']
      exact Int.natCast_eq_zero
    | killed => simp
  · intro hos
    simp [ProcessUtil.executeCommand, hos]
  · intro hos
    simp [ProcessUtil.executeCommand, hos]
  · intro hos
    simp [ProcessUtil.executeCommand, hos]

/-- C16, at the device `wlan0`: an `iwctl` that exits with 0 makes the attempt
return `true`, one that exits with 1 makes it raise. -/
theorem iwctl_success_iff_exit_zero_witness :
    (IwdManager.connectToNetworkViaIWCTL (ProcessUtil.executeCommand (iwctlExits 0))
      (some busOfficeGuest) "Home" "").run.1 = .ok true ∧
    (IwdManager.connectToNetworkViaIWCTL (ProcessUtil.executeCommand (iwctlExits 1))
      (some busOfficeGuest) "Home" "").run.1
      = .error (.commandExecutionException "Failed to connect to network 'Home' via iwctl") :=
  ⟨(iwctl_success_iff_exit_zero (iwctlExits 0) busOfficeGuest "Home" "" "wlan0"
      ⟨by decide, rfl⟩ rfl (by decide)).1.mpr (by decide),
   (iwctl_success_iff_exit_zero (iwctlExits 1) busOfficeGuest "Home" "" "wlan0"
      ⟨by decide, rfl⟩ rfl (by decide)).2.1 (by decide)⟩

/-! ## Claims about the Station operations -/

theorem disconnect_accepted (st : Station) (bus : Bus) (t : List Event)
    (hc : st.connection_ = some bus)
    (h : bus.callMethod st.device_object_path_ "net.connman.iwd.Station" "Disconnect" = .ok ()) :
    Station.disconnect st t
      = (.ok true,
         t ++ [.callMethod st.device_object_path_ "net.connman.iwd.Station" "Disconnect"]) := by
  simp [Station.disconnect, hc, Eff.handle, Eff.bind, h]

/-- C17: `Station::disconnect` returns `true` whenever the transport accepts
the `Disconnect` call, whatever the connection state: it reads no property, and
two calls in a row, the second one on the state that the first one left,
succeed both. -/
theorem disconnect_idempotent (before after : Station) (bus1 bus2 : Bus)
    (hc1 : before.connection_ = some bus1) (hc2 : after.connection_ = some bus2)
    (h1 : bus1.callMethod before.device_object_path_ "net.connman.iwd.Station" "Disconnect"
      = .ok ())
    (h2 : bus2.callMethod after.device_object_path_ "net.connman.iwd.Station" "Disconnect"
      = .ok ()) :
    (Station.disconnect before).run
      = (.ok true,
         [.callMethod before.device_object_path_ "net.connman.iwd.Station" "Disconnect"]) ∧
    (do
      let first ← Station.disconnect before
      let second ← Station.disconnect after
      pure (first, second)).run
      = (.ok (true, true),
         [.callMethod before.device_object_path_ "net.connman.iwd.Station" "Disconnect",
          .callMethod after.device_object_path_ "net.connman.iwd.Station" "Disconnect"]) := by
  have hd1 := fun t => disconnect_accepted before bus1 t hc1 h1
  have hd2 := fun t => disconnect_accepted after bus2 t hc2 h2
  constructor
  · simp [Eff.run, hd1]
  · simp [Eff.run, Eff.bind, hd1, hd2]

/-- C17, on a station that is connected to no network: `disconnect` succeeds,
and succeeds again. -/
theorem disconnect_idempotent_witness :
    (Station.disconnect stationIdle).run
      = (.ok true, [.callMethod "/net/connman/iwd/0/3" "net.connman.iwd.Station" "Disconnect"]) ∧
    (do
      let first ← Station.disconnect stationIdle
      let second ← Station.disconnect stationIdle
      pure (first, second)).run
      = (.ok (true, true),
         [.callMethod "/net/connman/iwd/0/3" "net.connman.iwd.Station" "Disconnect",
          .callMethod "/net/connman/iwd/0/3" "net.connman.iwd.Station" "Disconnect"]) :=
  disconnect_idempotent stationIdle stationIdle _ _ rfl rfl rfl rfl

/-- C19, the code at a failing input: the daemon has no `State` and no `Name`
property and answers the reads with an error reply; `getProperty` and
`getPropertyFromObjectPath` do not return the empty string, they raise the
`sdbus::Error`. -/
theorem absent_property_counterexample :
    (Station.getProperty String stationWithoutProperties "net.connman.iwd.Station" "State").run.1
      = .error (.sdbusError "No such property") ∧
    (Station.getPropertyFromObjectPath String stationWithoutProperties
      ⟨"/net/connman/iwd/0/3"⟩ "net.connman.iwd.Device" "Name").run.1
      = .error (.sdbusError "No such property") :=
  ⟨rfl, rfl⟩

/-- The typed reads, case by case: a read through `Station::getProperty` or
`Station::getPropertyFromObjectPath` that the daemon answers with a value
returns exactly that value when it has the requested type `T`, and the zero
value of `T` (empty string, 0, `false`, empty object path) without an error
when it has another type; the templates guard only the type of the value, so a
read that the daemon answers with an error, as for an absent property, raises
that `sdbus::Error`. -/
theorem property_degradation (T : Type) [VariantType T] (st : Station) (bus : Bus)
    (objectPath iface property : String) (hc : st.connection_ = some bus) :
    (∀ v x, bus.getProperty st.device_object_path_ iface property = .ok v →
      VariantType.ofVariant v = some x →
      (Station.getProperty T st iface property).run.1 = .ok x) ∧
    (∀ v, bus.getProperty st.device_object_path_ iface property = .ok v →
      (VariantType.ofVariant v : Option T) = none →
      (Station.getProperty T st iface property).run.1 = .ok VariantType.zero) ∧
    (∀ w, bus.getProperty st.device_object_path_ iface property = .error w →
      (Station.getProperty T st iface property).run.1 = .error (.sdbusError w)) ∧
    (∀ v x, bus.getProperty objectPath iface property = .ok v →
      VariantType.ofVariant v = some x →
      (Station.getPropertyFromObjectPath T st ⟨objectPath⟩ iface property).run.1 = .ok x) ∧
    (∀ v, bus.getProperty objectPath iface property = .ok v →
      (VariantType.ofVariant v : Option T) = none →
      (Station.getPropertyFromObjectPath T st ⟨objectPath⟩ iface property).run.1
        = .ok VariantType.zero) ∧
    (∀ w, bus.getProperty objectPath iface property = .error w →
      (Station.getPropertyFromObjectPath T st ⟨objectPath⟩ iface property).run.1
        = .error (.sdbusError w)) ∧
    ((VariantType.zero : String) = "" ∧ (VariantType.zero : Int) = 0 ∧
      (VariantType.zero : Bool) = false ∧ (VariantType.zero : ObjectPath) = ⟨""⟩) ∧
    (∀ s, (VariantType.ofVariant (.str s) : Option String) = some s ∧
      (VariantType.ofVariant (.objectPath s) : Option String) = none ∧
      (VariantType.ofVariant (.str s) : Option ObjectPath) = none ∧
      (VariantType.ofVariant (.objectPath s) : Option ObjectPath) = some ⟨s⟩ ∧
      (VariantType.ofVariant (.str s) : Option Bool) = none) := by
  refine ⟨?_, ?_, ?_, ?_, ?_, ?_, ⟨rfl, rfl, rfl, rfl⟩, fun s => ⟨rfl, rfl, rfl, rfl, rfl⟩⟩
  · intro v x hv hx
    simp [Eff.run, Station.getProperty, hc, Eff.bind, hv, hx]
  · intro v hv hx
    simp [Eff.run, Station.getProperty, hc, Eff.bind, hv, hx]
  · intro w hw
    simp [Eff.run, Station.getProperty, hc, Eff.bind, hw]
  · intro v x hv hx
    simp [Eff.run, Station.getPropertyFromObjectPath, hc, Eff.bind, hv, hx]
  · intro v hv hx
    simp [Eff.run, Station.getPropertyFromObjectPath, hc, Eff.bind, hv, hx]
  · intro w hw
    simp [Eff.run, Station.getPropertyFromObjectPath, hc, Eff.bind, hw]

/-- The typed reads on the daemon of the scenarios: the `Name` of the device
read as a string is `wlan0`, read as a boolean it is `false`; on a daemon
without the property the read raises. -/
theorem property_degradation_witness :
    (Station.getPropertyFromObjectPath String (readyStation busOfficeGuest)
      ⟨"/net/connman/iwd/0/3"⟩ "net.connman.iwd.Device" "Name").run.1 = .ok "wlan0" ∧
    (Station.getPropertyFromObjectPath Bool (readyStation busOfficeGuest)
      ⟨"/net/connman/iwd/0/3"⟩ "net.connman.iwd.Device" "Name").run.1 = .ok false ∧
    (Station.getProperty String stationWithoutProperties "net.connman.iwd.Station" "State").run.1
      = .error (.sdbusError "No such property") :=
  ⟨(property_degradation String (readyStation busOfficeGuest) busOfficeGuest
      "/net/connman/iwd/0/3" "net.connman.iwd.Device" "Name" rfl).2.2.2.1 (.str "wlan0") "wlan0"
      rfl rfl,
   (property_degradation Bool (readyStation busOfficeGuest) busOfficeGuest
      "/net/connman/iwd/0/3" "net.connman.iwd.Device" "Name" rfl).2.2.2.2.1 (.str "wlan0")
      rfl rfl,
   (property_degradation String stationWithoutProperties _
      "/net/connman/iwd/0/3" "net.connman.iwd.Station" "State" rfl).2.2.1 "No such property"
      rfl⟩

/-- C20, the code at a failing input: the bus is down and every call fails with
the transport fault `Connection refused`.  `scan`, `disconnect` and
`getOrderedNetworks` raise `DBusException`; `getDeviceName`, `getState`,
`getConnectedNetwork`, `isScanning` and `getAllConnection` let the raw
`sdbus::Error` through. -/
theorem raw_transport_error_escapes :
    (Station.getDeviceName stationTransportDown).run.1
      = .error (.sdbusError "Connection refused") ∧
    (Station.getState stationTransportDown).run.1
      = .error (.sdbusError "Connection refused") ∧
    (Station.getConnectedNetwork stationTransportDown).run.1
      = .error (.sdbusError "Connection refused") ∧
    (Station.isScanning stationTransportDown).run.1
      = .error (.sdbusError "Connection refused") ∧
    (Station.getAllConnection stationTransportDown).run.1
      = .error (.sdbusError "Connection refused") ∧
    (Station.scan stationTransportDown).run.1
      = .error (.dbusException "D-Bus error scanning networks: Connection refused") ∧
    (Station.disconnect stationTransportDown).run.1
      = .error (.dbusException "D-Bus error disconnecting: Connection refused") ∧
    (Station.getOrderedNetworks stationTransportDown).run.1
      = .error (.dbusException "D-Bus error getting ordered networks: Connection refused") :=
  ⟨rfl, rfl, rfl, rfl, rfl, rfl, rfl, rfl⟩

/-! ## The polling loop of `listWifiNetworks` -/

theorem isScanning_at (bus : Bus) (b : Bool) (t : List Event) :
    ((readyStation bus).whileScanning (.ok (.boolean b))).isScanning t
      = (.ok b, t ++ [scanningRead bus]) := by
  simp [Station.isScanning, Station.getProperty, Station.whileScanning, readyStation, Eff.bind,
    VariantType.ofVariant, scanningRead]

theorem pollScanning_busy (bus : Bus) (answers : Nat → Bool) (fuel : Nat) :
    ∀ (k : Nat) (t : List Event), k + fuel = NetworkManager.maxAttempts →
      (∀ i, k ≤ i → i < NetworkManager.maxAttempts → answers i = true) →
      NetworkManager.pollScanning (readyStation bus) (scanningAnswers answers) fuel k t
        = (.ok NetworkManager.maxAttempts, t ++ pollEvents bus fuel false) := by
  induction fuel with
  | zero =>
    intro k t hk _
    simp only [Nat.add_zero] at hk
    simp [NetworkManager.pollScanning, pollEvents, hk]
  | succ fuel ih =>
    intro k t hk hall
    have hlt : k < NetworkManager.maxAttempts := by omega
    have hbusy : answers k = true := hall k (Nat.le_refl _) hlt
    have ih1 := ih (k + 1) (t ++ [scanningRead bus, .sleep 500]) (by omega)
      (fun i hi hi2 => hall i (by omega) hi2)
    simp only [NetworkManager.pollScanning, hlt, if_true, Eff.bind_apply, Eff.bind,
      scanningAnswers, isScanning_at, hbusy, Bool.not_true, Eff.emit_apply]
    simp only [Bool.false_eq_true, if_false, Eff.bind_apply, Eff.bind, Eff.emit_apply,
      List.append_assoc, List.singleton_append]
    rw [ih1]
    simp [pollEvents, List.replicate_succ]

theorem pollScanning_idle (bus : Bus) (answers : Nat → Bool) (busy : Nat) :
    ∀ (fuel k : Nat) (t : List Event), busy < fuel → k + busy < NetworkManager.maxAttempts →
      answers (k + busy) = false → (∀ i, k ≤ i → i < k + busy → answers i = true) →
      NetworkManager.pollScanning (readyStation bus) (scanningAnswers answers) fuel k t
        = (.ok (k + busy), t ++ pollEvents bus busy true) := by
  induction busy with
  | zero =>
    intro fuel k t hfuel hk hidle _
    obtain ⟨f, rfl⟩ : ∃ f, fuel = f + 1 := ⟨fuel - 1, by omega⟩
    simp only [Nat.add_zero] at hk hidle
    simp [NetworkManager.pollScanning, hk, Eff.bind, scanningAnswers, isScanning_at, hidle,
      pollEvents]
  | succ busy ih =>
    intro fuel k t hfuel hk hidle hall
    obtain ⟨f, rfl⟩ : ∃ f, fuel = f + 1 := ⟨fuel - 1, by omega⟩
    have hlt : k < NetworkManager.maxAttempts := by omega
    have hbusy : answers k = true := hall k (Nat.le_refl _) (by omega)
    have ih1 := ih f (k + 1) (t ++ [scanningRead bus, .sleep 500]) (by omega) (by omega)
      (by rw [show k + 1 + busy = k + (busy + 1) by omega]; exact hidle)
      (fun i hi hi2 => hall i (by omega) (by omega))
    simp only [NetworkManager.pollScanning, hlt, if_true, Eff.bind_apply, Eff.bind,
      scanningAnswers, isScanning_at, hbusy, Bool.not_true, Eff.emit_apply]
    simp only [Bool.false_eq_true, if_false, Eff.bind_apply, Eff.bind, Eff.emit_apply,
      List.append_assoc, List.singleton_append]
    rw [ih1]
    simp [pollEvents, List.replicate_succ]
    omega

theorem listWifiNetworks_rescan_run (nm : NetworkManager) (bus : Bus) (answers : Nat → Bool)
    (reply : List (String × Int)) (connected : String) (name type : String → String)
    (hready : StationReady bus)
    (hscan : bus.callMethod (IwdManager.getDeviceObjectPath (some bus))
      "net.connman.iwd.Station" "Scan" = .ok ())
    (h : Station.Answers (readyStation bus) bus reply connected name type)
    (attempts : Nat) (polls : List Event)
    (hpoll : ∀ t, NetworkManager.pollScanning (readyStation bus) (scanningAnswers answers)
      NetworkManager.maxAttempts 0 t = (.ok attempts, t ++ polls)) :
    (NetworkManager.listWifiNetworks nm (.ok bus) (scanningAnswers answers) true).run
      = (.ok (), rescanListingEvents nm bus reply connected name type polls
          (decide (attempts ≥ NetworkManager.maxAttempts))) := by
  have hsc := fun t => scan_accepted (readyStation bus) bus t rfl hscan
  have hnet := fun t => getOrderedNetworks_apply (readyStation bus) bus reply connected name
    type h t
  by_cases hto : attempts ≥ NetworkManager.maxAttempts
  · cases hterse : nm.terse_output <;>
      simp [Eff.run, NetworkManager.listWifiNetworks, NetworkManager.rescanNetworks, Eff.handle,
        Eff.bind, iwdManager_new_ok, createStation_ready bus hready, hsc, hnet, hpoll, hto,
        hterse, rescanListingEvents, readyStation_path]
  · cases hterse : nm.terse_output <;>
      simp [Eff.run, NetworkManager.listWifiNetworks, NetworkManager.rescanNetworks, Eff.handle,
        Eff.bind, iwdManager_new_ok, createStation_ready bus hready, hsc, hnet, hpoll, hto,
        hterse, rescanListingEvents, readyStation_path]

theorem filter_isRead_pollEvents (bus : Bus) (busy : Nat) (idle : Bool) :
    ((pollEvents bus busy idle).filter (Event.isRead "Scanning")).length
      = busy + (if idle then 1 else 0) := by
  induction busy with
  | zero => cases idle <;> simp [pollEvents, scanningRead, Event.isRead, List.filter_cons]
  | succ n ih =>
    simp only [pollEvents, List.replicate_succ, List.flatten_cons, List.append_assoc,
      List.cons_append, List.nil_append] at ih ⊢
    simp only [List.filter_cons, scanningRead, Event.isRead, beq_self_eq_true, if_true,
      List.length_cons] at ih ⊢
    simp only [Bool.false_eq_true, if_false]
    rw [ih]
    omega

theorem filter_isRead_networkReads (reply : List (String × Int)) :
    (reply.flatMap Station.networkReads).filter (Event.isRead "Scanning") = [] := by
  simp only [List.filter_eq_nil_iff, List.mem_flatMap]
  rintro e ⟨entry, -, he⟩
  simp only [Station.networkReads, List.mem_cons, List.mem_singleton, List.not_mem_nil,
    or_false] at he
  rcases he with rfl | rfl <;> simp [Event.isRead]

theorem scanTimeout_not_mem_pollEvents (bus : Bus) (busy : Nat) (idle : Bool) :
    Event.stderr "Scan timeout" ∉ pollEvents bus busy idle := by
  induction busy with
  | zero => cases idle <;> simp [pollEvents, scanningRead]
  | succ n ih =>
    simp only [pollEvents, List.replicate_succ, List.flatten_cons, List.append_assoc,
      List.cons_append, List.nil_append] at ih ⊢
    simp only [List.mem_cons, not_or]
    exact ⟨by simp [scanningRead], by simp, ih⟩

theorem count_orderedNetworks_pollEvents (bus : Bus) (path : String) (busy : Nat) (idle : Bool) :
    (pollEvents bus busy idle).count (.orderedNetworks path) = 0 := by
  rw [List.count_eq_zero]
  induction busy with
  | zero => cases idle <;> simp [pollEvents, scanningRead]
  | succ n ih =>
    simp only [pollEvents, List.replicate_succ, List.flatten_cons, List.append_assoc,
      List.cons_append, List.nil_append] at ih ⊢
    simp only [List.mem_cons, not_or]
    exact ⟨by simp [scanningRead], by simp, ih⟩

theorem count_orderedNetworks_networkReads (path : String) (reply : List (String × Int)) :
    (reply.flatMap Station.networkReads).count (.orderedNetworks path) = 0 := by
  rw [List.count_eq_zero, List.mem_flatMap]
  rintro ⟨entry, -, he⟩
  simp [Station.networkReads] at he

theorem rescanRun_busy (nm : NetworkManager) (bus : Bus) (answers : Nat → Bool)
    (reply : List (String × Int)) (connected : String) (name type : String → String)
    (hready : StationReady bus)
    (hscan : bus.callMethod (IwdManager.getDeviceObjectPath (some bus))
      "net.connman.iwd.Station" "Scan" = .ok ())
    (h : Station.Answers (readyStation bus) bus reply connected name type)
    (hall : ∀ i < 20, answers i = true) :
    rescanRun nm bus answers
      = (.ok (), rescanListingEvents nm bus reply connected name type
          (pollEvents bus 20 false) true) := by
  have hpoll := fun t => pollScanning_busy bus answers 20 0 t rfl (fun i _ hi => hall i hi)
  exact listWifiNetworks_rescan_run nm bus answers reply connected name type hready hscan h
    NetworkManager.maxAttempts _ hpoll

theorem rescanRun_idle (nm : NetworkManager) (bus : Bus) (answers : Nat → Bool)
    (reply : List (String × Int)) (connected : String) (name type : String → String)
    (hready : StationReady bus)
    (hscan : bus.callMethod (IwdManager.getDeviceObjectPath (some bus))
      "net.connman.iwd.Station" "Scan" = .ok ())
    (h : Station.Answers (readyStation bus) bus reply connected name type)
    (i : Nat) (hi : i < 20) (hidle : answers i = false) (hbusy : ∀ j < i, answers j = true) :
    rescanRun nm bus answers
      = (.ok (), rescanListingEvents nm bus reply connected name type
          (pollEvents bus i true) false) := by
  have hpoll := fun t => pollScanning_idle bus answers i 20 0 t hi
    (by simpa [NetworkManager.maxAttempts] using hi) (by simpa using hidle)
    (fun j _ hj => hbusy j (by simpa using hj))
  have hrun := listWifiNetworks_rescan_run nm bus answers reply connected name type hready
    hscan h (0 + i) _ hpoll
  have hlt : decide (0 + i ≥ NetworkManager.maxAttempts) = false := by
    simp only [NetworkManager.maxAttempts, decide_eq_false_iff_not]
    omega
  rw [hlt] at hrun
  exact hrun

theorem rescanListingEvents_facts (nm : NetworkManager) (bus : Bus)
    (reply : List (String × Int)) (connected : String) (name type : String → String)
    (busy : Nat) (idle timeout : Bool) :
    ((rescanListingEvents nm bus reply connected name type (pollEvents bus busy idle)
        timeout).filter (Event.isRead "Scanning")).length = busy + (if idle then 1 else 0) ∧
    (Event.stderr "Scan timeout" ∈ rescanListingEvents nm bus reply connected name type
        (pollEvents bus busy idle) timeout ↔ timeout = true) ∧
    (rescanListingEvents nm bus reply connected name type (pollEvents bus busy idle)
        timeout).count (.orderedNetworks (IwdManager.getDeviceObjectPath (some bus))) = 1 ∧
    (rescanListingEvents nm bus reply connected name type (pollEvents bus busy idle)
        timeout).filter Event.isPrintTable = [expectedTable nm reply connected name type] ∧
    (rescanListingEvents nm bus reply connected name type (pollEvents bus busy idle)
        timeout).getLast? = some (expectedTable nm reply connected name type) := by
  refine ⟨?_, ?_, ?_, ?_, ?_⟩
  · have hp := filter_isRead_pollEvents bus busy idle
    cases timeout <;> cases hterse : nm.terse_output <;>
      simp [rescanListingEvents, List.filter_append, List.filter_cons, Event.isRead,
        filter_isRead_networkReads, Station.connectedRead, hp, hterse]
  · have hp := scanTimeout_not_mem_pollEvents bus busy idle
    have hn : Event.stderr "Scan timeout" ∉ reply.flatMap Station.networkReads := by
      rw [List.mem_flatMap]
      rintro ⟨entry, -, he⟩
      simp [Station.networkReads] at he
    cases timeout <;> cases hterse : nm.terse_output <;>
      simp [rescanListingEvents, Station.connectedRead, hp, hn, hterse]
  · have hp := count_orderedNetworks_pollEvents bus
      (IwdManager.getDeviceObjectPath (some bus)) busy idle
    have hn := count_orderedNetworks_networkReads
      (IwdManager.getDeviceObjectPath (some bus)) reply
    cases timeout <;> cases hterse : nm.terse_output <;>
      simp [rescanListingEvents, List.count_append, List.count_cons, Station.connectedRead,
        hp, hn, hterse]
  · have hp : (pollEvents bus busy idle).filter Event.isPrintTable = [] := by
      rw [List.filter_eq_nil_iff]
      intro e he
      induction busy with
      | zero =>
        cases idle <;> simp [pollEvents, scanningRead] at he
        subst he
        simp [Event.isPrintTable]
      | succ n ih =>
        simp only [pollEvents, List.replicate_succ, List.flatten_cons, List.append_assoc,
          List.cons_append, List.nil_append, List.mem_cons] at ih he
        rcases he with rfl | rfl | he
        · simp [scanningRead, Event.isPrintTable]
        · simp [Event.isPrintTable]
        · exact ih he
    have hn : (reply.flatMap Station.networkReads).filter Event.isPrintTable = [] := by
      simp only [List.filter_eq_nil_iff, List.mem_flatMap]
      rintro e ⟨entry, -, he⟩
      simp only [Station.networkReads, List.mem_cons, List.mem_singleton, List.not_mem_nil,
        or_false] at he
      rcases he with rfl | rfl <;> simp [Event.isPrintTable]
    cases timeout <;> cases hterse : nm.terse_output <;>
      simp [rescanListingEvents, List.filter_append, List.filter_cons, Event.isPrintTable,
        Station.connectedRead, hp, hn, expectedTable, hterse]
  · unfold rescanListingEvents expectedTable
    exact List.getLast?_concat _

/-- C18: the polling loop of `listWifiNetworks(true)` is bounded and
soft-failing.  For every sequence of answers to the reads of `Scanning` the
reads number at most 20 and stop at the first answer `false`; `Scan timeout`
is written exactly when all 20 answers were `true`; in both cases the listing
ends normally, `GetOrderedNetworks` is called exactly once, after the polls,
and the table is handed to `printFormattedTable` exactly once, as the last
action. -/
theorem listWifiNetworks_polling_bounded (nm : NetworkManager) (bus : Bus)
    (answers : Nat → Bool) (reply : List (String × Int)) (connected : String)
    (name type : String → String) (hready : StationReady bus)
    (hscan : bus.callMethod (IwdManager.getDeviceObjectPath (some bus))
      "net.connman.iwd.Station" "Scan" = .ok ())
    (h : Station.Answers (readyStation bus) bus reply connected name type) :
    (rescanRun nm bus answers).1 = .ok () ∧
    ((rescanRun nm bus answers).2.filter (Event.isRead "Scanning")).length ≤ 20 ∧
    ((∀ i < 20, answers i = true) →
      ((rescanRun nm bus answers).2.filter (Event.isRead "Scanning")).length = 20) ∧
    (∀ i < 20, answers i = false → (∀ j < i, answers j = true) →
      ((rescanRun nm bus answers).2.filter (Event.isRead "Scanning")).length = i + 1) ∧
    (Event.stderr "Scan timeout" ∈ (rescanRun nm bus answers).2 ↔ ∀ i < 20, answers i = true) ∧
    (rescanRun nm bus answers).2.count
      (.orderedNetworks (IwdManager.getDeviceObjectPath (some bus))) = 1 ∧
    (rescanRun nm bus answers).2.filter Event.isPrintTable
      = [expectedTable nm reply connected name type] ∧
    (rescanRun nm bus answers).2.getLast? = some (expectedTable nm reply connected name type) ∧
    ∃ busy idle timeout, (rescanRun nm bus answers).2
      = rescanListingEvents nm bus reply connected name type (pollEvents bus busy idle)
          timeout := by
  by_cases hall : ∀ i < 20, answers i = true
  · have hrun := rescanRun_busy nm bus answers reply connected name type hready hscan h hall
    obtain ⟨f1, f2, f3, f4, f5⟩ := rescanListingEvents_facts nm bus reply connected name type
      20 false true
    rw [hrun]
    refine ⟨rfl, ?_, ?_, ?_, ?_, f3, f4, f5, ⟨20, false, true, rfl⟩⟩
    · simp [f1]
    · intro _
      simp [f1]
    · intro i hi hidle
      rw [hall i hi] at hidle
      cases hidle
    · exact ⟨fun _ => hall, fun _ => f2.mpr rfl⟩
  · have hex : ∃ i, i < 20 ∧ answers i = false := by
      by_contra hne
      apply hall
      intro i hi
      cases hb : answers i with
      | true => rfl
      | false => exact absurd ⟨i, hi, hb⟩ hne
    have hspec := Nat.find_spec hex
    have hmin : ∀ j < Nat.find hex, answers j = true := by
      intro j hj
      cases hb : answers j with
      | true => rfl
      | false => exact absurd ⟨Nat.lt_trans hj hspec.1, hb⟩ (Nat.find_min hex hj)
    have hrun := rescanRun_idle nm bus answers reply connected name type hready hscan h
      (Nat.find hex) hspec.1 hspec.2 hmin
    obtain ⟨f1, f2, f3, f4, f5⟩ := rescanListingEvents_facts nm bus reply connected name type
      (Nat.find hex) true false
    rw [hrun]
    refine ⟨rfl, ?_, ?_, ?_, ?_, f3, f4, f5, ⟨Nat.find hex, true, false, rfl⟩⟩
    · simp only [f1, if_true]
      have := hspec.1
      omega
    · intro hall2
      exact absurd hall2 hall
    · intro i hi hidle hbusy
      have hle : Nat.find hex ≤ i := Nat.find_min' hex ⟨hi, hidle⟩
      have hge : i ≤ Nat.find hex := by
        by_contra hlt
        have := hbusy (Nat.find hex) (by omega)
        rw [hspec.2] at this
        cases this
      simp only [f1, if_true]
      omega
    · constructor
      · intro hmem
        have := f2.mp hmem
        cases this
      · intro hall2
        exact absurd hall2 hall

/-- C18, on the daemon of the scenarios: when the scan is reported busy twice
and then idle, `Scanning` is read three times and no timeout is reported; when
it is reported busy for ever, `Scanning` is read 20 times and the timeout is
reported; the listing ends normally in both cases. -/
theorem listWifiNetworks_polling_bounded_witness :
    (rescanRun {} busOfficeGuest (busyFor 2)).1 = .ok () ∧
    ((rescanRun {} busOfficeGuest (busyFor 2)).2.filter (Event.isRead "Scanning")).length
      = 2 + 1 ∧
    (rescanRun {} busOfficeGuest (fun _ => true)).1 = .ok () ∧
    ((rescanRun {} busOfficeGuest (fun _ => true)).2.filter (Event.isRead "Scanning")).length
      = 20 ∧
    Event.stderr "Scan timeout" ∈ (rescanRun {} busOfficeGuest (fun _ => true)).2 := by
  have hanswers : Station.Answers (readyStation busOfficeGuest) busOfficeGuest
      [(officePath, -4000)] officePath (fun _ => "Office") (fun _ => "psk") :=
    ⟨rfl, rfl, rfl,
     by intro p hp; simp only [List.map_cons, List.map_nil, List.mem_singleton] at hp
        subst hp; rfl,
     by intro p hp; simp only [List.map_cons, List.map_nil, List.mem_singleton] at hp
        subst hp; rfl⟩
  have idle := listWifiNetworks_polling_bounded {} busOfficeGuest (busyFor 2) _ officePath _ _
    ⟨by decide, rfl⟩ rfl hanswers
  have busy := listWifiNetworks_polling_bounded {} busOfficeGuest (fun _ => true) _ officePath
    _ _ ⟨by decide, rfl⟩ rfl hanswers
  exact ⟨idle.1, idle.2.2.2.1 2 (by decide) rfl (by decide), busy.1,
    busy.2.2.1 (fun _ _ => rfl), busy.2.2.2.2.1.mpr (fun _ _ => rfl)⟩

/-! ## The signal quality shown in the listing -/

theorem tdiv_mul_ten (a : Int) : Int.tdiv (a * 20) 10 = 2 * a := by
  have h : a * 20 = (2 * a) * 10 := by ring
  rw [h]
  exact Int.mul_tdiv_cancel _ (by decide)

theorem dbmToQualitySegmented_eq (rssi_dbm : Int) :
    NetworkManager.dbmToQualitySegmented rssi_dbm
      = if rssi_dbm ≥ -50 then 100 else if rssi_dbm ≥ -90 then 2 * (rssi_dbm + 100) else 0 := by
  unfold NetworkManager.dbmToQualitySegmented
  simp only [tdiv_mul_ten]
  split_ifs <;> omega

theorem tdiv_hundred (s : Int) :
    Int.tdiv s 100 = if 0 ≤ s then s / 100 else -((-s) / 100) := by
  split_ifs with h
  · exact Int.tdiv_eq_ediv h (by decide)
  · have h1 : s = -(-s) := by omega
    rw [h1, Int.neg_tdiv, Int.tdiv_eq_ediv (by omega) (by decide)]
    simp

/-- C26: for every integer `rssi_dbm`, `dbmToQualitySegmented` is 100 from -50
upwards, `2 * (rssi_dbm + 100)` from -90 up to -51, and 0 below -90; its value
lies in 0..100, and it is monotone: a stronger signal never maps to a smaller
quality. -/
theorem dbmToQualitySegmented_clamped_line (rssi_dbm stronger : Int)
    (h : rssi_dbm ≤ stronger) :
    NetworkManager.dbmToQualitySegmented rssi_dbm
        = (if rssi_dbm ≥ -50 then 100 else if rssi_dbm ≥ -90 then 2 * (rssi_dbm + 100) else 0)
      ∧ 0 ≤ NetworkManager.dbmToQualitySegmented rssi_dbm
      ∧ NetworkManager.dbmToQualitySegmented rssi_dbm ≤ 100
      ∧ NetworkManager.dbmToQualitySegmented rssi_dbm
          ≤ NetworkManager.dbmToQualitySegmented stronger := by
  rw [dbmToQualitySegmented_eq rssi_dbm, dbmToQualitySegmented_eq stronger]
  refine ⟨rfl, ?_, ?_, ?_⟩ <;> split_ifs <;> omega

/-- Witness of C26 at the jump: -91 maps to 0 and -90 maps to 20. -/
theorem dbmToQualitySegmented_clamped_line_witness :
    (-91 : Int) ≤ -90
      ∧ NetworkManager.dbmToQualitySegmented (-91) = 0
      ∧ NetworkManager.dbmToQualitySegmented (-90) = 20
      ∧ NetworkManager.dbmToQualitySegmented (-91) ≤ NetworkManager.dbmToQualitySegmented (-90) :=
  ⟨by decide, by decide, by decide,
    (dbmToQualitySegmented_clamped_line (-91) (-90) (by decide)).2.2.2⟩

/-- C27: when the SIGNAL column is shown, its cell in the row of a network is
the decimal text of `dbmToQualitySegmented q`, where `q` is `signal_strength`
divided by 100 with rounding toward zero (`Int.tdiv`).  So every
`signal_strength` above -5100 shows 100, and every one above -9100 and at most
-9000 shows 20, while division rounding down (`/`) would give 0 between -9100
and -9000. -/
theorem signal_column_rounds_toward_zero (nm : NetworkManager) (network : Station.NetworkInfo)
    (h : nm.showField "SIGNAL" = true) :
    nm.wifiRow network
        = (if nm.showField "SSID" then [network.ssid] else [])
          ++ (if nm.showField "SECURITY" then [network.security] else [])
          ++ [toString (NetworkManager.dbmToQualitySegmented
                (Int.tdiv network.signal_strength 100))]
          ++ (if nm.showField "IN-USE" then [if network.in_use then "*" else ""] else [])
      ∧ (-5100 < network.signal_strength →
          NetworkManager.dbmToQualitySegmented (Int.tdiv network.signal_strength 100) = 100)
      ∧ (-9100 < network.signal_strength ∧ network.signal_strength ≤ -9000 →
          NetworkManager.dbmToQualitySegmented (Int.tdiv network.signal_strength 100) = 20)
      ∧ (-9100 < network.signal_strength ∧ network.signal_strength < -9000 →
          NetworkManager.dbmToQualitySegmented (network.signal_strength / 100) = 0) := by
  refine ⟨by simp [NetworkManager.wifiRow, h], ?_, ?_, ?_⟩
  · intro hs
    rw [dbmToQualitySegmented_eq, tdiv_hundred]
    split_ifs <;> omega
  · intro hs
    rw [dbmToQualitySegmented_eq, tdiv_hundred]
    split_ifs <;> omega
  · intro hs
    rw [dbmToQualitySegmented_eq]
    split_ifs <;> omega

/-- Witness of C27: with the default selection, a network at -9050 shows 20. -/
theorem signal_column_rounds_toward_zero_witness :
    ({} : NetworkManager).showField "SIGNAL" = true
      ∧ ({} : NetworkManager).wifiRow ⟨"/net/connman/iwd/0/3/a_psk", "a", "psk", -9050, false⟩
          = ["a", "psk", "20", ""]
      ∧ NetworkManager.dbmToQualitySegmented (Int.tdiv (-9050) 100) = 20
      ∧ NetworkManager.dbmToQualitySegmented ((-9050 : Int) / 100) = 0 :=
  ⟨by decide, by decide,
    (signal_column_rounds_toward_zero {} ⟨"/net/connman/iwd/0/3/a_psk", "a", "psk", -9050, false⟩
      (by decide)).2.2.1 ⟨by decide, by decide⟩,
    by decide⟩

/-! ## The splitter of the field list -/

theorem splitLoop_eq (delimiter : Char) (str : List Char) (tokens : List String)
    (token : List Char) :
    splitLoop delimiter str tokens token
      = tokens ++ (pieces delimiter str token).map String.mk := by
  induction str generalizing tokens token with
  | nil => simp [splitLoop, pieces]
  | cons c rest ih =>
    by_cases h : c = delimiter
    · simp [splitLoop, pieces, h, ih]
    · simp [splitLoop, pieces, h, ih]

theorem pieces_length (delimiter : Char) (str token : List Char) :
    (pieces delimiter str token).length = str.count delimiter + 1 := by
  induction str generalizing token with
  | nil => simp [pieces]
  | cons c rest ih =>
    by_cases h : c = delimiter
    · simp [pieces, h, ih]
    · simp [pieces, h, ih, List.count_cons]

theorem pieces_free (delimiter : Char) (str token : List Char) (ht : delimiter ∉ token) :
    ∀ p ∈ pieces delimiter str token, delimiter ∉ p := by
  induction str generalizing token with
  | nil => simpa [pieces] using ht
  | cons c rest ih =>
    by_cases h : c = delimiter
    · intro p hp
      simp only [pieces, h, if_true, List.mem_cons] at hp
      rcases hp with rfl | hp
      · exact ht
      · exact ih [] (by simp) p hp
    · simp only [pieces, h, if_false]
      apply ih
      simp only [List.mem_append, List.mem_singleton, not_or]
      exact ⟨ht, fun e => h e.symm⟩

theorem pieces_intercalate (delimiter : Char) (str token : List Char) :
    List.intercalate [delimiter] (pieces delimiter str token) = token ++ str := by
  induction str generalizing token with
  | nil => simp [pieces, List.intercalate]
  | cons c rest ih =>
    by_cases h : c = delimiter
    · have hne : pieces delimiter rest [] ≠ [] := by
        intro e
        have := pieces_length delimiter rest []
        rw [e] at this
        simp at this
      have := ih []
      simp only [pieces, h, if_true]
      obtain ⟨a, l, hl⟩ := List.exists_cons_of_ne_nil hne
      rw [hl] at this ⊢
      simp only [List.intercalate, List.intersperse, List.flatten] at this ⊢
      simp [this]
    · simp [pieces, h, ih]

theorem intercalate_go_data (s : String) (l : List String) (acc : String) :
    (String.intercalate.go acc s l).data = acc.data ++ (l.flatMap fun a => s.data ++ a.data) := by
  induction l generalizing acc with
  | nil => simp [String.intercalate.go]
  | cons a l ih => simp [String.intercalate.go, ih]

theorem intercalate_mk (c : Char) (l : List (List Char)) :
    (String.intercalate (String.singleton c) (l.map String.mk)).data = List.intercalate [c] l := by
  cases l with
  | nil => simp [String.intercalate, List.intercalate]
  | cons a l =>
    simp only [List.map_cons, String.intercalate, intercalate_go_data]
    induction l generalizing a with
    | nil => simp [List.intercalate]
    | cons b l ih =>
      have := ih b
      simp [List.intercalate, List.intersperse, String.singleton] at this ⊢
      simp [this]

/-- C30: for every string and delimiter character, `split` returns a non-empty
list of tokens, none of which contains the delimiter, with one token more than
the string has delimiters, and joining the tokens with the delimiter gives the
string back. -/
theorem split_round_trip (str : String) (c : Char) :
    split str c ≠ []
      ∧ (∀ token ∈ split str c, c ∉ token.toList)
      ∧ (split str c).length = str.toList.count c + 1
      ∧ String.intercalate (String.singleton c) (split str c) = str := by
  have hs : split str c = (pieces c str.toList []).map String.mk := by
    simp [split, splitLoop_eq]
  have hlen : (split str c).length = str.toList.count c + 1 := by
    rw [hs, List.length_map, pieces_length]
  refine ⟨?_, ?_, hlen, ?_⟩
  · intro e
    rw [e] at hlen
    simp at hlen
  · intro token ht
    rw [hs, List.mem_map] at ht
    obtain ⟨p, hp, rfl⟩ := ht
    exact pieces_free c str.toList [] (by simp) p hp
  · apply String.ext
    rw [hs, intercalate_mk, pieces_intercalate]
    rfl

/-! ## Every resolved object path lies under the service root -/

theorem adapter_rooted (bus : Bus) :
    ∃ rest, IwdManager.getAdapterObjectPath (some bus) = "/net/connman/iwd/" ++ rest := by
  unfold IwdManager.getAdapterObjectPath
  simp only
  split
  · split
    · exact ⟨_, rfl⟩
    · split
      · exact ⟨_, rfl⟩
      · exact ⟨"0", by decide⟩
  · exact ⟨"0", by decide⟩

theorem device_rooted (bus : Bus) :
    IwdManager.getDeviceObjectPath (some bus) = ""
      ∨ ∃ rest, IwdManager.getDeviceObjectPath (some bus) = "/net/connman/iwd/" ++ rest := by
  obtain ⟨a, ha⟩ := adapter_rooted bus
  unfold IwdManager.getDeviceObjectPath
  simp only [adapter_ne_empty bus, if_false]
  split
  · split
    · rw [ha, String.append_assoc, String.append_assoc]
      exact Or.inr ⟨_, rfl⟩
    · rw [ha, String.append_assoc]
      exact Or.inr ⟨_, rfl⟩
  · exact Or.inl rfl

theorem getAllConnectionLoop_rooted (fuel : Nat) (searchStart : List Char)
    (wifiConnections : List String)
    (h : ∀ p ∈ wifiConnections, ∃ rest, p = "/net/connman/iwd/" ++ rest) :
    ∀ p ∈ Station.getAllConnectionLoop fuel searchStart wifiConnections,
      ∃ rest, p = "/net/connman/iwd/" ++ rest := by
  induction fuel generalizing searchStart wifiConnections with
  | zero => simpa [Station.getAllConnectionLoop] using h
  | succ fuel ih =>
    unfold Station.getAllConnectionLoop
    split
    · exact h
    · split
      · exact ih _ _ h
      · apply ih
        intro p hp
        rcases List.mem_append.mp hp with hp | hp
        · exact h p hp
        · exact ⟨_, List.mem_singleton.mp hp⟩

/-- C23: on a connected bus, the path returned by `getAdapterObjectPath` begins
with `/net/connman/iwd/`; the result of `getDeviceObjectPath` is either the
empty string that reports failure or begins with that prefix, and it does begin
with it whenever the introspection of the adapter is answered; and whenever the
introspection of the root is answered, `Station::getAllConnection` returns a
list whose every element begins with that prefix. -/
theorem object_paths_rooted (bus : Bus) (st : Station) (hc : st.connection_ = some bus) :
    (∃ rest, IwdManager.getAdapterObjectPath (some bus) = "/net/connman/iwd/" ++ rest)
      ∧ (IwdManager.getDeviceObjectPath (some bus) = ""
          ∨ ∃ rest, IwdManager.getDeviceObjectPath (some bus) = "/net/connman/iwd/" ++ rest)
      ∧ (∀ data, bus.introspect (IwdManager.getAdapterObjectPath (some bus)) = .ok data →
          ∃ rest, IwdManager.getDeviceObjectPath (some bus) = "/net/connman/iwd/" ++ rest)
      ∧ (∀ data t, bus.introspect "/net/connman/iwd" = .ok data →
          ∃ paths, st.getAllConnection t = (.ok paths, t ++ [.introspect "/net/connman/iwd"])
            ∧ ∀ p ∈ paths, ∃ rest, p = "/net/connman/iwd/" ++ rest) := by
  refine ⟨adapter_rooted bus, device_rooted bus, ?_, ?_⟩
  · intro data hdata
    rcases device_rooted bus with h | h
    · exfalso
      cases hs : regex_search IwdManager.deviceRegex data.toList with
      | none =>
        rw [device_of_none bus data hdata hs] at h
        exact append_mk_ne_empty _ (adapter_ne_empty bus) _ h
      | some mr =>
        rw [device_of_numeric bus data mr.1 mr.2 hdata hs] at h
        exact append_mk_ne_empty _ (by
          intro e
          exact append_mk_ne_empty _ (adapter_ne_empty bus) _ e) _ h
    · exact h
  · intro data t hdata
    exact ⟨_, getAllConnection_run st bus data t hc hdata,
      getAllConnectionLoop_rooted _ _ _ (by simp)⟩

/-- Witness of C23 on the daemon of the scenarios: the adapter is
`/net/connman/iwd/0`, the device `/net/connman/iwd/0/3`, and the known networks
are `Office_psk` and `Guest_psk` under the root. -/
theorem object_paths_rooted_witness :
    (readyStation busOfficeGuest).connection_ = some busOfficeGuest
      ∧ IwdManager.getAdapterObjectPath (some busOfficeGuest) = "/net/connman/iwd/0"
      ∧ IwdManager.getDeviceObjectPath (some busOfficeGuest) = "/net/connman/iwd/0/3"
      ∧ ((readyStation busOfficeGuest).getAllConnection []).1
          = .ok ["/net/connman/iwd/Office_psk", "/net/connman/iwd/Guest_psk"]
      ∧ ∃ rest, IwdManager.getAdapterObjectPath (some busOfficeGuest)
          = "/net/connman/iwd/" ++ rest :=
  ⟨rfl, by decide, by decide, by rfl, (object_paths_rooted busOfficeGuest (readyStation busOfficeGuest) rfl).1⟩

/-! ## Deactivation when no network is connected -/

theorem getConnectedNetwork_empty (st : Station) (bus : Bus) (v : Variant) (t : List Event)
    (hc : st.connection_ = some bus)
    (h : bus.getProperty st.device_object_path_ "net.connman.iwd.Station" "ConnectedNetwork"
      = .ok v)
    (hempty : ∀ p, v ≠ .objectPath p ∨ p = "") :
    Station.getConnectedNetwork st t = (.ok "", t ++ [Station.connectedRead st]) := by
  cases v with
  | objectPath p =>
    rcases hempty p with hp | hp
    · exact absurd rfl hp
    · subst hp
      exact getConnectedNetwork_objectPath st bus "" t hc h
  | _ =>
    simp [Station.getConnectedNetwork, Station.getProperty, hc, Eff.bind, h,
      VariantType.ofVariant, VariantType.zero, Station.connectedRead]

/-- The branch `if (connectedNetworkPath.empty())` of `deactivateConnection`:
when the station can be created and the read of `ConnectedNetwork` is answered
with a value that is no object path, or with the empty path, the result is
`true` for every `ssid`, without a `Disconnect` call and without a read of a
`Name` property. -/
theorem deactivateConnection_empty_value (bus : Bus) (ssid : String) (v : Variant)
    (h : StationReady bus)
    (hvalue : bus.getProperty (IwdManager.getDeviceObjectPath (some bus))
      "net.connman.iwd.Station" "ConnectedNetwork" = .ok v)
    (hempty : ∀ p, v ≠ .objectPath p ∨ p = "") :
    (NetworkManager.deactivateConnection (.ok bus) ssid).run.1 = .ok true
      ∧ (NetworkManager.deactivateConnection (.ok bus) ssid).run.2.filter
          (Event.isCall "Disconnect") = []
      ∧ (NetworkManager.deactivateConnection (.ok bus) ssid).run.2.filter
          (Event.isRead "Name") = [] := by
  have hst : (readyStation bus).connection_ = some bus := rfl
  have hread := fun t => getConnectedNetwork_empty (readyStation bus) bus v t hst hvalue hempty
  have hrun : (NetworkManager.deactivateConnection (.ok bus) ssid).run
      = (.ok true, [.openConnection, .openConnection,
          Station.connectedRead (readyStation bus), .stdout "Not connected to any network"]) := by
    simp [Eff.run, NetworkManager.deactivateConnection, Eff.tryCatch_apply, Eff.handle,
      Eff.bind_apply, Eff.bind, iwdManager_new_ok, createStation_ready bus h, hread,
      Station.connectedRead]
  rw [hrun]
  exact ⟨rfl, by simp [Event.isCall, Station.connectedRead],
    by simp [Event.isRead, Station.connectedRead]⟩

/-- C25, the code at a failing input: a station that is connected to no
network.  The daemon then has no `ConnectedNetwork` property and answers the
read with an error reply; `getConnectedNetwork` raises it instead of returning
the empty value, and `deactivateConnection` catches it, writes the diagnostic
and returns `false`, so that `nmcli connection down Office` returns 1.  No
`Disconnect` call is issued and no `Name` is read.  The branch that returns
`true` is reached when the read is answered with a value of another type. -/
theorem deactivateConnection_not_connected_fails :
    (Station.getConnectedNetwork stationIdle).run.1 = .error (.sdbusError "No such property")
      ∧ (NetworkManager.deactivateConnection (.ok (homeBus [] [])) "Office").run.1 = .ok false
      ∧ (NetworkManager.deactivateConnection (.ok (homeBus [] [])) "Office").run.2.getLast?
        = some (.stderr "Error deactivating connection to 'Office': No such property")
      ∧ (NetworkManager.deactivateConnection (.ok (homeBus [] [])) "Office").run.2.filter
          (Event.isCall "Disconnect") = []
      ∧ (NetworkManager.deactivateConnection (.ok (homeBus [] [])) "Office").run.2.filter
          (Event.isRead "Name") = []
      ∧ (main worldIdle ["nmcli", "connection", "down", "Office"]).run.1 = .ok 1
      ∧ (NetworkManager.deactivateConnection (.ok busMistypedConnectedNetwork) "Office").run.1
        = .ok true :=
  ⟨rfl, rfl, by decide, by decide, by decide, rfl, rfl⟩

/-! ## The listing is sorted again by the caller -/

theorem sortBySignal_perm (networks : List Station.NetworkInfo) :
    (NetworkManager.sortBySignal networks).Perm networks :=
  List.perm_insertionSort _ _

theorem sortBySignal_sorted (networks : List Station.NetworkInfo) :
    (NetworkManager.sortBySignal networks).Sorted
      fun a b => a.signal_strength ≥ b.signal_strength := by
  haveI : IsTotal Station.NetworkInfo (fun a b => a.signal_strength ≥ b.signal_strength) :=
    ⟨fun a b => le_total b.signal_strength a.signal_strength⟩
  haveI : IsTrans Station.NetworkInfo (fun a b => a.signal_strength ≥ b.signal_strength) :=
    ⟨fun a b c hab hbc => le_trans hbc hab⟩
  exact List.sorted_insertionSort _ _

theorem listWifiNetworks_run (nm : NetworkManager) (bus : Bus)
    (scanningAt : Nat → Except String Variant)
    (reply : List (String × Int)) (connected : String) (name type : String → String)
    (hready : StationReady bus)
    (h : Station.Answers (readyStation bus) bus reply connected name type) :
    (NetworkManager.listWifiNetworks nm (.ok bus) scanningAt false).run
      = (.ok (), [.openConnection, .openConnection,
          .orderedNetworks (IwdManager.getDeviceObjectPath (some bus)),
          Station.connectedRead (readyStation bus)]
          ++ reply.flatMap Station.networkReads
          ++ (if nm.terse_output then []
              else [.stdout ("Found " ++ toString reply.length ++ " networks")])
          ++ [expectedTable nm reply connected name type]) := by
  have hnet := fun t => getOrderedNetworks_apply (readyStation bus) bus reply connected name
    type h t
  cases hterse : nm.terse_output <;>
    simp [Eff.run, NetworkManager.listWifiNetworks, NetworkManager.rescanNetworks, Eff.handle,
      Eff.bind, iwdManager_new_ok, createStation_ready bus hready, hnet,
      hterse, expectedTable, readyStation_path]

/-- C24: when the daemon answers, `listWifiNetworks` ends normally and hands one
table to `printFormattedTable`; its rows are the rows of a list `shown` that is
a permutation of the sequence returned by `getOrderedNetworks` (so there is one
row per record) and that is in non-increasing order of `signal_strength`. -/
theorem listWifiNetworks_resorts (nm : NetworkManager) (bus : Bus)
    (scanningAt : Nat → Except String Variant)
    (reply : List (String × Int)) (connected : String) (name type : String → String)
    (hready : StationReady bus)
    (h : Station.Answers (readyStation bus) bus reply connected name type) :
    ∃ networks shown : List Station.NetworkInfo,
      (Station.getOrderedNetworks (readyStation bus)).run.1 = .ok networks
        ∧ (NetworkManager.listWifiNetworks nm (.ok bus) scanningAt false).run.1 = .ok ()
        ∧ (NetworkManager.listWifiNetworks nm (.ok bus) scanningAt false).run.2.filter
            Event.isPrintTable = [.printFormattedTable (shown.map nm.wifiRow) nm.wifiHeaders]
        ∧ shown.Perm networks
        ∧ (shown.map nm.wifiRow).length = networks.length
        ∧ shown.Sorted fun a b => a.signal_strength ≥ b.signal_strength := by
  refine ⟨reply.map (Station.expectedInfo connected name type),
    NetworkManager.sortBySignal (reply.map (Station.expectedInfo connected name type)),
    ?_, ?_, ?_, sortBySignal_perm _, ?_, sortBySignal_sorted _⟩
  · rw [getOrderedNetworks_run _ bus reply connected name type h]
  · rw [listWifiNetworks_run nm bus scanningAt reply connected name type hready h]
  · rw [listWifiNetworks_run nm bus scanningAt reply connected name type hready h]
    cases nm.terse_output <;>
      · simp [List.filter_append, Event.isPrintTable, expectedTable, Station.connectedRead,
          List.filter_eq_nil_iff, Station.networkReads]
        rintro a x y - (rfl | rfl) <;> rfl
  · rw [List.length_map]
    exact (sortBySignal_perm _).length_eq

/-- Witness of C24: the daemon lists the weaker network first; the table shows
the stronger one first. -/
theorem listWifiNetworks_resorts_witness :
    (NetworkManager.listWifiNetworks {} (.ok (homeBus [("/net/connman/iwd/0/3/b_psk", -6500, "b"),
        ("/net/connman/iwd/0/3/a_psk", -4000, "a")] [])) (fun _ => .ok (.boolean false))
        false).run.2.filter Event.isPrintTable
      = [.printFormattedTable [["a", "psk", "100", ""], ["b", "psk", "70", "*"]]
          ["SSID", "SECURITY", "SIGNAL", "IN-USE"]]
    ∧ ∃ networks shown : List Station.NetworkInfo,
      (Station.getOrderedNetworks (readyStation (homeBus
          [("/net/connman/iwd/0/3/b_psk", -6500, "b"),
            ("/net/connman/iwd/0/3/a_psk", -4000, "a")] []))).run.1 = .ok networks
        ∧ (NetworkManager.listWifiNetworks {} (.ok (homeBus
            [("/net/connman/iwd/0/3/b_psk", -6500, "b"),
              ("/net/connman/iwd/0/3/a_psk", -4000, "a")] [])) (fun _ => .ok (.boolean false))
            false).run.1 = .ok ()
        ∧ (NetworkManager.listWifiNetworks {} (.ok (homeBus
            [("/net/connman/iwd/0/3/b_psk", -6500, "b"),
              ("/net/connman/iwd/0/3/a_psk", -4000, "a")] [])) (fun _ => .ok (.boolean false))
            false).run.2.filter Event.isPrintTable
            = [.printFormattedTable (shown.map ({} : NetworkManager).wifiRow)
                ({} : NetworkManager).wifiHeaders]
        ∧ shown.Perm networks
        ∧ (shown.map ({} : NetworkManager).wifiRow).length = networks.length
        ∧ shown.Sorted fun a b => a.signal_strength ≥ b.signal_strength :=
  ⟨by rfl,
    listWifiNetworks_resorts {} _ _ [("/net/connman/iwd/0/3/b_psk", -6500),
      ("/net/connman/iwd/0/3/a_psk", -4000)] "/net/connman/iwd/0/3/b_psk"
      (fun p => if p = "/net/connman/iwd/0/3/b_psk" then "b" else "a") (fun _ => "psk")
      ⟨by decide, rfl⟩
      ⟨rfl, rfl, rfl,
        by
          intro p hp
          simp only [List.map_cons, List.map_nil, List.mem_cons, List.mem_singleton,
            List.not_mem_nil, or_false] at hp
          rcases hp with rfl | rfl <;> rfl,
        by
          intro p hp
          simp only [List.map_cons, List.map_nil, List.mem_cons, List.mem_singleton,
            List.not_mem_nil, or_false] at hp
          rcases hp with rfl | rfl <;> rfl⟩⟩

/-! ## The text produced by `stringToUUID` -/

theorem hexDigit_ne_hyphen (n : Nat) (h : n < 16) : hexDigit n ≠ hyphen := by
  interval_cases n <;> decide

theorem hexByte_length (b : Nat) : (hexByte b).length = 2 := rfl

theorem hyphen_not_mem_hexByte (b : Nat) (h : b < 256) : hyphen ∉ hexByte b := by
  simp only [hexByte, List.mem_cons, List.mem_singleton, List.not_mem_nil, or_false, not_or]
  exact ⟨fun e => hexDigit_ne_hyphen _ (by omega) e.symm,
    fun e => hexDigit_ne_hyphen _ (by omega) e.symm⟩

theorem digest_lt (hash1 hash2 i : Nat) : digest hash1 hash2 i < 256 := by
  unfold digest
  split
  · exact Nat.lt_of_le_of_lt Nat.and_le_right (by decide)
  · exact Nat.lt_of_le_of_lt Nat.and_le_right (by decide)

theorem pieces_free_run (delimiter : Char) (g token : List Char) (hg : delimiter ∉ g) :
    pieces delimiter g token = [token ++ g] := by
  induction g generalizing token with
  | nil => simp [pieces]
  | cons c rest ih =>
    have hc : c ≠ delimiter := fun e => hg (by simp [e])
    have hr : delimiter ∉ rest := fun e => hg (List.mem_cons_of_mem _ e)
    simp [pieces, hc, ih _ hr]

theorem pieces_group (delimiter : Char) (g rest token : List Char) (hg : delimiter ∉ g) :
    pieces delimiter (g ++ delimiter :: rest) token = (token ++ g) :: pieces delimiter rest [] := by
  induction g generalizing token with
  | nil => simp [pieces]
  | cons c more ih =>
    have hc : c ≠ delimiter := fun e => hg (by simp [e])
    have hr : delimiter ∉ more := fun e => hg (List.mem_cons_of_mem _ e)
    simp [pieces, hc, ih _ hr]

theorem pieces_five (delimiter : Char) (g1 g2 g3 g4 g5 : List Char)
    (h1 : delimiter ∉ g1) (h2 : delimiter ∉ g2) (h3 : delimiter ∉ g3) (h4 : delimiter ∉ g4)
    (h5 : delimiter ∉ g5) :
    pieces delimiter (g1 ++ [delimiter] ++ g2 ++ [delimiter] ++ g3 ++ [delimiter] ++ g4
      ++ [delimiter] ++ g5) [] = [g1, g2, g3, g4, g5] := by
  have e : g1 ++ [delimiter] ++ g2 ++ [delimiter] ++ g3 ++ [delimiter] ++ g4 ++ [delimiter] ++ g5
      = g1 ++ delimiter :: (g2 ++ delimiter :: (g3 ++ delimiter :: (g4 ++ delimiter :: g5))) := by
    simp
  rw [e, pieces_group _ _ _ _ h1, pieces_group _ _ _ _ h2, pieces_group _ _ _ _ h3,
    pieces_group _ _ _ _ h4, pieces_free_run _ _ _ h5]
  simp

theorem hyphen_not_mem_uuidGroup3 (d : Nat → Nat) : hyphen ∉ uuidGroup3 d := by
  have h6 : d 6 &&& 0x0F < 256 := Nat.lt_of_le_of_lt Nat.and_le_right (by decide)
  have h7 : d 7 &&& 0x0F < 256 := Nat.lt_of_le_of_lt Nat.and_le_right (by decide)
  simp only [uuidGroup3, List.mem_append, List.mem_singleton, not_or]
  exact ⟨⟨by decide, hyphen_not_mem_hexByte _ h6⟩, hyphen_not_mem_hexByte _ h7⟩

theorem uuidGroup3_eq (d : Nat → Nat) :
    uuidGroup3 d = [Char.ofNat 52, Char.ofNat 48, hexDigit (d 6 &&& 0x0F), Char.ofNat 48,
      hexDigit (d 7 &&& 0x0F)] := by
  have h6 : d 6 &&& 0x0F ≤ 15 := Nat.and_le_right
  have h7 : d 7 &&& 0x0F ≤ 15 := Nat.and_le_right
  have e6 : (d 6 &&& 0x0F) / 16 = 0 := by omega
  have e7 : (d 7 &&& 0x0F) / 16 = 0 := by omega
  have m6 : (d 6 &&& 0x0F) % 16 = d 6 &&& 0x0F := by omega
  have m7 : (d 7 &&& 0x0F) % 16 = d 7 &&& 0x0F := by omega
  simp only [uuidGroup3, hexByte, e6, e7, m6, m7]
  rfl

/-- C28, as the code behaves: for every hash function and every input, the
text returned by `stringToUUID` has 37 characters; its groups between the
hyphens have the lengths 8, 4, 5, 4 and 12; and the third group is the digit
`4` followed by two bytes of two digits each, the first digit of each being
`0`.  With all hash values 0 the text is
`00000000-0000-40000-8000-000000000000`. -/
theorem stringToUUID_third_group_five (hash : String → Nat) (input : String) :
    (stringToUUID hash input).length = 37
      ∧ (split (stringToUUID hash input) hyphen).map String.length = [8, 4, 5, 4, 12]
      ∧ (∃ x y : Char, (split (stringToUUID hash input) hyphen)[2]?
          = some (String.mk [Char.ofNat 52, Char.ofNat 48, x, Char.ofNat 48, y]))
      ∧ stringToUUID (fun _ => 0) input = "00000000-0000-40000-8000-000000000000" := by
  have hd := digest_lt (hash input) (hash (input ++ "_salt1"))
  have hv : ∀ d : Nat → Nat, (d 8 &&& 0x3F) ||| 0x80 < 256 := fun d =>
    Nat.or_lt_two_pow (n := 8) (Nat.lt_of_le_of_lt Nat.and_le_right (by decide)) (by decide)
  have hsplit : split (stringToUUID hash input) hyphen
      = [String.mk (uuidGroup1 (digest (hash input) (hash (input ++ "_salt1")))),
         String.mk (uuidGroup2 (digest (hash input) (hash (input ++ "_salt1")))),
         String.mk (uuidGroup3 (digest (hash input) (hash (input ++ "_salt1")))),
         String.mk (uuidGroup4 (digest (hash input) (hash (input ++ "_salt1")))),
         String.mk (uuidGroup5 (digest (hash input) (hash (input ++ "_salt1"))))] := by
    simp only [split, stringToUUID, splitLoop_eq, List.nil_append]
    rw [show ∀ l : List Char, (String.mk l).toList = l from fun _ => rfl, pieces_five]
    · rfl
    · simp only [uuidGroup1, List.mem_append, not_or]
      exact ⟨⟨⟨hyphen_not_mem_hexByte _ (hd 0), hyphen_not_mem_hexByte _ (hd 1)⟩,
        hyphen_not_mem_hexByte _ (hd 2)⟩, hyphen_not_mem_hexByte _ (hd 3)⟩
    · simp only [uuidGroup2, List.mem_append, not_or]
      exact ⟨hyphen_not_mem_hexByte _ (hd 4), hyphen_not_mem_hexByte _ (hd 5)⟩
    · exact hyphen_not_mem_uuidGroup3 _
    · simp only [uuidGroup4, List.mem_append, not_or]
      exact ⟨hyphen_not_mem_hexByte _ (hv _), hyphen_not_mem_hexByte _ (hd 9)⟩
    · simp only [uuidGroup5, List.mem_append, not_or]
      exact ⟨⟨⟨⟨⟨hyphen_not_mem_hexByte _ (hd 10), hyphen_not_mem_hexByte _ (hd 11)⟩,
        hyphen_not_mem_hexByte _ (hd 12)⟩, hyphen_not_mem_hexByte _ (hd 13)⟩,
        hyphen_not_mem_hexByte _ (hd 14)⟩, hyphen_not_mem_hexByte _ (hd 15)⟩
  refine ⟨?_, ?_, ?_, ?_⟩
  · simp [stringToUUID, String.length, uuidGroup1, uuidGroup2, uuidGroup3, uuidGroup4,
      uuidGroup5, hexByte]
  · rw [hsplit]
    simp [String.length, uuidGroup1, uuidGroup2, uuidGroup3, uuidGroup4, uuidGroup5, hexByte]
  · rw [hsplit, uuidGroup3_eq]
    exact ⟨_, _, rfl⟩
  · have h0 : ∀ i, digest 0 0 i = 0 := by
      intro i
      unfold digest
      split <;> simp
    simp only [stringToUUID, uuidGroup1, uuidGroup2, uuidGroup3, uuidGroup4, uuidGroup5, h0]
    rfl

/-! ## Faults and the exit status of `main` -/

/-- C22, as the code behaves: `NetworkManager::showConnections` has no handler
and neither has the `connection` branch of `main`, so a fault of the bus layer
leaves `main` as an exception.  When the system bus cannot be opened,
`nmcli connection show` (and `nmcli con`) ends with the `sdbus::Error` of the
constructor; when the bus is open and the read of `ConnectedNetwork` fails, it
ends with the `sdbus::Error` of that read.  The sibling `connection down`
catches the same fault and returns 1. -/
theorem connection_show_fault_escapes :
    (main worldNoBus ["nmcli", "connection", "show"]).run
        = (.error (.sdbusError "Failed to open system bus"), [.openConnection])
      ∧ (main worldNoBus ["nmcli", "con"]).run
        = (.error (.sdbusError "Failed to open system bus"), [.openConnection])
      ∧ (main worldFaulty ["nmcli", "connection", "show"]).run
        = (.error (.sdbusError "Connection timed out"),
            [.openConnection, .openConnection,
             .getProperty "/net/connman/iwd/0/3" "net.connman.iwd.Station" "ConnectedNetwork"])
      ∧ (main worldFaulty ["nmcli", "connection", "down", "Office"]).run.1 = .ok 1 :=
  ⟨rfl, rfl, rfl, rfl⟩

/-- C21, the code at a failing input: on a daemon whose listing and property
accesses fail with a transport fault, `nmcli device wifi list` writes the
diagnostic of the failed listing and returns 0, and `nmcli radio wifi` writes
the diagnostic of the failed read, prints `disabled` and returns 0.  On the
same daemon the sibling commands `radio wifi on`, `connection down`,
`connection up` and `device wifi connect` return 1. -/
theorem failure_status_zero_counterexample :
    (main worldFaulty ["nmcli", "device", "wifi", "list"]).run
        = (.ok 0, [.openConnection, .openConnection,
            .orderedNetworks "/net/connman/iwd/0/3",
            .stderr ("Error listing WiFi networks: D-Bus error getting ordered networks: "
              ++ "Connection timed out")])
      ∧ (main worldFaulty ["nmcli", "radio", "wifi"]).run
        = (.ok 0, [.openConnection,
            .getProperty "/net/connman/iwd/0" "net.connman.iwd.Adapter" "Powered",
            .stderr "Failed to get WiFi radio state: Connection timed out",
            .stdout "disabled"])
      ∧ (main worldFaulty ["nmcli", "radio", "wifi", "on"]).run.1 = .ok 1
      ∧ (main worldFaulty ["nmcli", "connection", "down", "Office"]).run.1 = .ok 1
      ∧ (main worldFaulty ["nmcli", "connection", "up", "Office"]).run.1 = .ok 1
      ∧ (main worldFaulty ["nmcli", "device", "wifi", "connect", "Office"]).run.1 = .ok 1 :=
  ⟨rfl, rfl, rfl, rfl, rfl, rfl⟩

theorem Eff.handle_total {α : Type} (m : Eff α) (h : Exn → Eff α)
    (hh : ∀ e t, ∃ a, (h e t).1 = .ok a) (t : List Event) :
    ∃ a, ((tryCatch m h : Eff α) t).1 = .ok a := by
  simp only [Eff.tryCatch_apply, Eff.handle]
  cases hr : m t with
  | mk r t1 =>
    cases r with
    | ok a => exact ⟨a, rfl⟩
    | error e => exact hh e t1

theorem listWifiNetworks_total (nm : NetworkManager) (systemBus : Except String Bus)
    (scanningAt : Nat → Except String Variant) (rescan : Bool) (t : List Event) :
    (NetworkManager.listWifiNetworks nm systemBus scanningAt rescan t).1 = .ok () := by
  simp only [NetworkManager.listWifiNetworks, Eff.tryCatch_apply, Eff.handle]
  split <;> rfl

theorem getWifiRadioState_total (systemBus : Except String Bus) (t : List Event) :
    ∃ b, (NetworkManager.getWifiRadioState systemBus t).1 = .ok b :=
  Eff.handle_total _ _ (fun _ _ => ⟨false, rfl⟩) t

theorem setWifiRadio_total (systemBus : Except String Bus) (enabled : Bool) (t : List Event) :
    ∃ b, (NetworkManager.setWifiRadio systemBus enabled t).1 = .ok b :=
  Eff.handle_total _ _ (fun _ _ => ⟨false, rfl⟩) t

theorem activateConnection_total (executeCommand : String → List String → Int)
    (systemBus : Except String Bus) (ssid : String) (t : List Event) :
    ∃ b, (NetworkManager.activateConnection executeCommand systemBus ssid t).1 = .ok b :=
  Eff.handle_total _ _ (fun e _ => by cases e <;> exact ⟨false, rfl⟩) t

theorem deactivateConnection_total (systemBus : Except String Bus) (ssid : String)
    (t : List Event) :
    ∃ b, (NetworkManager.deactivateConnection systemBus ssid t).1 = .ok b :=
  Eff.handle_total _ _ (fun _ _ => ⟨false, rfl⟩) t

theorem deleteConnection_total_at (systemBus : Except String Bus) (ssid : String)
    (t : List Event) :
    ∃ b, (NetworkManager.deleteConnection systemBus ssid t).1 = .ok b :=
  Eff.handle_total _ _ (fun e _ => by cases e <;> exact ⟨false, rfl⟩) t

theorem status_of_flag (op : Eff Bool) (good bad : Event) (hop : ∃ b, (op []).1 = .ok b) :
    ((op >>= fun flag => if flag = true then (do Eff.emit good; pure 0 : Eff Int)
        else (do Eff.emit bad; pure 1 : Eff Int)) []).1
      = .ok (statusOf op.run) := by
  obtain ⟨b, hb⟩ := hop
  simp only [Eff.bind_apply, Eff.bind, Eff.run]
  rcases hr : op [] with ⟨r1, t1⟩
  rw [hr] at hb
  simp only at hb
  subst hb
  cases b <;> simp [statusOf, Eff.bind]

theorem connectCommand_status (w : World) (ssid password : String) :
    ((connectCommand w ssid password) []).1
      = .ok (statusOf ((IwdManager.new w.systemBus >>= fun connection_ =>
          IwdManager.connectToNetwork w.executeCommand connection_ ssid password).run)) := by
  simp only [connectCommand, Eff.tryCatch_apply, Eff.handle, Eff.bind_apply, Eff.run, Eff.bind]
  rcases h1 : IwdManager.new w.systemBus [] with ⟨r1, t1⟩
  cases r1 with
  | error e => cases e <;> simp [statusOf, Eff.bind]
  | ok connection_ =>
    simp only
    rcases h2 : IwdManager.connectToNetwork w.executeCommand connection_ ssid password t1
      with ⟨r2, t2⟩
    cases r2 with
    | error e => cases e <;> simp [statusOf, Eff.bind]
    | ok b => cases b <;> simp [statusOf, Eff.bind]

theorem status_of_not_flag (op : Eff Bool) (bad : Event) (hop : ∃ b, (op []).1 = .ok b) :
    ((op >>= fun flag => if (!flag) = true then (do Eff.emit bad; pure 1 : Eff Int)
        else (pure 0 : Eff Int)) []).1
      = .ok (statusOf op.run) := by
  obtain ⟨b, hb⟩ := hop
  simp only [Eff.bind_apply, Eff.bind, Eff.run]
  rcases hr : op [] with ⟨r1, t1⟩
  rw [hr] at hb
  simp only at hb
  subst hb
  cases b <;> simp [statusOf, Eff.bind]

theorem radioStatus_status (w : World) : ((radioStatus w) []).1 = .ok 0 := by
  obtain ⟨b, hb⟩ := getWifiRadioState_total w.systemBus []
  simp only [radioStatus, Eff.bind_apply, Eff.bind]
  rcases hr : NetworkManager.getWifiRadioState w.systemBus [] with ⟨r1, t1⟩
  rw [hr] at hb
  simp only at hb
  subst hb
  rfl

theorem parseOptions_command (nm : NetworkManager) (command : String) (rest : List String)
    (h1 : command ≠ "-t") (h2 : command ≠ "--terse") (h3 : command ≠ "-f")
    (h4 : command ≠ "--fields") :
    parseOptions nm (command :: rest) = some (nm, command :: rest) := by
  cases rest <;> simp [parseOptions, h1, h2, h3, h4]

theorem main_command (w : World) (program command : String) (rest : List String)
    (h1 : command ≠ "-t") (h2 : command ≠ "--terse") (h3 : command ≠ "-f")
    (h4 : command ≠ "--fields") :
    main w (program :: command :: rest) = runCommand w {} command rest := by
  unfold main
  simp only [parseOptions_command {} command rest h1 h2 h3 h4]

theorem main_device (w : World) (program : String) (rest : List String) :
    main w (program :: "device" :: rest) = deviceCommand w {} rest := by
  rw [main_command w program "device" rest (by decide) (by decide) (by decide) (by decide)]
  unfold runCommand
  rw [if_neg (by decide), if_pos rfl]

theorem main_connection (w : World) (program : String) (rest : List String) :
    main w (program :: "connection" :: rest) = connectionCommand w {} "connection" rest := by
  rw [main_command w program "connection" rest (by decide) (by decide) (by decide) (by decide)]
  unfold runCommand
  rw [if_neg (by decide), if_neg (by decide), if_pos (by decide)]

theorem main_radio (w : World) (program : String) (rest : List String) :
    main w (program :: "radio" :: rest) = radioCommand w rest := by
  rw [main_command w program "radio" rest (by decide) (by decide) (by decide) (by decide)]
  unfold runCommand
  rw [if_neg (by decide), if_neg (by decide), if_neg (by decide), if_pos rfl]

theorem deviceCommand_list (w : World) (nm : NetworkManager) (more : List String) :
    deviceCommand w nm ("wifi" :: "list" :: more)
      = (do
          nm.listWifiNetworks w.systemBus w.scanningAt (rescanOption more)
          pure 0) := by
  unfold deviceCommand
  simp only [String.reduceEq, reduceIte, or_self]

theorem deviceCommand_connect (w : World) (nm : NetworkManager) (ssid : String) :
    deviceCommand w nm ["wifi", "connect", ssid] = connectCommand w ssid "" := by
  unfold deviceCommand
  simp only [String.reduceEq, reduceIte, or_self]

theorem deviceCommand_connect_password (w : World) (nm : NetworkManager)
    (ssid password : String) :
    deviceCommand w nm ["wifi", "connect", ssid, "password", password]
      = connectCommand w ssid password := by
  unfold deviceCommand
  simp only [String.reduceEq, reduceIte, or_self]

theorem connectionCommand_up (w : World) (nm : NetworkManager) (command ssid : String) :
    connectionCommand w nm command ["up", ssid]
      = (NetworkManager.activateConnection w.executeCommand w.systemBus ssid >>= fun flag =>
          if flag = true then
            (do Eff.emit (.stdout ("Connection '" ++ ssid ++ "' activated successfully")); pure 0)
          else
            (do Eff.emit (.stderr ("Failed to activate connection '" ++ ssid ++ "'")); pure 1)) := by
  unfold connectionCommand
  simp only [String.reduceEq, reduceIte, or_self]

theorem connectionCommand_down (w : World) (nm : NetworkManager) (command ssid : String) :
    connectionCommand w nm command ["down", ssid]
      = (NetworkManager.deactivateConnection w.systemBus ssid >>= fun flag =>
          if flag = true then
            (do Eff.emit (.stdout ("Connection '" ++ ssid ++ "' deactivated successfully"))
                pure 0)
          else
            (do Eff.emit (.stderr ("Failed to deactivate connection '" ++ ssid ++ "'"))
                pure 1)) := by
  unfold connectionCommand
  simp only [String.reduceEq, reduceIte, or_self]

theorem connectionCommand_delete (w : World) (nm : NetworkManager) (command ssid : String) :
    connectionCommand w nm command ["delete", ssid]
      = (NetworkManager.deleteConnection w.systemBus ssid >>= fun flag =>
          if flag = true then
            (do Eff.emit (.stdout ("Connection '" ++ ssid ++ "' deleted successfully")); pure 0)
          else
            (do Eff.emit (.stderr ("Failed to delete connection '" ++ ssid ++ "'")); pure 1)) := by
  unfold connectionCommand
  simp only [String.reduceEq, reduceIte, or_self]

theorem connectionCommand_show (w : World) (nm : NetworkManager) (command : String) :
    connectionCommand w nm command ["show"]
      = (do
          nm.showConnections w.hash w.kernel w.systemBus
          pure 0) := by
  unfold connectionCommand
  simp only [String.reduceEq, reduceIte, or_self]

theorem radioCommand_set (w : World) (state : String) (h : state = "on" ∨ state = "off") :
    radioCommand w ["wifi", state]
      = (NetworkManager.setWifiRadio w.systemBus (decide (state = "on")) >>= fun flag =>
          if (!flag) = true then
            (do Eff.emit (.stderr ("Failed to set WiFi radio " ++ state)); pure 1)
          else pure 0) := by
  unfold radioCommand
  have hs : ¬ (state ≠ "on" ∧ state ≠ "off") := by
    rcases h with rfl | rfl <;> decide
  simp only [String.reduceEq, reduceIte, hs]

/-- The exit status of `main` for the commands that reach a core operation.
`device wifi list` (with any further arguments), `radio wifi`, `radio` and
`networking connectivity` return 0 whatever the outcome of the operation.
`device wifi connect`, `connection up`, `connection down`, `connection delete`
and `radio wifi on|off` return 0 when the operation returned `true` and 1 when
it returned `false` or threw.  `connection show` returns 0 when
`showConnections` returns, and ends with its exception otherwise. -/
theorem main_exit_status (w : World) (ssid password : String) (more : List String) :
    (main w ("nmcli" :: "device" :: "wifi" :: "list" :: more)).run.1 = .ok 0
      ∧ (main w ["nmcli", "radio", "wifi"]).run.1 = .ok 0
      ∧ (main w ["nmcli", "radio"]).run.1 = .ok 0
      ∧ (main w ["nmcli", "networking", "connectivity"]).run.1 = .ok 0
      ∧ (main w ["nmcli", "device", "wifi", "connect", ssid]).run.1
        = .ok (statusOf (IwdManager.new w.systemBus >>= fun connection_ =>
            IwdManager.connectToNetwork w.executeCommand connection_ ssid "").run)
      ∧ (main w ["nmcli", "device", "wifi", "connect", ssid, "password", password]).run.1
        = .ok (statusOf (IwdManager.new w.systemBus >>= fun connection_ =>
            IwdManager.connectToNetwork w.executeCommand connection_ ssid password).run)
      ∧ (main w ["nmcli", "connection", "up", ssid]).run.1
        = .ok (statusOf (NetworkManager.activateConnection w.executeCommand w.systemBus ssid).run)
      ∧ (main w ["nmcli", "connection", "down", ssid]).run.1
        = .ok (statusOf (NetworkManager.deactivateConnection w.systemBus ssid).run)
      ∧ (main w ["nmcli", "connection", "delete", ssid]).run.1
        = .ok (statusOf (NetworkManager.deleteConnection w.systemBus ssid).run)
      ∧ (main w ["nmcli", "radio", "wifi", "on"]).run.1
        = .ok (statusOf (NetworkManager.setWifiRadio w.systemBus true).run)
      ∧ (main w ["nmcli", "radio", "wifi", "off"]).run.1
        = .ok (statusOf (NetworkManager.setWifiRadio w.systemBus false).run)
      ∧ (main w ["nmcli", "connection", "show"]).run.1
        = match (NetworkManager.showConnections {} w.hash w.kernel w.systemBus).run.1 with
          | .ok _ => .ok 0
          | .error e => .error e := by
  refine ⟨?_, ?_, ?_, ?_, ?_, ?_, ?_, ?_, ?_, ?_, ?_, ?_⟩
  · have h := listWifiNetworks_total {} w.systemBus w.scanningAt (rescanOption more) []
    rw [main_device, deviceCommand_list]
    simp only [Eff.run, Eff.bind_apply, Eff.bind]
    rcases hr : NetworkManager.listWifiNetworks {} w.systemBus w.scanningAt (rescanOption more) []
      with ⟨r1, t1⟩
    rw [hr] at h
    simp only at h
    subst h
    rfl
  · rw [main_radio]
    exact radioStatus_status w
  · rw [main_radio]
    exact radioStatus_status w
  · rw [main_command w _ "networking" _ (by decide) (by decide) (by decide) (by decide)]
    unfold runCommand
    simp only [String.reduceEq, reduceIte]
    rfl
  · rw [main_device, deviceCommand_connect]
    exact connectCommand_status w ssid ""
  · rw [main_device, deviceCommand_connect_password]
    exact connectCommand_status w ssid password
  · rw [main_connection, connectionCommand_up]
    exact status_of_flag _ _ _ (activateConnection_total _ _ _ _)
  · rw [main_connection, connectionCommand_down]
    exact status_of_flag _ _ _ (deactivateConnection_total _ _ _)
  · rw [main_connection, connectionCommand_delete]
    exact status_of_flag _ _ _ (deleteConnection_total_at _ _ _)
  · rw [main_radio, radioCommand_set w "on" (Or.inl rfl)]
    exact status_of_not_flag _ _ (setWifiRadio_total _ _ _)
  · rw [main_radio, radioCommand_set w "off" (Or.inr rfl)]
    exact status_of_not_flag _ _ (setWifiRadio_total _ _ _)
  · rw [main_connection, connectionCommand_show]
    simp only [Eff.run, Eff.bind_apply, Eff.bind]
    rcases hr : NetworkManager.showConnections {} w.hash w.kernel w.systemBus [] with ⟨r1, t1⟩
    cases r1 <;> rfl

/-- The exit status on the daemon whose property reads fail: `connection down`
returns 1, the status of a failed operation. -/
theorem main_exit_status_witness :
    statusOf (NetworkManager.deactivateConnection worldFaulty.systemBus "Office").run = 1
      ∧ (main worldFaulty ["nmcli", "connection", "down", "Office"]).run.1 = .ok 1 :=
  ⟨rfl, (main_exit_status worldFaulty "Office" "" []).2.2.2.2.2.2.2.1.trans rfl⟩

/-! ## The table of `showConnections` -/

theorem showConnectionsDevices_run (hash : String → Nat) (st : Station) (bus : Bus)
    (connected current : String) (hc : st.connection_ = some bus)
    (hconnected : bus.getProperty st.device_object_path_ "net.connman.iwd.Station"
      "ConnectedNetwork" = .ok (.objectPath connected))
    (hname : bus.getProperty connected "net.connman.iwd.Network" "Name" = .ok (.str current))
    (devices : List NetworkManager.DeviceInfo) (connections : List NetworkManager.ConnectionInfo)
    (currentSSID : String) (t : List Event) :
    NetworkManager.showConnectionsDevices hash st devices connections currentSSID t
      = (.ok (connections ++ devices.map (deviceConnection hash current),
          if devices.any (fun device => device.type = "wifi") then current else currentSSID),
         t ++ deviceReads st connected devices) := by
  induction devices generalizing connections currentSSID t with
  | nil => simp [NetworkManager.showConnectionsDevices, deviceReads]
  | cons device more ih =>
    have hread := fun t => getConnectedNetwork_objectPath st bus connected t hc hconnected
    have hssid := fun t => getPropertyFromObjectPath_str st bus connected
      "net.connman.iwd.Network" "Name" current t hc hname
    unfold NetworkManager.showConnectionsDevices
    by_cases he : device.type = "ethernet"
    · have hw : device.type ≠ "wifi" := by rw [he]; decide
      have h0 : "Wired connection " ++ toString (0 : Int) = "Wired connection 0" := by decide
      simp [he, ih, deviceConnection, deviceReads, hw, h0]
    · by_cases hl : device.type = "loopback"
      · have hw : device.type ≠ "wifi" := by rw [hl]; decide
        simp [he, hl, ih, deviceConnection, deviceReads, hw]
      · by_cases hw : device.type = "wifi"
        · simp [he, hl, hw, ih, deviceConnection, deviceReads, Eff.bind, hread, hssid]
        · simp [he, hl, hw, ih, deviceConnection, deviceReads]

theorem showConnectionsKnown_run (hash : String → Nat) (st : Station) (bus : Bus)
    (compared : String) (name : String → String) (hc : st.connection_ = some bus)
    (known : List String)
    (hnames : ∀ p ∈ known,
      bus.getProperty p "net.connman.iwd.KnownNetwork" "Name" = .ok (.str (name p)))
    (connections : List NetworkManager.ConnectionInfo) (t : List Event) :
    NetworkManager.showConnectionsKnown hash st compared known connections t
      = (.ok (connections ++ knownConnections hash compared name known),
         t ++ knownNetworkReads known) := by
  induction known generalizing connections t with
  | nil => simp [NetworkManager.showConnectionsKnown, knownConnections, knownNetworkReads]
  | cons p more ih =>
    have hp := getPropertyFromObjectPath_str st bus p "net.connman.iwd.KnownNetwork" "Name"
      (name p) t hc (hnames p (List.mem_cons_self _ _))
    have ih1 := ih (fun q hq => hnames q (List.mem_cons_of_mem _ hq))
    unfold NetworkManager.showConnectionsKnown
    by_cases h : name p = compared
    · simp [Eff.bind, hp, h, ih1, knownConnections, knownNetworkReads]
    · simp [Eff.bind, hp, h, ih1, knownConnections, knownNetworkReads]

/-- The complete outcome of `showConnections` when the daemon answers. -/
theorem showConnections_run (nm : NetworkManager) (hash : String → Nat) (kernel : Kernel)
    (bus : Bus) (connected current : String) (known : List String) (name : String → String)
    (hready : StationReady bus)
    (hconnected : bus.getProperty (IwdManager.getDeviceObjectPath (some bus))
      "net.connman.iwd.Station" "ConnectedNetwork" = .ok (.objectPath connected))
    (hname : bus.getProperty connected "net.connman.iwd.Network" "Name" = .ok (.str current))
    (hknown : KnownNetworks bus known name) :
    (nm.showConnections hash kernel (.ok bus)).run
      = (.ok (), [.openConnection, .openConnection]
          ++ deviceReads (readyStation bus) connected (NetworkManager.listDevices kernel)
          ++ [.introspect "/net/connman/iwd"] ++ knownNetworkReads known
          ++ [.printFormattedTable
              (((NetworkManager.listDevices kernel).map (deviceConnection hash current)
                ++ knownConnections hash
                    (comparedSSID current (NetworkManager.listDevices kernel)) name known).map
                nm.connectionRow)
              nm.connectionHeaders]) := by
  obtain ⟨data, hdata, hloop⟩ := hknown.listed
  have hst : (readyStation bus).connection_ = some bus := rfl
  have hdev := showConnectionsDevices_run hash (readyStation bus) bus connected current hst
    hconnected hname
  have hall := fun t => getAllConnection_run (readyStation bus) bus data t hst hdata
  have hloop1 : Station.getAllConnectionLoop data.length data.data [] = known := hloop
  have hkn := fun compared => showConnectionsKnown_run hash (readyStation bus) bus
    compared name hst known hknown.names
  simp [Eff.run, NetworkManager.showConnections, Eff.bind, iwdManager_new_ok,
    createStation_ready bus hready, hdev, hall, hloop1, hkn, comparedSSID]

theorem knownConnections_facts (hash : String → Nat) (compared : String)
    (name : String → String) (known : List String) :
    (knownConnections hash compared name known).length
        = known.countP (fun p => name p ≠ compared)
      ∧ ∀ r ∈ knownConnections hash compared name known,
          r.type = "wifi" ∧ r.device = "" ∧ r.name ≠ compared
            ∧ ({ field_selection := ["DEVICE"] } : NetworkManager).connectionRow r = ["--"] := by
  refine ⟨by simp [knownConnections, List.countP_eq_length_filter], ?_⟩
  intro r hr
  simp only [knownConnections, List.mem_map, List.mem_filter] at hr
  obtain ⟨p, ⟨-, hp⟩, rfl⟩ := hr
  exact ⟨rfl, rfl, by simpa using hp,
    by simp [NetworkManager.connectionRow, NetworkManager.showField]⟩

/-- C29, refuted as stated: the station is connected to `Office`, which is also
a known network, and `listDevices` returns no device (netlink cannot be used).
`nmcli connection show` then prints an additional row for `Office`, with type
`wifi` and device `--`, although its `Name` equals the connected SSID. -/
theorem showConnections_connected_row_counterexample :
    (Station.getConnectedNetwork (readyStation busOfficeGuest)).run.1 = .ok officePath
      ∧ busOfficeGuest.getProperty officePath "net.connman.iwd.Network" "Name"
          = .ok (.str "Office")
      ∧ NetworkManager.listDevices worldOfficeNoNetlink.kernel = []
      ∧ (main worldOfficeNoNetlink ["nmcli", "connection", "show"]).run
        = (.ok 0, [.openConnection, .openConnection, .introspect "/net/connman/iwd",
            .getProperty "/net/connman/iwd/Office_psk" "net.connman.iwd.KnownNetwork" "Name",
            .getProperty "/net/connman/iwd/Guest_psk" "net.connman.iwd.KnownNetwork" "Name",
            .printFormattedTable
              [["Office", "00000000-0000-40000-8000-000000000000", "wifi", "--"],
               ["Guest", "00000000-0000-40000-8000-000000000000", "wifi", "--"]]
              ["NAME", "UUID", "TYPE", "DEVICE"]]) :=
  ⟨rfl, rfl, rfl, rfl⟩

/-- C29, amended: when the daemon answers, `showConnections` prints one table:
the rows of the devices, followed by one row with type `wifi` and an empty
device (shown as `--`) for every known network whose `Name` differs from the
compared SSID, in the order of `getAllConnection`; a known network whose `Name`
equals the compared SSID yields no row.  The compared SSID is the SSID of the
connected network when the device list has a device of type `wifi`, and the
empty string otherwise. -/
theorem showConnections_reconciles (nm : NetworkManager) (hash : String → Nat)
    (kernel : Kernel) (bus : Bus) (connected current : String) (known : List String)
    (name : String → String) (hready : StationReady bus)
    (hconnected : bus.getProperty (IwdManager.getDeviceObjectPath (some bus))
      "net.connman.iwd.Station" "ConnectedNetwork" = .ok (.objectPath connected))
    (hname : bus.getProperty connected "net.connman.iwd.Network" "Name" = .ok (.str current))
    (hknown : KnownNetworks bus known name) :
    (nm.showConnections hash kernel (.ok bus)).run
        = (.ok (), [.openConnection, .openConnection]
            ++ deviceReads (readyStation bus) connected (NetworkManager.listDevices kernel)
            ++ [.introspect "/net/connman/iwd"] ++ knownNetworkReads known
            ++ [.printFormattedTable
                (((NetworkManager.listDevices kernel).map (deviceConnection hash current)
                  ++ knownConnections hash
                      (comparedSSID current (NetworkManager.listDevices kernel)) name known).map
                  nm.connectionRow)
                nm.connectionHeaders])
      ∧ (knownConnections hash (comparedSSID current (NetworkManager.listDevices kernel)) name
            known).length
          = known.countP
              (fun p => name p ≠ comparedSSID current (NetworkManager.listDevices kernel))
      ∧ (∀ r ∈ knownConnections hash (comparedSSID current (NetworkManager.listDevices kernel))
            name known,
          r.type = "wifi" ∧ r.device = ""
            ∧ r.name ≠ comparedSSID current (NetworkManager.listDevices kernel)
            ∧ ({ field_selection := ["DEVICE"] } : NetworkManager).connectionRow r = ["--"])
      ∧ ((∃ device ∈ NetworkManager.listDevices kernel, device.type = "wifi") →
          comparedSSID current (NetworkManager.listDevices kernel) = current)
      ∧ ((∀ device ∈ NetworkManager.listDevices kernel, device.type ≠ "wifi") →
          comparedSSID current (NetworkManager.listDevices kernel) = "") := by
  refine ⟨showConnections_run nm hash kernel bus connected current known name hready hconnected
    hname hknown, (knownConnections_facts _ _ _ _).1, (knownConnections_facts _ _ _ _).2, ?_, ?_⟩
  · intro h
    simp only [comparedSSID, List.any_eq_true, decide_eq_true_eq]
    rw [if_pos h]
  · intro h
    simp only [comparedSSID, List.any_eq_true, decide_eq_true_eq]
    rw [if_neg (fun ⟨device, hd, hw⟩ => h device hd hw)]

/-- Witness of C29 in the world of the scenarios, where `wlan0` is connected to
`Office` and the known networks are `Office` and `Guest`: the table has the
rows of `lo`, `eth0` and `wlan0`, and one additional row, for `Guest`. -/
theorem showConnections_reconciles_witness :
    StationReady busOfficeGuest
      ∧ ((NetworkManager.showConnections {} (fun _ => 0) kernelHome (.ok busOfficeGuest)).run.2.filter
          Event.isPrintTable)
        = [.printFormattedTable
            [["lo", "00000000-0000-40000-8000-000000000000", "loopback", "lo"],
             ["Wired connection 0", "00000000-0000-40000-8000-000000000000", "ethernet", "eth0"],
             ["Office", "00000000-0000-40000-8000-000000000000", "wifi", "wlan0"],
             ["Guest", "00000000-0000-40000-8000-000000000000", "wifi", "--"]]
            ["NAME", "UUID", "TYPE", "DEVICE"]]
      ∧ (knownConnections (fun _ => 0) (comparedSSID "Office" (NetworkManager.listDevices kernelHome))
          scenarioName ["/net/connman/iwd/Office_psk", "/net/connman/iwd/Guest_psk"]).length
        = ["/net/connman/iwd/Office_psk", "/net/connman/iwd/Guest_psk"].countP
            (fun p => scenarioName p
              ≠ comparedSSID "Office" (NetworkManager.listDevices kernelHome)) :=
  ⟨⟨by decide, rfl⟩, by rfl,
    (showConnections_reconciles {} (fun _ => 0) kernelHome busOfficeGuest officePath "Office"
      ["/net/connman/iwd/Office_psk", "/net/connman/iwd/Guest_psk"] scenarioName
      ⟨by decide, rfl⟩ rfl rfl
      ⟨⟨_, rfl, by decide⟩, by
        intro p hp
        simp only [List.mem_cons, List.mem_singleton, List.not_mem_nil, or_false] at hp
        rcases hp with rfl | rfl <;> rfl⟩).2.1⟩

end NmcliAlt
